import Mathlib

/-!
# chat-service: schedule lifecycle and role-based approval workflow

A shallow embedding of the schedule workflow of `Amierza/chat-service`
(`service/schedule_service.go`, `repository/schedule_repository.go`,
`entity/enum.go`, `entity/schedule_entity.go`) followed by the properties
proved about it.

Modelling conventions

* Identifiers (`uuid.UUID` and their string renderings) are `String`s;
  `time.Time` is a `Nat`, `0` being the zero instant.
* The relational store is a record of tables (`DB`), each table a list of rows in
  insertion order.  The object-relational mapper is replaced by the list
  operations its calls denote: `Take` is `List.find?`, `Where ... Delete` is
  `List.filter`, `Updates` is `List.map` over the matching rows, `Preload`
  is a lookup in the referenced table, `JOIN` is `List.flatMap`.
* A Go function returning `(value, error)` that can also dereference a nil
  pointer or index an empty slice returns an `Outcome`: `ok v`, `err e` or
  `fault` (the run time panic).
* Every mutating repository call appends one entry to `DB.journal`, so that
  "the repository method was not invoked" is the statement that the store,
  journal included, is unchanged.
* Logging has no effect on the store and is left out, except where evaluating
  the arguments of a log call can panic.
-/

namespace ChatService

/-! ## Package `constants` -/

namespace constants

/-- Modelled from the spec: package `constants` is not among the sources; the
role strings are the ones the data model lists. -/
def ENUM_ROLE_STUDENT : String := "student"

/-- Modelled from the spec: role string of the data model (package `constants` is absent). -/
def ENUM_ROLE_LECTURER : String := "lecturer"

/-- Modelled from the spec: role string of the data model (package `constants` is absent). -/
def ENUM_ROLE_PRIMARY_LECTURER : String := "primary_lecturer"

/-- Modelled from the spec: role string of the data model (package `constants` is absent). -/
def ENUM_ROLE_SECONDARY_LECTURER : String := "secondary_lecturer"

/-- Modelled from the spec: schedule status string (package `constants` is absent). -/
def ENUM_SCHEDULE_STATUS_PENDING : String := "pending"

/-- Modelled from the spec: schedule status string (package `constants` is absent). -/
def ENUM_SCHEDULE_STATUS_APPROVED : String := "approved"

/-- Modelled from the spec: schedule status string (package `constants` is absent). -/
def ENUM_SCHEDULE_STATUS_REJECTED : String := "rejected"

end constants

/-! ## Package `entity`: enumerations (`entity/enum.go`) -/

namespace entity

abbrev Role := String
abbrev Progress := String
abbrev ScheduleStatus := String

def STUDENT : Role := constants.ENUM_ROLE_STUDENT
def LECTURER : Role := constants.ENUM_ROLE_LECTURER
def PRIMARY_LECTURER : Role := constants.ENUM_ROLE_PRIMARY_LECTURER
def SECONDARY_LECTURER : Role := constants.ENUM_ROLE_SECONDARY_LECTURER

def SCHEDULE_PENDING : ScheduleStatus := constants.ENUM_SCHEDULE_STATUS_PENDING
def SCHEDULE_APPROVED : ScheduleStatus := constants.ENUM_SCHEDULE_STATUS_APPROVED
def SCHEDULE_REJECTED : ScheduleStatus := constants.ENUM_SCHEDULE_STATUS_REJECTED

/-- The function `IsValidRole` of `entity/enum.go`. -/
def IsValidRole (r : Role) : Bool :=
  r == STUDENT || r == PRIMARY_LECTURER || r == SECONDARY_LECTURER

/-- The function `IsValidScheduleStatus` of `entity/enum.go`. -/
def IsValidScheduleStatus (ss : ScheduleStatus) : Bool :=
  ss == SCHEDULE_PENDING || ss == SCHEDULE_APPROVED || ss == SCHEDULE_REJECTED

end entity

/-! ## Errors and outcomes -/

/-- The error values the services return. -/
inductive Err where
  /-- The error `dto.ErrNotFound`. -/
  | ErrNotFound
  /-- The error `dto.ErrGetUserIDFromToken`. -/
  | ErrGetUserIDFromToken
  /-- The error `dto.ErrGetThesisByID`. -/
  | ErrGetThesisByID
  /-- The error `gorm.ErrRecordNotFound`. -/
  | ErrRecordNotFound
  /-- An error built by `fmt.Errorf` with the given text. -/
  | Errorf (msg : String)
  /-- Any other error of a collaborator (token verification, storage backend). -/
  | other (msg : String)
deriving DecidableEq, Repr, Inhabited

/-- What a call of a service method ends in. -/
inductive Outcome (α : Type) where
  /-- Normal return with a nil error. -/
  | ok (a : α)
  /-- Normal return with a non-nil error. -/
  | err (e : Err)
  /-- Run time panic: nil pointer dereference or index out of range. -/
  | fault
deriving DecidableEq, Repr

abbrev Time := Nat

/-! ## Tables -/

/-- A row of table `students`. -/
structure StudentRow where
  ID : String
  Name : String
  Nim : String
deriving DecidableEq, Repr, Inhabited

/-- A row of table `lecturers`; also the loaded `entity.Lecturer`. -/
structure Lecturer where
  ID : String
  Name : String
  Nip : String
deriving DecidableEq, Repr, Inhabited

/-- A row of table `users`. -/
structure UserRow where
  ID : String
  Identifier : String
  Role : entity.Role
  StudentID : Option String
  LecturerID : Option String
deriving DecidableEq, Repr, Inhabited

/-- A row of table `theses`. -/
structure ThesisRow where
  ID : String
  Title : String
  Description : String
  Progress : entity.Progress
  StudentID : String
deriving DecidableEq, Repr, Inhabited

/-- A row of table `thesis_supervisors`. -/
structure ThesisSupervisorRow where
  ThesisID : String
  LecturerID : String
deriving DecidableEq, Repr, Inhabited

/-- A row of table `schedules`: the columns of `entity.Schedule`
(`entity/schedule_entity.go`); the embedded `TimeStamp` is not among the sources
and is left out. -/
structure ScheduleRow where
  ID : String
  ProposedAt : Time
  StartTime : Time
  EndTime : Time
  Status : entity.ScheduleStatus
  Description : String
  Location : String
  ThesisID : String
  CreatedByID : String
  ApprovedByID : Option String
deriving DecidableEq, Repr, Inhabited

/-- Journal entry: one mutating repository call. -/
inductive Write where
  | CreateSchedule (row : ScheduleRow)
  | UpdateSchedule (row : ScheduleRow)
  | UpdateScheduleStatus (id status approvedID : String)
  | DeleteScheduleByID (id : String)
  | UpdateThesis (row : ThesisRow)
deriving DecidableEq, Repr

/-- The store. -/
structure DB where
  users : List UserRow
  students : List StudentRow
  lecturers : List Lecturer
  theses : List ThesisRow
  thesis_supervisors : List ThesisSupervisorRow
  schedules : List ScheduleRow
  journal : List Write
deriving DecidableEq, Repr

/-! ## Loaded aggregates (`entity` structs with their associations) -/

/-- Modelled from the spec: `entity.Student` is not among the sources; the fields
are the ones the services read (`ID`, `Name`, `Nim`, `Theses`). -/
structure Student where
  ID : String
  Name : String
  Nim : String
  Theses : List ThesisRow
deriving DecidableEq, Repr, Inhabited

/-- Modelled from the spec: `entity.ThesisSupervisor` is not among the sources. -/
structure ThesisSupervisor where
  ThesisID : String
  LecturerID : String
  Lecturer : Lecturer
deriving DecidableEq, Repr, Inhabited

/-- Modelled from the spec: `entity.Thesis` is not among the sources; it has an
owning student and a list of supervisors. -/
structure Thesis where
  ID : String
  Title : String
  Description : String
  Progress : entity.Progress
  StudentID : String
  Student : Student
  Supervisors : List ThesisSupervisor
deriving DecidableEq, Repr, Inhabited

/-- Modelled from the spec: `entity.User` is not among the sources; a user has a role,
an identifier and an optional linked student or lecturer profile (a nil pointer
when absent or not preloaded). -/
structure User where
  ID : String
  Identifier : String
  Role : entity.Role
  Student : Option Student
  Lecturer : Option Lecturer
deriving DecidableEq, Repr, Inhabited

/-- The struct `entity.Schedule` as loaded, with its associations
(`entity/schedule_entity.go`). -/
structure Schedule where
  ID : String
  ProposedAt : Time
  StartTime : Time
  EndTime : Time
  Status : entity.ScheduleStatus
  Description : String
  Location : String
  ThesisID : String
  Thesis : Thesis
  CreatedByID : String
  CreatedBy : User
  ApprovedByID : Option String
  ApprovedBy : Option User
deriving DecidableEq, Repr, Inhabited

/-! ## Package `dto` and `response` (shapes read off their uses) -/

namespace dto

structure CustomUserResponse where
  ID : String
  Name : String
  Identifier : String
  Role : String
deriving DecidableEq, Repr, Inhabited

structure ThesisResponse where
  ID : String
  Title : String
  Description : String
  Progress : entity.Progress
  Student : Option CustomUserResponse
  Supervisors : List CustomUserResponse
deriving DecidableEq, Repr, Inhabited

structure ScheduleResponse where
  ID : String
  ProposedAt : Time
  StartTime : Time
  EndTime : Time
  Status : entity.ScheduleStatus
  Description : String
  Location : String
  Thesis : ThesisResponse
  CreatedBy : CustomUserResponse
  ApprovedBy : Option CustomUserResponse
deriving DecidableEq, Repr, Inhabited

structure CreateScheduleRequest where
  ProposedAt : Time
  StartTime : Time
  EndTime : Time
  Description : String
  Location : String
deriving DecidableEq, Repr, Inhabited

structure UpdateScheduleRequest where
  ID : String
  ProposedAt : Time
  StartTime : Time
  EndTime : Time
  Description : String
  Location : String
deriving DecidableEq, Repr, Inhabited

structure ApprovalScheduleRequest where
  ID : String
  Status : entity.ScheduleStatus
deriving DecidableEq, Repr, Inhabited

end dto

namespace response

structure PaginationRequest where
  Page : Int
  PerPage : Int
deriving DecidableEq, Repr, Inhabited

structure PaginationResponse where
  Page : Int
  PerPage : Int
  MaxPage : Int
  Count : Int
deriving DecidableEq, Repr, Inhabited

end response

namespace dto

structure SchedulePaginationRepositoryResponse where
  Schedules : List Schedule
  PaginationResponse : response.PaginationResponse
deriving DecidableEq, Repr, Inhabited

structure SchedulePaginationResponse where
  Data : List ScheduleResponse
  PaginationResponse : response.PaginationResponse
deriving DecidableEq, Repr, Inhabited

end dto

/-! ## Storage primitives -/

/-- The query `Where(p).Take(&row)`: the first matching row, or
`gorm.ErrRecordNotFound` when there is none. -/
def Take {α : Type} (rows : List α) (p : α → Bool) : Except Err α :=
  match rows.find? p with
  | some r => .ok r
  | none => .error Err.ErrRecordNotFound

/-- Struct `Updates` writes only non-zero fields: a string column. -/
def nzString (new old : String) : String := if new = "" then old else new

/-- Struct `Updates` writes only non-zero fields: a time column. -/
def nzTime (new old : Time) : Time := if new = 0 then old else new

/-- Struct `Updates` writes only non-zero fields: a nullable column. -/
def nzOpt (new old : Option String) : Option String :=
  match new with
  | none => old
  | some v => some v

/-- Modelled from the spec: `repository.Paginate` is not among the sources; it is the
limit/offset scope of the paginated fetch: offset `(page - 1) * perPage` (applied when
positive) and limit `perPage` (applied when not negative). -/
def Paginate {α : Type} (page perPage : Int) (rows : List α) : List α :=
  let offset := (page - 1) * perPage
  let rows := if offset > 0 then rows.drop offset.toNat else rows
  if perPage ≥ 0 then rows.take perPage.toNat else rows

/-- The expression `int64(math.Ceil(float64(count) / float64(perPage)))`, computed on
integers: the ceiling of the quotient. -/
def ceilDiv (count perPage : Int) : Int := -((-count).fdiv perPage)

/-! ## Preloading of associations -/

/-- Preload of a `Lecturer` association held by value: the referenced row, or the zero
value when there is none. -/
def preloadLecturer (db : DB) (id : String) : Lecturer :=
  (db.lecturers.find? (fun l => l.ID == id)).getD default

/-- Preload of a `Student` association; `theses` says whether `Student.Theses` is
preloaded too. -/
def preloadStudent (db : DB) (id : String) (theses : Bool) : Option Student :=
  (db.students.find? (fun s => s.ID == id)).map fun s =>
    { ID := s.ID, Name := s.Name, Nim := s.Nim,
      Theses := if theses then db.theses.filter (fun t => t.StudentID == id) else [] }

/-- Preload of `Supervisors.Lecturer` of a thesis. -/
def preloadSupervisors (db : DB) (thesisID : String) : List ThesisSupervisor :=
  (db.thesis_supervisors.filter (fun ts => ts.ThesisID == thesisID)).map fun ts =>
    { ThesisID := ts.ThesisID, LecturerID := ts.LecturerID,
      Lecturer := preloadLecturer db ts.LecturerID }

/-- A thesis row with `Supervisors.Lecturer` and `Student` preloaded. -/
def loadThesis (db : DB) (row : ThesisRow) : Thesis :=
  { ID := row.ID, Title := row.Title, Description := row.Description,
    Progress := row.Progress, StudentID := row.StudentID,
    Student := (preloadStudent db row.StudentID false).getD default,
    Supervisors := preloadSupervisors db row.ID }

/-- Preload of the `Thesis` association of a schedule (held by value). -/
def preloadThesis (db : DB) (thesisID : String) : Thesis :=
  ((db.theses.find? (fun t => t.ID == thesisID)).map (loadThesis db)).getD default

/-- A user row with the chosen associations preloaded. -/
def loadUser (db : DB) (u : UserRow) (student theses lecturer : Bool) : User :=
  { ID := u.ID, Identifier := u.Identifier, Role := u.Role,
    Student := if student then u.StudentID.bind (fun sid => preloadStudent db sid theses) else none,
    Lecturer :=
      if lecturer then u.LecturerID.bind (fun lid => db.lecturers.find? (fun l => l.ID == lid))
      else none }

/-- Preload of a `User` association. -/
def preloadUser (db : DB) (id : String) (student theses lecturer : Bool) : Option User :=
  (db.users.find? (fun u => u.ID == id)).map (fun u => loadUser db u student theses lecturer)

/-- A schedule row with `Thesis...`, `CreatedBy.Student` and `ApprovedBy` preloaded;
`approverStudent` says whether `ApprovedBy.Student` is preloaded (`ApprovedBy.Lecturer`
always is). -/
def loadSchedule (db : DB) (row : ScheduleRow) (approverStudent : Bool) : Schedule :=
  { ID := row.ID, ProposedAt := row.ProposedAt, StartTime := row.StartTime,
    EndTime := row.EndTime, Status := row.Status, Description := row.Description,
    Location := row.Location,
    ThesisID := row.ThesisID, Thesis := preloadThesis db row.ThesisID,
    CreatedByID := row.CreatedByID,
    CreatedBy := (preloadUser db row.CreatedByID true false false).getD default,
    ApprovedByID := row.ApprovedByID,
    ApprovedBy := row.ApprovedByID.bind (fun aid => preloadUser db aid approverStudent false true) }

/-- The columns of a schedule struct. -/
def Schedule.toRow (s : Schedule) : ScheduleRow :=
  { ID := s.ID, ProposedAt := s.ProposedAt, StartTime := s.StartTime, EndTime := s.EndTime,
    Status := s.Status, Description := s.Description, Location := s.Location,
    ThesisID := s.ThesisID, CreatedByID := s.CreatedByID, ApprovedByID := s.ApprovedByID }

/-! ## Package `repository` -/

namespace userRepository

/-- Modelled from the spec: `userRepository.GetUserByID` is not among the sources; it
resolves a user id to the user record with its student (and the student's theses) and
lecturer profile, `found = false` with a nil error when no record has the id. -/
def GetUserByID (db : DB) (userID : String) : User × Bool × Option Err :=
  match Take db.users (fun u => u.ID == userID) with
  | .error e =>
    if e = Err.ErrRecordNotFound then (default, false, none) else (default, false, some e)
  | .ok u => (loadUser db u true true true, true, none)

end userRepository

namespace scheduleRepository

/-- The method `scheduleRepository.CreateSchedule`: insert of the row; the primary key
`ID` makes the insert of a second row with the same id fail. -/
def CreateSchedule (db : DB) (schedule : Schedule) : Option Err × DB :=
  let db1 := { db with journal := db.journal ++ [Write.CreateSchedule schedule.toRow] }
  if db.schedules.any (fun r => r.ID == schedule.ID) then
    (some (Err.other "duplicate key value violates unique constraint"), db1)
  else
    (none, { db1 with schedules := db.schedules ++ [schedule.toRow] })

/-- The method `scheduleRepository.GetThesisByID`: `err != nil` is tested before
`errors.Is(err, gorm.ErrRecordNotFound)`, so a missing record comes back as the storage
error. -/
def GetThesisByID (db : DB) (thesisID : String) : Thesis × Bool × Option Err :=
  match Take db.theses (fun t => t.ID == thesisID) with
  | .error err => (default, false, some err)
  | .ok row => (loadThesis db row, true, none)

/-- The `switch role` of `GetAllSchedulesByUserIDWithPagination`: the rows the query
selects before ordering and pagination. -/
def roleQuery (db : DB) (role userID : String) : List ScheduleRow :=
  if role = constants.ENUM_ROLE_STUDENT then
    db.schedules.filter (fun s => s.CreatedByID == userID)
  else if role = constants.ENUM_ROLE_LECTURER then
    db.schedules.flatMap fun s =>
      (db.theses.filter (fun t => s.ThesisID == t.ID)).flatMap fun t =>
        (db.thesis_supervisors.filter (fun ts => t.ID == ts.ThesisID)).flatMap fun ts =>
          (db.lecturers.filter (fun l => ts.LecturerID == l.ID)).flatMap fun l =>
            (db.users.filter (fun u => u.LecturerID == some l.ID && u.ID == userID)).map
              fun _ => s
  else
    db.schedules

/-- The method `scheduleRepository.GetAllSchedulesByUserIDWithPagination`; the order
`created_at DESC` is the reverse of the insertion order. -/
def GetAllSchedulesByUserIDWithPagination (db : DB) (pagination : response.PaginationRequest)
    (role userID : String) : dto.SchedulePaginationRepositoryResponse × Option Err :=
  let pagination : response.PaginationRequest :=
    if pagination.PerPage = 0 then { pagination with PerPage := 10 } else pagination
  let pagination : response.PaginationRequest :=
    if pagination.Page = 0 then { pagination with Page := 1 } else pagination
  let query := (roleQuery db role userID).reverse
  let count : Int := query.length
  let schedules := (Paginate pagination.Page pagination.PerPage query).map
    (fun row => loadSchedule db row false)
  let totalPage := ceilDiv count pagination.PerPage
  ({ Schedules := schedules,
     PaginationResponse :=
       { Page := pagination.Page, PerPage := pagination.PerPage,
         MaxPage := totalPage, Count := count } }, none)

/-- The method `scheduleRepository.GetScheduleByID`. -/
def GetScheduleByID (db : DB) (id : String) : Schedule × Bool × Option Err :=
  match Take db.schedules (fun r => r.ID == id) with
  | .error err =>
    if err = Err.ErrRecordNotFound then (default, false, none) else (default, false, some err)
  | .ok row => (loadSchedule db row true, true, none)

/-- The write `Updates(&schedule)` on one matching row: every non-zero column of the
struct replaces the stored one. -/
def updatesRow (schedule : Schedule) (r : ScheduleRow) : ScheduleRow :=
  { ID := nzString schedule.ID r.ID,
    ProposedAt := nzTime schedule.ProposedAt r.ProposedAt,
    StartTime := nzTime schedule.StartTime r.StartTime,
    EndTime := nzTime schedule.EndTime r.EndTime,
    Status := nzString schedule.Status r.Status,
    Description := nzString schedule.Description r.Description,
    Location := nzString schedule.Location r.Location,
    ThesisID := nzString schedule.ThesisID r.ThesisID,
    CreatedByID := nzString schedule.CreatedByID r.CreatedByID,
    ApprovedByID := nzOpt schedule.ApprovedByID r.ApprovedByID }

/-- The method `scheduleRepository.UpdateSchedule`. -/
def UpdateSchedule (db : DB) (schedule : Schedule) : Option Err × DB :=
  (none,
    { db with
      schedules := db.schedules.map
        (fun r => if r.ID == schedule.ID then updatesRow schedule r else r),
      journal := db.journal ++ [Write.UpdateSchedule schedule.toRow] })

/-- The method `scheduleRepository.UpdateScheduleStatus`: one write of the two columns
`status` and `approved_by_id` on the rows with the id. -/
def UpdateScheduleStatus (db : DB) (id status approvedID : String) : Option Err × DB :=
  (none,
    { db with
      schedules := db.schedules.map
        (fun r => if r.ID == id then
          { r with Status := status, ApprovedByID := some approvedID } else r),
      journal := db.journal ++ [Write.UpdateScheduleStatus id status approvedID] })

/-- The method `scheduleRepository.DeleteScheduleByID`. -/
def DeleteScheduleByID (db : DB) (id : String) : Option Err × DB :=
  (none,
    { db with
      schedules := db.schedules.filter (fun r => !(r.ID == id)),
      journal := db.journal ++ [Write.DeleteScheduleByID id] })

end scheduleRepository

/-! ## Package `service`: `schedule_service.go` -/

/-- The struct `scheduleService`: the repositories act on the `DB` passed to each
method; `jwt` is `IJWT.GetUserIDByToken`, whose implementation is not among the
sources. -/
structure scheduleService where
  jwt : String → Except Err String

/-- The `dto.ThesisResponse` literal every schedule response is built with. -/
def thesisResponse (thesis : Thesis) : dto.ThesisResponse :=
  { ID := thesis.ID, Title := thesis.Title, Description := thesis.Description,
    Progress := thesis.Progress,
    Student := some
      { ID := thesis.Student.ID, Name := thesis.Student.Name,
        Identifier := thesis.Student.Nim, Role := constants.ENUM_ROLE_STUDENT },
    Supervisors := thesis.Supervisors.map fun sup =>
      { ID := sup.Lecturer.ID, Name := sup.Lecturer.Name,
        Identifier := sup.Lecturer.Nip, Role := constants.ENUM_ROLE_LECTURER } }

/-- The projection of one loaded schedule in `GetAllWithPagination` and `GetDetail`:
`data.CreatedBy.Student.Name` and `data.ApprovedBy.Lecturer.Name` dereference the
profile pointers. -/
def scheduleResponse (data : Schedule) : Outcome dto.ScheduleResponse :=
  match data.CreatedBy.Student with
  | none => .fault
  | some creator =>
    let schedule : dto.ScheduleResponse :=
      { ID := data.ID, ProposedAt := data.ProposedAt, StartTime := data.StartTime,
        EndTime := data.EndTime, Status := data.Status, Description := data.Description,
        Location := data.Location,
        Thesis := thesisResponse data.Thesis,
        CreatedBy :=
          { ID := data.CreatedBy.ID, Name := creator.Name,
            Identifier := data.CreatedBy.Identifier, Role := data.CreatedBy.Role },
        ApprovedBy := none }
    match data.ApprovedBy with
    | none => .ok schedule
    | some approver =>
      match approver.Lecturer with
      | none => .fault
      | some lecturer =>
        .ok { schedule with
              ApprovedBy := some
                { ID := approver.ID, Name := lecturer.Name,
                  Identifier := approver.Identifier, Role := approver.Role } }

/-- The loop of `GetAllWithPagination` over the loaded schedules. -/
def scheduleResponses : List Schedule → Outcome (List dto.ScheduleResponse)
  | [] => .ok []
  | data :: rest =>
    match scheduleResponse data with
    | .ok schedule =>
      match scheduleResponses rest with
      | .ok schedules => .ok (schedule :: schedules)
      | .err e => .err e
      | .fault => .fault
    | .err e => .err e
    | .fault => .fault

namespace scheduleService

/-- The method `scheduleService.Create`; `newScheduleID` is the value of `uuid.New()`. -/
def Create (ss : scheduleService) (db : DB) (token : String) (newScheduleID : String)
    (req : dto.CreateScheduleRequest) : Outcome dto.ScheduleResponse × DB :=
  match ss.jwt token with
  | .error err => (.err err, db)
  | .ok userIDString =>
    match userRepository.GetUserByID db userIDString with
    | (_, _, some err) => (.err err, db)
    | (_, false, none) => (.err Err.ErrNotFound, db)
    | (user, true, none) =>
      match user.Student with
      | none => (.fault, db)
      | some student =>
        match student.Theses with
        | [] => (.fault, db)
        | thesis0 :: _ =>
          match scheduleRepository.GetThesisByID db thesis0.ID with
          | (_, _, some err) => (.err err, db)
          | (_, false, none) => (.err Err.ErrNotFound, db)
          | (thesis, true, none) =>
            let newSchedule : Schedule :=
              { (default : Schedule) with
                ID := newScheduleID,
                ProposedAt := req.ProposedAt,
                StartTime := req.StartTime,
                EndTime := req.EndTime,
                Status := constants.ENUM_SCHEDULE_STATUS_PENDING,
                Description := req.Description,
                Location := req.Location,
                ThesisID := thesis.ID,
                CreatedByID := user.ID }
            match scheduleRepository.CreateSchedule db newSchedule with
            | (some err, db1) => (.err err, db1)
            | (none, db1) =>
              (.ok
                { ID := newSchedule.ID, ProposedAt := newSchedule.ProposedAt,
                  StartTime := newSchedule.StartTime, EndTime := newSchedule.EndTime,
                  Status := newSchedule.Status, Description := newSchedule.Description,
                  Location := newSchedule.Location,
                  Thesis := thesisResponse thesis,
                  CreatedBy :=
                    { ID := user.ID, Name := student.Name,
                      Identifier := user.Identifier, Role := user.Role },
                  ApprovedBy := none }, db1)

/-- The method `scheduleService.GetAllWithPagination`. -/
def GetAllWithPagination (ss : scheduleService) (db : DB) (token : String)
    (req : response.PaginationRequest) : Outcome dto.SchedulePaginationResponse :=
  match ss.jwt token with
  | .error _ => .err Err.ErrGetUserIDFromToken
  | .ok userIDString =>
    match userRepository.GetUserByID db userIDString with
    | (_, _, some err) => .err err
    | (_, false, none) => .err Err.ErrNotFound
    | (user, true, none) =>
      match scheduleRepository.GetAllSchedulesByUserIDWithPagination db req user.Role
          userIDString with
      | (_, some err) => .err err
      | (datas, none) =>
        match scheduleResponses datas.Schedules with
        | .ok schedules =>
          .ok { Data := schedules,
                PaginationResponse :=
                  { Page := datas.PaginationResponse.Page,
                    PerPage := datas.PaginationResponse.PerPage,
                    MaxPage := datas.PaginationResponse.MaxPage,
                    Count := datas.PaginationResponse.Count } }
        | .err e => .err e
        | .fault => .fault

/-- The method `scheduleService.GetDetail`; the caller's token travels in `ctx` and is
not read. -/
def GetDetail (_ss : scheduleService) (db : DB) (_token : String) (id : String) :
    Outcome dto.ScheduleResponse :=
  match scheduleRepository.GetScheduleByID db id with
  | (_, _, some err) => .err err
  | (_, false, none) => .err Err.ErrNotFound
  | (data, true, none) => scheduleResponse data

/-- The method `scheduleService.Update`.  The log call of the thesis-not-found branch
evaluates `user.Student.Theses[0]`, the response reads `user.Student.Name`. -/
def Update (ss : scheduleService) (db : DB) (token : String)
    (req : dto.UpdateScheduleRequest) : Outcome dto.ScheduleResponse × DB :=
  match ss.jwt token with
  | .error err => (.err err, db)
  | .ok userIDString =>
    match userRepository.GetUserByID db userIDString with
    | (_, _, some err) => (.err err, db)
    | (_, false, none) => (.err Err.ErrNotFound, db)
    | (user, true, none) =>
      match scheduleRepository.GetScheduleByID db req.ID with
      | (_, _, some err) => (.err err, db)
      | (_, false, none) => (.err Err.ErrNotFound, db)
      | (schedule, true, none) =>
        match scheduleRepository.GetThesisByID db schedule.Thesis.ID with
        | (_, _, some err) => (.err err, db)
        | (_, false, none) =>
          match user.Student with
          | none => (.fault, db)
          | some student =>
            match student.Theses with
            | [] => (.fault, db)
            | _ :: _ => (.err Err.ErrNotFound, db)
        | (_, true, none) =>
          let schedule : Schedule :=
            { schedule with
              ProposedAt := req.ProposedAt,
              StartTime := req.StartTime,
              EndTime := req.EndTime,
              Description := req.Description,
              Location := req.Location }
          match scheduleRepository.UpdateSchedule db schedule with
          | (some err, db1) => (.err err, db1)
          | (none, db1) =>
            match user.Student with
            | none => (.fault, db1)
            | some student =>
              (.ok
                { ID := schedule.ID, ProposedAt := schedule.ProposedAt,
                  StartTime := schedule.StartTime, EndTime := schedule.EndTime,
                  Status := schedule.Status, Description := schedule.Description,
                  Location := schedule.Location,
                  Thesis := thesisResponse schedule.Thesis,
                  CreatedBy :=
                    { ID := user.ID, Name := student.Name,
                      Identifier := user.Identifier, Role := user.Role },
                  ApprovedBy := none }, db1)

/-- The method `scheduleService.Approval`. -/
def Approval (ss : scheduleService) (db : DB) (token : String)
    (req : dto.ApprovalScheduleRequest) : Outcome Unit × DB :=
  match scheduleRepository.GetScheduleByID db req.ID with
  | (_, _, some err) => (.err err, db)
  | (_, false, none) => (.err Err.ErrNotFound, db)
  | (_, true, none) =>
    match ss.jwt token with
    | .error err => (.err err, db)
    | .ok userIDString =>
      match userRepository.GetUserByID db userIDString with
      | (_, _, some err) => (.err err, db)
      | (_, false, none) => (.err Err.ErrNotFound, db)
      | (user, true, none) =>
        if user.Role = constants.ENUM_ROLE_STUDENT then
          (.err (Err.Errorf "access denied"), db)
        else
          let newStatus := req.Status
          if !entity.IsValidScheduleStatus newStatus then
            (.err (Err.Errorf ("invalid status schedule: " ++ newStatus)), db)
          else
            match scheduleRepository.UpdateScheduleStatus db req.ID newStatus userIDString with
            | (some err, db1) => (.err err, db1)
            | (none, db1) => (.ok (), db1)

/-- The method `scheduleService.Delete`; the caller's token travels in `ctx` and is not
read. -/
def Delete (_ss : scheduleService) (db : DB) (_token : String) (id : String) :
    Outcome Unit × DB :=
  match scheduleRepository.GetScheduleByID db id with
  | (_, _, some err) => (.err err, db)
  | (_, false, none) => (.err Err.ErrNotFound, db)
  | (_, true, none) =>
    match scheduleRepository.DeleteScheduleByID db id with
    | (some err, db1) => (.err err, db1)
    | (none, db1) => (.ok (), db1)

end scheduleService

/-! ## Thesis: enumeration, repository and service

`entity/enum.go`, `repository/thesis_repository.go`, `service/thesis_service.go`. -/

namespace constants

/-- Modelled from the spec: progress string of the data model (package `constants` is absent). -/
def ENUM_PROGRESS_BAB1 : String := "bab1"

/-- Modelled from the spec: progress string of the data model (package `constants` is absent). -/
def ENUM_PROGRESS_BAB2 : String := "bab2"

/-- Modelled from the spec: progress string of the data model (package `constants` is absent). -/
def ENUM_PROGRESS_BAB3 : String := "bab3"

/-- Modelled from the spec: progress string of the data model (package `constants` is absent). -/
def ENUM_PROGRESS_BAB4 : String := "bab4"

/-- Modelled from the spec: progress string of the data model (package `constants` is absent). -/
def ENUM_PROGRESS_BAB5 : String := "bab5"

/-- Modelled from the spec: progress string of the data model (package `constants` is absent). -/
def ENUM_PROGRESS_SEMINAR_PROPOSAL : String := "seminar_proposal"

/-- Modelled from the spec: progress string of the data model (package `constants` is absent). -/
def ENUM_PROGRESS_SEMINAR_HASIL : String := "seminar_hasil"

end constants

namespace entity

def BAB1 : Progress := constants.ENUM_PROGRESS_BAB1
def BAB2 : Progress := constants.ENUM_PROGRESS_BAB2
def BAB3 : Progress := constants.ENUM_PROGRESS_BAB3
def BAB4 : Progress := constants.ENUM_PROGRESS_BAB4
def BAB5 : Progress := constants.ENUM_PROGRESS_BAB5
def SEMINAR_PROPOSAL : Progress := constants.ENUM_PROGRESS_SEMINAR_PROPOSAL
def SEMINAR_HASIL : Progress := constants.ENUM_PROGRESS_SEMINAR_HASIL

/-- The function `IsValidProgress` of `entity/enum.go`. -/
def IsValidProgress (p : Progress) : Bool :=
  p == BAB1 || p == BAB2 || p == BAB3 || p == BAB4 || p == BAB5 || p == SEMINAR_PROPOSAL ||
    p == SEMINAR_HASIL

end entity

namespace dto

structure UpdateThesisRequest where
  ID : String
  Title : String
  Description : String
  Progress : entity.Progress
  StudentID : String
deriving DecidableEq, Repr, Inhabited

structure ThesisPaginationRepositoryResponse where
  Theses : List Thesis
  PaginationResponse : response.PaginationResponse
deriving DecidableEq, Repr, Inhabited

structure ThesisPaginationResponse where
  Data : List ThesisResponse
  PaginationResponse : response.PaginationResponse
deriving DecidableEq, Repr, Inhabited

end dto

/-- The columns of a thesis struct. -/
def Thesis.toRow (t : Thesis) : ThesisRow :=
  { ID := t.ID, Title := t.Title, Description := t.Description, Progress := t.Progress,
    StudentID := t.StudentID }

/-- The interface `repository.IThesisRepository`, the collaborator the thesis service is
built with. -/
structure IThesisRepository where
  GetThesisByID : DB → String → Thesis × Bool × Option Err
  GetAllThesesByLecturerIDWithPagination :
    DB → response.PaginationRequest → String → dto.ThesisPaginationRepositoryResponse × Option Err
  UpdateThesis : DB → Thesis → Option Err × DB

namespace thesisRepository

/-- The method `thesisRepository.GetThesisByID`: a missing record is `found = false` with
a nil error. -/
def GetThesisByID (db : DB) (id : String) : Thesis × Bool × Option Err :=
  match Take db.theses (fun t => t.ID == id) with
  | .error err =>
    if err = Err.ErrRecordNotFound then (default, false, none) else (default, false, some err)
  | .ok row => (loadThesis db row, true, none)

/-- The join and filter of `GetAllThesesByLecturerIDWithPagination`: one row per
`thesis_supervisors` row that links the thesis to the lecturer. -/
def lecturerQuery (db : DB) (lecturerID : String) : List ThesisRow :=
  db.theses.flatMap fun t =>
    (db.thesis_supervisors.filter
      (fun ts => ts.ThesisID == t.ID && ts.LecturerID == lecturerID)).map fun _ => t

/-- The method `thesisRepository.GetAllThesesByLecturerIDWithPagination`; the order
`created_at DESC` is the reverse of the insertion order. -/
def GetAllThesesByLecturerIDWithPagination (db : DB) (pagination : response.PaginationRequest)
    (lecturerID : String) : dto.ThesisPaginationRepositoryResponse × Option Err :=
  let pagination : response.PaginationRequest :=
    if pagination.PerPage = 0 then { pagination with PerPage := 10 } else pagination
  let pagination : response.PaginationRequest :=
    if pagination.Page = 0 then { pagination with Page := 1 } else pagination
  let query := (lecturerQuery db lecturerID).reverse
  let count : Int := query.length
  let theses := (Paginate pagination.Page pagination.PerPage query).map (loadThesis db)
  let totalPage := ceilDiv count pagination.PerPage
  ({ Theses := theses,
     PaginationResponse :=
       { Page := pagination.Page, PerPage := pagination.PerPage,
         MaxPage := totalPage, Count := count } }, none)

/-- The write `Updates(&thesis)` on one matching row: every non-zero column of the struct
replaces the stored one. -/
def updatesRow (thesis : Thesis) (r : ThesisRow) : ThesisRow :=
  { ID := nzString thesis.ID r.ID,
    Title := nzString thesis.Title r.Title,
    Description := nzString thesis.Description r.Description,
    Progress := nzString thesis.Progress r.Progress,
    StudentID := nzString thesis.StudentID r.StudentID }

/-- The method `thesisRepository.UpdateThesis`. -/
def UpdateThesis (db : DB) (thesis : Thesis) : Option Err × DB :=
  (none,
    { db with
      theses := db.theses.map (fun r => if r.ID == thesis.ID then updatesRow thesis r else r),
      journal := db.journal ++ [Write.UpdateThesis thesis.toRow] })

end thesisRepository

/-- The constructor `NewThesisRepository`: the repository over the store. -/
def NewThesisRepository : IThesisRepository :=
  { GetThesisByID := thesisRepository.GetThesisByID,
    GetAllThesesByLecturerIDWithPagination :=
      thesisRepository.GetAllThesesByLecturerIDWithPagination,
    UpdateThesis := thesisRepository.UpdateThesis }

/-- The struct `thesisService`: `thesisRepo` is the repository it was built with, `jwt` is
`IJWT.GetUserIDByToken`; the user repository acts on the `DB` passed to each method. -/
structure thesisService where
  thesisRepo : IThesisRepository
  jwt : String → Except Err String

namespace thesisService

/-- The method `thesisService.GetDetail`. -/
def GetDetail (ts : thesisService) (db : DB) (_token : String) (id : String) :
    Outcome dto.ThesisResponse :=
  match ts.thesisRepo.GetThesisByID db id with
  | (_, _, some _) => .err Err.ErrGetThesisByID
  | (_, false, none) => .err Err.ErrNotFound
  | (data, true, none) => .ok (thesisResponse data)

/-- The method `thesisService.Update`. -/
def Update (ts : thesisService) (db : DB) (token : String) (req : dto.UpdateThesisRequest) :
    Outcome dto.ThesisResponse × DB :=
  match ts.jwt token with
  | .error err => (.err err, db)
  | .ok userIDString =>
    match userRepository.GetUserByID db userIDString with
    | (_, _, some err) => (.err err, db)
    | (_, false, none) => (.err Err.ErrNotFound, db)
    | (user, true, none) =>
      if user.Role = constants.ENUM_ROLE_LECTURER ∨
          user.Role = constants.ENUM_ROLE_PRIMARY_LECTURER ∨
          user.Role = constants.ENUM_ROLE_SECONDARY_LECTURER then
        (.err (Err.Errorf "lecturer cannot update thesis"), db)
      else
        match ts.thesisRepo.GetThesisByID db req.ID with
        | (_, _, some _) => (.err Err.ErrGetThesisByID, db)
        | (_, false, none) => (.err Err.ErrNotFound, db)
        | (existingThesis, true, none) =>
          if !entity.IsValidProgress req.Progress then
            (.err (Err.Errorf "invalid thesis progress"), db)
          else
            let existingThesis : Thesis :=
              { existingThesis with
                Title := req.Title,
                Description := req.Description,
                Progress := req.Progress,
                StudentID := req.StudentID }
            match ts.thesisRepo.UpdateThesis db existingThesis with
            | (some _, db1) => (.err (Err.Errorf "failed update thesis"), db1)
            | (none, db1) => (.ok (thesisResponse existingThesis), db1)

/-- The method `thesisService.GetAllByLecturer`. -/
def GetAllByLecturer (ts : thesisService) (db : DB) (token : String)
    (req : response.PaginationRequest) (lecturerID : String) :
    Outcome dto.ThesisPaginationResponse :=
  match ts.jwt token with
  | .error err => .err err
  | .ok userIDString =>
    match userRepository.GetUserByID db userIDString with
    | (_, _, some err) => .err err
    | (_, false, none) => .err Err.ErrNotFound
    | (user, true, none) =>
      if user.Role = constants.ENUM_ROLE_STUDENT then
        .err (Err.Errorf "student cannot read all lecturer thesis")
      else
        match ts.thesisRepo.GetAllThesesByLecturerIDWithPagination db req lecturerID with
        | (_, some err) => .err err
        | (datas, none) =>
          .ok { Data := datas.Theses.map thesisResponse,
                PaginationResponse :=
                  { Page := datas.PaginationResponse.Page,
                    PerPage := datas.PaginationResponse.PerPage,
                    MaxPage := datas.PaginationResponse.MaxPage,
                    Count := datas.PaginationResponse.Count } }

end thesisService

/-! ## GetThesisByID: the tests on the error of the query

The two `GetThesisByID` methods run the same query and differ in the order of the two
tests they make on its error. -/

/-- The query of both `GetThesisByID` methods, `Where("id = ?", id).Take(&thesis).Error`:
the thesis it loads with its associations, and the error it reports. -/
def takeThesis (db : DB) (id : String) : Thesis × Option Err :=
  match Take db.theses (fun t => t.ID == id) with
  | .error err => (default, some err)
  | .ok row => (loadThesis db row, none)

namespace scheduleRepository

/-- The tests of `scheduleRepository.GetThesisByID` on the outcome of the query, in the
order of the source: `err != nil` first, `errors.Is(err, gorm.ErrRecordNotFound)` second. -/
def GetThesisByID_tests (thesis : Thesis) (err : Option Err) : Thesis × Bool × Option Err :=
  if err ≠ none then (default, false, err)
  else if err = some Err.ErrRecordNotFound then (default, false, none)
  else (thesis, true, none)

end scheduleRepository

namespace thesisRepository

/-- The tests of `thesisRepository.GetThesisByID` on the outcome of the query, in the
order of the source: `errors.Is(err, gorm.ErrRecordNotFound)` first, `err != nil` second. -/
def GetThesisByID_tests (thesis : Thesis) (err : Option Err) : Thesis × Bool × Option Err :=
  if err = some Err.ErrRecordNotFound then (default, false, none)
  else if err ≠ none then (default, false, err)
  else (thesis, true, none)

end thesisRepository

/-! ## The MaxPage expression in float64 arithmetic -/

/-- Rounding of a rational to the nearest integer, ties to even. -/
def roundHalfEven (x : ℚ) : ℤ :=
  if x - ⌊x⌋ < 1 / 2 then ⌊x⌋
  else if 1 / 2 < x - ⌊x⌋ then ⌊x⌋ + 1
  else if ⌊x⌋ % 2 = 0 then ⌊x⌋ else ⌊x⌋ + 1

/-- The float64 nearest to a rational: 53-bit significand, ties to even (the exponent
range, far from the values a count and a page size produce, is not modelled). -/
def float64Round (q : ℚ) : ℚ :=
  if q = 0 then 0
  else (roundHalfEven (q / 2 ^ (Int.log 2 |q| - 52)) : ℚ) * 2 ^ (Int.log 2 |q| - 52)

/-- The expression `int64(math.Ceil(float64(count) / float64(perPage)))` of both paginated
queries, in float64 arithmetic: both conversions and the division round.  `ceilDiv` is
its value while count and page size are below 2^53 (`float64MaxPage_eq_ceilDiv`). -/
def float64MaxPage (count perPage : Int) : Int :=
  ⌈float64Round (float64Round count / float64Round perPage)⌉

/-- The schedule `scheduleService.Update` hands to UpdateSchedule for the stored row
`row`: the loaded schedule with the five request fields assigned. -/
def updatedSchedule (db : DB) (row : ScheduleRow) (req : dto.UpdateScheduleRequest) : Schedule :=
  { loadSchedule db row true with
    ProposedAt := req.ProposedAt, StartTime := req.StartTime, EndTime := req.EndTime,
    Description := req.Description, Location := req.Location }

/-! ## Reachable stores -/

/-- The stores the workflow operations reach from `db0`: any sequence of `Create`,
`Update`, `Approval` and `Delete` calls, with any caller and any request. -/
inductive Reachable (ss : scheduleService) (db0 : DB) : DB → Prop where
  | init : Reachable ss db0 db0
  | Create {db : DB} (h : Reachable ss db0 db) (token newScheduleID : String)
      (req : dto.CreateScheduleRequest) :
      Reachable ss db0 (ss.Create db token newScheduleID req).2
  | Update {db : DB} (h : Reachable ss db0 db) (token : String)
      (req : dto.UpdateScheduleRequest) :
      Reachable ss db0 (ss.Update db token req).2
  | Approval {db : DB} (h : Reachable ss db0 db) (token : String)
      (req : dto.ApprovalScheduleRequest) :
      Reachable ss db0 (ss.Approval db token req).2
  | Delete {db : DB} (h : Reachable ss db0 db) (token id : String) :
      Reachable ss db0 (ss.Delete db token id).2

/-- The tables other than `schedules` are the same in both stores. -/
def DB.sameTables (db db' : DB) : Prop :=
  db'.users = db.users ∧ db'.students = db.students ∧ db'.lecturers = db.lecturers ∧
    db'.theses = db.theses ∧ db'.thesis_supervisors = db.thesis_supervisors

/-- The relation between status and approver that the workflow keeps: the status is one
of the three enumerated values and a schedule that is not `pending` has an approver. -/
def ScheduleRow.statusInv (row : ScheduleRow) : Prop :=
  entity.IsValidScheduleStatus row.Status = true ∧
    (row.Status ≠ entity.SCHEDULE_PENDING → row.ApprovedByID ≠ none)

/-! ## A concrete scenario

One student with one thesis supervised by two lecturers, as in the scenario of the
specification; tokens are the user ids. -/

namespace Scenario

def ss : scheduleService := { jwt := fun token => .ok token }

def db0 : DB :=
  { users :=
      [ { ID := "u-s", Identifier := "2021001", Role := "student",
          StudentID := some "s1", LecturerID := none },
        { ID := "u-l1", Identifier := "1980001", Role := "lecturer",
          StudentID := none, LecturerID := some "l1" },
        { ID := "u-l2", Identifier := "1980002", Role := "primary_lecturer",
          StudentID := none, LecturerID := some "l2" },
        { ID := "u-l3", Identifier := "1980003", Role := "primary_lecturer",
          StudentID := none, LecturerID := some "l3" } ],
    students := [ { ID := "s1", Name := "S", Nim := "2021001" } ],
    lecturers :=
      [ { ID := "l1", Name := "L1", Nip := "1980001" },
        { ID := "l2", Name := "L2", Nip := "1980002" },
        { ID := "l3", Name := "L3", Nip := "1980003" } ],
    theses :=
      [ { ID := "t1", Title := "T", Description := "", Progress := "bab1",
          StudentID := "s1" } ],
    thesis_supervisors :=
      [ { ThesisID := "t1", LecturerID := "l1" },
        { ThesisID := "t1", LecturerID := "l2" } ],
    schedules := [],
    journal := [] }

def req : dto.CreateScheduleRequest :=
  { ProposedAt := 1704790800, StartTime := 1704877200, EndTime := 1704880800,
    Description := "bimbingan bab 1", Location := "ruang 101" }

/-- The store after student `u-s` created schedule `sch1`. -/
def db1 : DB := (ss.Create db0 "u-s" "sch1" req).2

/-- The response of that Create call. -/
def res1 : dto.ScheduleResponse :=
  { ID := "sch1", ProposedAt := 1704790800, StartTime := 1704877200, EndTime := 1704880800,
    Status := "pending", Description := "bimbingan bab 1", Location := "ruang 101",
    Thesis :=
      { ID := "t1", Title := "T", Description := "", Progress := "bab1",
        Student := some { ID := "s1", Name := "S", Identifier := "2021001", Role := "student" },
        Supervisors :=
          [ { ID := "l1", Name := "L1", Identifier := "1980001", Role := "lecturer" },
            { ID := "l2", Name := "L2", Identifier := "1980002", Role := "lecturer" } ] },
    CreatedBy := { ID := "u-s", Name := "S", Identifier := "2021001", Role := "student" },
    ApprovedBy := none }

/-- The row Create stored for `sch1`. -/
def row1 : ScheduleRow :=
  { ID := "sch1", ProposedAt := 1704790800, StartTime := 1704877200, EndTime := 1704880800,
    Status := "pending", Description := "bimbingan bab 1", Location := "ruang 101",
    ThesisID := "t1", CreatedByID := "u-s", ApprovedByID := none }

/-- The user row of student `u-s`. -/
def userS : UserRow :=
  { ID := "u-s", Identifier := "2021001", Role := "student",
    StudentID := some "s1", LecturerID := none }

/-- The user row of lecturer `u-l1`. -/
def userL1 : UserRow :=
  { ID := "u-l1", Identifier := "1980001", Role := "lecturer",
    StudentID := none, LecturerID := some "l1" }

/-- The user row of lecturer `u-l2`. -/
def userL2 : UserRow :=
  { ID := "u-l2", Identifier := "1980002", Role := "primary_lecturer",
    StudentID := none, LecturerID := some "l2" }

/-- The user row of `u-l3`, a primary lecturer who supervises no thesis. -/
def userL3 : UserRow :=
  { ID := "u-l3", Identifier := "1980003", Role := "primary_lecturer",
    StudentID := none, LecturerID := some "l3" }

/-- The row of `sch1` once `u-l1` approved it. -/
def rowApproved : ScheduleRow :=
  { ID := "sch1", ProposedAt := 1704790800, StartTime := 1704877200, EndTime := 1704880800,
    Status := "approved", Description := "bimbingan bab 1", Location := "ruang 101",
    ThesisID := "t1", CreatedByID := "u-s", ApprovedByID := some "u-l1" }

/-- A request to reject `sch1`. -/
def reqReject : dto.ApprovalScheduleRequest := { ID := "sch1", Status := "rejected" }

/-- The store after lecturer `u-l1` then called Approval on `sch1` with status `pending`. -/
def dbPending : DB := (ss.Approval db1 "u-l1" ⟨"sch1", "pending"⟩).2

/-- The store after lecturer `u-l1` approved `sch1`. -/
def dbApproved : DB := (ss.Approval db1 "u-l1" ⟨"sch1", "approved"⟩).2

end Scenario

/-! ## A second scenario

The first scenario with two more users: a second student `u-s2` with a thesis of its own
and a student `u-s3` that has no thesis yet. -/

namespace Scenario

/-- The user row of the second student. -/
def userS2 : UserRow :=
  { ID := "u-s2", Identifier := "2021002", Role := "student",
    StudentID := some "s2", LecturerID := none }

/-- The user row of the student without a thesis. -/
def userS3 : UserRow :=
  { ID := "u-s3", Identifier := "2021003", Role := "student",
    StudentID := some "s3", LecturerID := none }

def dbB0 : DB :=
  { db0 with
    users := db0.users ++ [userS2, userS3],
    students := db0.students ++
      [ { ID := "s2", Name := "S2", Nim := "2021002" },
        { ID := "s3", Name := "S3", Nim := "2021003" } ],
    theses := db0.theses ++
      [ { ID := "t2", Title := "T2", Description := "", Progress := "bab2",
          StudentID := "s2" } ] }

/-- The second store after student `u-s` created schedule `sch1`. -/
def dbB1 : DB := (ss.Create dbB0 "u-s" "sch1" req).2

/-- The second store after lecturer `u-l1` then approved `sch1`. -/
def dbB2 : DB := (ss.Approval dbB1 "u-l1" ⟨"sch1", "approved"⟩).2

/-- A request to move `sch1` by one day. -/
def reqUpdate : dto.UpdateScheduleRequest :=
  { ID := "sch1", ProposedAt := 1704790800, StartTime := 1704963600, EndTime := 1704967200,
    Description := "bimbingan bab 2", Location := "ruang 102" }

/-- The first store with the thesis of `sch1` gone. -/
def dbOrphan : DB := { db1 with theses := [] }

/-- The thesis service over the store. -/
def ts : thesisService := { thesisRepo := NewThesisRepository, jwt := fun token => .ok token }

end Scenario

/-! ## A third scenario

The first scenario with one more user: `u-l4` has the role `lecturer` and no linked
lecturer profile. -/

namespace Scenario

/-- The user row of the lecturer without a lecturer profile. -/
def userL4 : UserRow :=
  { ID := "u-l4", Identifier := "1980004", Role := "lecturer",
    StudentID := none, LecturerID := none }

/-- The first store, after `sch1` was created, with the user `u-l4`. -/
def dbC1 : DB := { db1 with users := db1.users ++ [userL4] }

end Scenario

/-! # Properties -/

/-! ## Lookup lemmas -/

theorem GetScheduleByID_of_find_some {db : DB} {id : String} {row : ScheduleRow}
    (h : db.schedules.find? (fun r => r.ID == id) = some row) :
    scheduleRepository.GetScheduleByID db id = (loadSchedule db row true, true, none) := by
  simp [scheduleRepository.GetScheduleByID, Take, h]

theorem GetScheduleByID_of_find_none {db : DB} {id : String}
    (h : db.schedules.find? (fun r => r.ID == id) = none) :
    scheduleRepository.GetScheduleByID db id = (default, false, none) := by
  simp [scheduleRepository.GetScheduleByID, Take, h]

theorem find_schedule_of_mem {db : DB} {id : String}
    (h : ∃ row ∈ db.schedules, row.ID = id) :
    ∃ row, db.schedules.find? (fun r => r.ID == id) = some row := by
  obtain ⟨row, hmem, hid⟩ := h
  cases hf : db.schedules.find? (fun r => r.ID == id) with
  | some r => exact ⟨r, rfl⟩
  | none =>
    rw [List.find?_eq_none] at hf
    exact absurd (by simpa using hid) (hf row hmem)

theorem find_schedule_of_not_mem {db : DB} {id : String}
    (h : ¬ ∃ row ∈ db.schedules, row.ID = id) :
    db.schedules.find? (fun r => r.ID == id) = none := by
  rw [List.find?_eq_none]
  intro row hmem hrow
  exact h ⟨row, hmem, by simpa using hrow⟩

/-! ## Approval: the caller's role -/

/-- C1 (as stated) fails: the scenario store `db0` holds no schedule; the caller `u-s`
resolves to a user whose role is `student`; Approval for id `sch1` returns
`dto.ErrNotFound`, not the authorization error "access denied". -/
theorem Approval_student_unknown_id_not_denied :
    Scenario.ss.jwt "u-s" = .ok "u-s" ∧
    userRepository.GetUserByID Scenario.db0 "u-s"
      = (loadUser Scenario.db0 Scenario.userS true true true, true, none) ∧
    (loadUser Scenario.db0 Scenario.userS true true true).Role = constants.ENUM_ROLE_STUDENT ∧
    Scenario.ss.Approval Scenario.db0 "u-s" ⟨"sch1", "approved"⟩
      = (.err Err.ErrNotFound, Scenario.db0) ∧
    (Scenario.ss.Approval Scenario.db0 "u-s" ⟨"sch1", "approved"⟩).1
      ≠ .err (Err.Errorf "access denied") :=
  ⟨rfl, by decide, by decide, by decide, by decide⟩

/-- C1 (amended): Approval by a caller whose resolved role is `student` fails with
"access denied" and leaves the store untouched, for every request status, whenever a
schedule with the requested id is stored; when none is stored the call fails with
`dto.ErrNotFound` before the caller is looked at. -/
theorem Approval_student_denied (ss : scheduleService) (db : DB) (token uid : String)
    (user : User) (req : dto.ApprovalScheduleRequest)
    (htoken : ss.jwt token = .ok uid)
    (huser : userRepository.GetUserByID db uid = (user, true, none))
    (hrole : user.Role = constants.ENUM_ROLE_STUDENT) :
    ((∃ row ∈ db.schedules, row.ID = req.ID) →
        ss.Approval db token req = (.err (Err.Errorf "access denied"), db)) ∧
    ((¬ ∃ row ∈ db.schedules, row.ID = req.ID) →
        ss.Approval db token req = (.err Err.ErrNotFound, db)) := by
  constructor
  · intro hex
    obtain ⟨row, hrow⟩ := find_schedule_of_mem hex
    simp [scheduleService.Approval, GetScheduleByID_of_find_some hrow, htoken, huser, hrole]
  · intro hex
    simp [scheduleService.Approval, GetScheduleByID_of_find_none (find_schedule_of_not_mem hex)]

theorem Approval_student_denied_witness :
    Scenario.ss.Approval Scenario.db1 "u-s" ⟨"sch1", "approved"⟩
        = (.err (Err.Errorf "access denied"), Scenario.db1) ∧
    Scenario.ss.Approval Scenario.db0 "u-s" ⟨"sch1", "approved"⟩
        = (.err Err.ErrNotFound, Scenario.db0) :=
  ⟨(Approval_student_denied Scenario.ss Scenario.db1 "u-s" "u-s"
      (loadUser Scenario.db1 Scenario.userS true true true)
      ⟨"sch1", "approved"⟩ rfl (by decide) (by decide)).1 (by decide),
   (Approval_student_denied Scenario.ss Scenario.db0 "u-s" "u-s"
      (loadUser Scenario.db0 Scenario.userS true true true)
      ⟨"sch1", "approved"⟩ rfl (by decide) (by decide)).2 (by decide)⟩

/-! ## Effect of each operation on the store -/

theorem Approval_effect (ss : scheduleService) (db : DB) (token : String)
    (req : dto.ApprovalScheduleRequest) :
    ss.Approval db token req = ((ss.Approval db token req).1, db) ∧
        (ss.Approval db token req).1 ≠ .ok () ∨
      ∃ uid, entity.IsValidScheduleStatus req.Status = true ∧
        ss.Approval db token req =
          (.ok (), (scheduleRepository.UpdateScheduleStatus db req.ID req.Status uid).2) := by
  rcases hs : scheduleRepository.GetScheduleByID db req.ID with ⟨s, fs, es⟩
  cases es <;> cases fs <;> try (left; simp [scheduleService.Approval, hs]; done)
  rcases ht : ss.jwt token with e | uid
  · left; simp [scheduleService.Approval, hs, ht]
  rcases hu : userRepository.GetUserByID db uid with ⟨u, fu, eu⟩
  cases eu <;> cases fu <;> try (left; simp [scheduleService.Approval, hs, ht, hu]; done)
  by_cases hr : u.Role = constants.ENUM_ROLE_STUDENT
  · left; simp [scheduleService.Approval, hs, ht, hu, hr]
  by_cases hv : entity.IsValidScheduleStatus req.Status = true
  · right
    exact ⟨uid, hv, by simp [scheduleService.Approval, hs, ht, hu, hr, hv,
      scheduleRepository.UpdateScheduleStatus]⟩
  · left; simp [scheduleService.Approval, hs, ht, hu, hr, hv]

theorem Delete_effect (ss : scheduleService) (db : DB) (token id : String) :
    ss.Delete db token id = ((ss.Delete db token id).1, db) ∧
        (ss.Delete db token id).1 ≠ .ok () ∨
      ss.Delete db token id = (.ok (), (scheduleRepository.DeleteScheduleByID db id).2) := by
  rcases hs : scheduleRepository.GetScheduleByID db id with ⟨s, fs, es⟩
  cases es <;> cases fs <;> try (left; simp [scheduleService.Delete, hs]; done)
  right
  simp [scheduleService.Delete, hs, scheduleRepository.DeleteScheduleByID]

theorem Create_effect (ss : scheduleService) (db : DB) (token newScheduleID : String)
    (req : dto.CreateScheduleRequest) :
    (ss.Create db token newScheduleID req).2.schedules = db.schedules ∧
        db.sameTables (ss.Create db token newScheduleID req).2 ∨
      ∃ res db', ss.Create db token newScheduleID req = (.ok res, db') := by
  rcases ht : ss.jwt token with e | uid
  · left; simp [scheduleService.Create, ht, DB.sameTables]
  rcases hu : userRepository.GetUserByID db uid with ⟨u, fu, eu⟩
  cases eu <;> cases fu <;>
    try (left; simp [scheduleService.Create, ht, hu, DB.sameTables]; done)
  rcases hst : u.Student with _ | student
  · left; simp [scheduleService.Create, ht, hu, hst, DB.sameTables]
  rcases hth : student.Theses with _ | ⟨thesis0, rest⟩
  · left; simp [scheduleService.Create, ht, hu, hst, hth, DB.sameTables]
  rcases hg : scheduleRepository.GetThesisByID db thesis0.ID with ⟨thesis, ft, et⟩
  cases et <;> cases ft <;>
    try (left; simp [scheduleService.Create, ht, hu, hst, hth, hg, DB.sameTables]; done)
  by_cases hd : db.schedules.any (fun r => r.ID == newScheduleID) = true
  · left
    simp [scheduleService.Create, ht, hu, hst, hth, hg, scheduleRepository.CreateSchedule, hd,
      DB.sameTables]
  · right
    simp [scheduleService.Create, ht, hu, hst, hth, hg, scheduleRepository.CreateSchedule, hd]

/-! ## Create: what a successful call did -/

theorem GetUserByID_found {db : DB} {uid : String} {user : User}
    (h : userRepository.GetUserByID db uid = (user, true, none)) :
    ∃ urow, db.users.find? (fun u => u.ID == uid) = some urow ∧
      user = loadUser db urow true true true := by
  cases hf : db.users.find? (fun u => u.ID == uid) with
  | none => simp [userRepository.GetUserByID, Take, hf] at h
  | some urow =>
    simp [userRepository.GetUserByID, Take, hf] at h
    exact ⟨urow, rfl, h.symm⟩

theorem GetUserByID_of_find_some {db : DB} {uid : String} {urow : UserRow}
    (h : db.users.find? (fun u => u.ID == uid) = some urow) :
    userRepository.GetUserByID db uid = (loadUser db urow true true true, true, none) := by
  simp [userRepository.GetUserByID, Take, h]

theorem GetThesisByID_found {db : DB} {id : String} {thesis : Thesis}
    (h : scheduleRepository.GetThesisByID db id = (thesis, true, none)) :
    ∃ trow, db.theses.find? (fun t => t.ID == id) = some trow ∧
      thesis = loadThesis db trow := by
  cases hf : db.theses.find? (fun t => t.ID == id) with
  | none => simp [scheduleRepository.GetThesisByID, Take, hf] at h
  | some trow =>
    simp [scheduleRepository.GetThesisByID, Take, hf] at h
    exact ⟨trow, rfl, h.symm⟩

/-- What a successful Create did, step by step. -/
theorem Create_ok_inv {ss : scheduleService} {db db' : DB} {token newScheduleID : String}
    {req : dto.CreateScheduleRequest} {res : dto.ScheduleResponse}
    (h : ss.Create db token newScheduleID req = (.ok res, db')) :
    ∃ uid user student thesis0 rest thesis,
      ss.jwt token = .ok uid ∧
      userRepository.GetUserByID db uid = (user, true, none) ∧
      user.Student = some student ∧
      student.Theses = thesis0 :: rest ∧
      scheduleRepository.GetThesisByID db thesis0.ID = (thesis, true, none) ∧
      db.schedules.any (fun r => r.ID == newScheduleID) = false ∧
      db' = { db with
        schedules := db.schedules ++
          [{ ID := newScheduleID, ProposedAt := req.ProposedAt, StartTime := req.StartTime,
             EndTime := req.EndTime, Status := constants.ENUM_SCHEDULE_STATUS_PENDING,
             Description := req.Description, Location := req.Location,
             ThesisID := thesis.ID, CreatedByID := user.ID, ApprovedByID := none }],
        journal := db.journal ++
          [Write.CreateSchedule
            { ID := newScheduleID, ProposedAt := req.ProposedAt, StartTime := req.StartTime,
              EndTime := req.EndTime, Status := constants.ENUM_SCHEDULE_STATUS_PENDING,
              Description := req.Description, Location := req.Location,
              ThesisID := thesis.ID, CreatedByID := user.ID, ApprovedByID := none }] } ∧
      res =
        { ID := newScheduleID, ProposedAt := req.ProposedAt, StartTime := req.StartTime,
          EndTime := req.EndTime, Status := constants.ENUM_SCHEDULE_STATUS_PENDING,
          Description := req.Description, Location := req.Location,
          Thesis := thesisResponse thesis,
          CreatedBy :=
            { ID := user.ID, Name := student.Name, Identifier := user.Identifier,
              Role := user.Role },
          ApprovedBy := none } := by
  rcases ht : ss.jwt token with e | uid
  · simp [scheduleService.Create, ht] at h
  rcases hu : userRepository.GetUserByID db uid with ⟨u, fu, eu⟩
  cases eu <;> cases fu <;> try (simp [scheduleService.Create, ht, hu] at h; done)
  rcases hst : u.Student with _ | student
  · simp [scheduleService.Create, ht, hu, hst] at h
  rcases hth : student.Theses with _ | ⟨thesis0, rest⟩
  · simp [scheduleService.Create, ht, hu, hst, hth] at h
  rcases hg : scheduleRepository.GetThesisByID db thesis0.ID with ⟨thesis, ft, et⟩
  cases et <;> cases ft <;> try (simp [scheduleService.Create, ht, hu, hst, hth, hg] at h; done)
  by_cases hd : db.schedules.any (fun r => r.ID == newScheduleID) = true
  · simp [scheduleService.Create, ht, hu, hst, hth, hg, scheduleRepository.CreateSchedule, hd]
      at h
  · simp [scheduleService.Create, ht, hu, hst, hth, hg, scheduleRepository.CreateSchedule,
      hd, Schedule.toRow] at h
    obtain ⟨rfl, rfl⟩ := h
    exact ⟨uid, u, student, thesis0, rest, thesis, rfl, hu, hst, hth, hg, by simpa using hd,
      rfl, rfl⟩

theorem GetScheduleByID_found {db : DB} {id : String} {s : Schedule}
    (h : scheduleRepository.GetScheduleByID db id = (s, true, none)) :
    ∃ row, db.schedules.find? (fun r => r.ID == id) = some row ∧
      s = loadSchedule db row true := by
  cases hf : db.schedules.find? (fun r => r.ID == id) with
  | none => simp [GetScheduleByID_of_find_none hf] at h
  | some row =>
    rw [GetScheduleByID_of_find_some hf] at h
    exact ⟨row, rfl, by simpa using h.symm⟩

theorem Update_effect (ss : scheduleService) (db : DB) (token : String)
    (req : dto.UpdateScheduleRequest) :
    (ss.Update db token req).2 = db ∨
      ∃ row, db.schedules.find? (fun r => r.ID == req.ID) = some row ∧
        (ss.Update db token req).2 =
          (scheduleRepository.UpdateSchedule db
            { loadSchedule db row true with
              ProposedAt := req.ProposedAt, StartTime := req.StartTime,
              EndTime := req.EndTime, Description := req.Description,
              Location := req.Location }).2 := by
  rcases ht : ss.jwt token with e | uid
  · left; simp [scheduleService.Update, ht]
  rcases hu : userRepository.GetUserByID db uid with ⟨u, fu, eu⟩
  cases eu <;> cases fu <;> try (left; simp [scheduleService.Update, ht, hu]; done)
  rcases hs : scheduleRepository.GetScheduleByID db req.ID with ⟨s, fs, es⟩
  cases es <;> cases fs <;> try (left; simp [scheduleService.Update, ht, hu, hs]; done)
  obtain ⟨row, hrow, rfl⟩ := GetScheduleByID_found hs
  rcases hg : scheduleRepository.GetThesisByID db (loadSchedule db row true).Thesis.ID
    with ⟨thesis, ft, et⟩
  cases et <;> cases ft
  · left
    rcases hst : u.Student with _ | student
    · simp [scheduleService.Update, ht, hu, hs, hg, hst]
    · rcases hth : student.Theses with _ | ⟨thesis0, rest⟩ <;>
        simp [scheduleService.Update, ht, hu, hs, hg, hst, hth]
  · right
    refine ⟨row, hrow, ?_⟩
    rcases hst : u.Student with _ | student <;>
      simp [scheduleService.Update, ht, hu, hs, hg, hst, scheduleRepository.UpdateSchedule]
  · left; simp [scheduleService.Update, ht, hu, hs, hg]
  · left; simp [scheduleService.Update, ht, hu, hs, hg]

/-! ## The status/approver invariant -/

theorem valid_status_cases {s : String} (h : entity.IsValidScheduleStatus s = true) :
    s = entity.SCHEDULE_PENDING ∨ s = entity.SCHEDULE_APPROVED ∨ s = entity.SCHEDULE_REJECTED := by
  simpa [entity.IsValidScheduleStatus, or_assoc] using h

theorem valid_status_ne_empty {s : String} (h : entity.IsValidScheduleStatus s = true) :
    s ≠ "" := by
  rcases valid_status_cases h with h | h | h <;> subst h <;> decide

theorem statusInv_UpdateScheduleStatus {db : DB} {id status uid : String}
    (hv : entity.IsValidScheduleStatus status = true)
    (hinv : ∀ r ∈ db.schedules, r.statusInv) :
    ∀ r ∈ (scheduleRepository.UpdateScheduleStatus db id status uid).2.schedules,
      r.statusInv := by
  intro r hr
  simp only [scheduleRepository.UpdateScheduleStatus, List.mem_map] at hr
  obtain ⟨r0, hr0, rfl⟩ := hr
  by_cases hid : (r0.ID == id) = true
  · simp [hid, ScheduleRow.statusInv, hv]
  · simpa [hid] using hinv r0 hr0

theorem statusInv_UpdateSchedule {db : DB} {row : ScheduleRow} {id : String}
    (req : dto.UpdateScheduleRequest)
    (hrow : db.schedules.find? (fun r => r.ID == id) = some row)
    (hinv : ∀ r ∈ db.schedules, r.statusInv) :
    ∀ r ∈ (scheduleRepository.UpdateSchedule db
            { loadSchedule db row true with
              ProposedAt := req.ProposedAt, StartTime := req.StartTime,
              EndTime := req.EndTime, Description := req.Description,
              Location := req.Location }).2.schedules,
      r.statusInv := by
  intro r hr
  have hrow0 : row.statusInv := hinv row (List.mem_of_find?_eq_some hrow)
  simp only [scheduleRepository.UpdateSchedule, List.mem_map] at hr
  obtain ⟨r0, hr0, rfl⟩ := hr
  split
  · have hne := valid_status_ne_empty hrow0.1
    refine ⟨?_, ?_⟩
    · simpa [scheduleRepository.updatesRow, nzString, loadSchedule, hne] using hrow0.1
    · intro hp
      have hp0 : row.Status ≠ entity.SCHEDULE_PENDING := by
        simpa [scheduleRepository.updatesRow, nzString, loadSchedule, hne] using hp
      have ha := hrow0.2 hp0
      cases hap : row.ApprovedByID with
      | none => exact absurd hap ha
      | some a => simp [scheduleRepository.updatesRow, nzOpt, loadSchedule, hap]
  · exact hinv r0 hr0

theorem statusInv_DeleteScheduleByID {db : DB} {id : String}
    (hinv : ∀ r ∈ db.schedules, r.statusInv) :
    ∀ r ∈ (scheduleRepository.DeleteScheduleByID db id).2.schedules, r.statusInv := by
  intro r hr
  simp only [scheduleRepository.DeleteScheduleByID, List.mem_filter] at hr
  exact hinv r hr.1

theorem reachable_statusInv {ss : scheduleService} {db0 db : DB}
    (h0 : db0.schedules = []) (h : Reachable ss db0 db) :
    ∀ r ∈ db.schedules, r.statusInv := by
  induction h with
  | init => simp [h0]
  | Create h token newScheduleID req ih =>
    rcases Create_effect ss _ token newScheduleID req with ⟨he, _⟩ | ⟨res, db', he⟩
    · rw [he]; exact ih
    · obtain ⟨_, _, _, _, _, _, _, _, _, _, _, _, hdb, _⟩ := Create_ok_inv he
      rw [he, hdb]
      intro r hr
      rcases List.mem_append.1 hr with hr | hr
      · exact ih r hr
      · rw [List.mem_singleton.1 hr]
        exact ⟨by show entity.IsValidScheduleStatus "pending" = true; decide,
          fun hp => absurd rfl hp⟩
  | Update h token req ih =>
    rcases Update_effect ss _ token req with he | ⟨row, hrow, he⟩
    · rw [he]; exact ih
    · rw [he]; exact statusInv_UpdateSchedule req hrow ih
  | Approval h token req ih =>
    rcases Approval_effect ss _ token req with ⟨he, _⟩ | ⟨uid, hv, he⟩
    · rw [he]; exact ih
    · rw [he]; exact statusInv_UpdateScheduleStatus hv ih
  | Delete h token id ih =>
    rcases Delete_effect ss _ token id with ⟨he, _⟩ | he
    · rw [he]; exact ih
    · rw [he]; exact statusInv_DeleteScheduleByID ih

/-- C2 (as stated) fails: from the scenario store without schedules, the student `u-s`
creates `sch1` and lecturer `u-l1` calls Approval on it with status `pending`; the
store reached holds a schedule whose ApprovedByID is set while its Status is `pending`,
neither `approved` nor `rejected`. -/
theorem reachable_approver_iff_decided_fails :
    Scenario.db0.schedules = [] ∧
    Reachable Scenario.ss Scenario.db0 Scenario.dbPending ∧
    ∃ row ∈ Scenario.dbPending.schedules,
      row.ApprovedByID = some "u-l1" ∧ row.Status = entity.SCHEDULE_PENDING ∧
        ¬ (row.ApprovedByID ≠ none ↔
            (row.Status = entity.SCHEDULE_APPROVED ∨ row.Status = entity.SCHEDULE_REJECTED)) :=
  ⟨rfl,
    Reachable.Approval (Reachable.Create Reachable.init "u-s" "sch1" Scenario.req)
      "u-l1" ⟨"sch1", "pending"⟩,
    by decide⟩

/-- C2 (amended): in every store reachable from a store without schedules by Create,
Update, Approval and Delete, every stored schedule has one of the three statuses, a
schedule whose status is `approved` or `rejected` has ApprovedByID set, and a schedule
without ApprovedByID is `pending`.  (The converse is left out: Approval accepts the
request status `pending` and then sets ApprovedByID on a pending schedule.) -/
theorem reachable_decided_has_approver (ss : scheduleService) (db0 db : DB)
    (h0 : db0.schedules = []) (h : Reachable ss db0 db) :
    ∀ row ∈ db.schedules,
      (row.Status = entity.SCHEDULE_PENDING ∨ row.Status = entity.SCHEDULE_APPROVED ∨
          row.Status = entity.SCHEDULE_REJECTED) ∧
      ((row.Status = entity.SCHEDULE_APPROVED ∨ row.Status = entity.SCHEDULE_REJECTED) →
          row.ApprovedByID ≠ none) ∧
      (row.ApprovedByID = none → row.Status = entity.SCHEDULE_PENDING) := by
  intro row hrow
  obtain ⟨hv, ha⟩ := reachable_statusInv h0 h row hrow
  refine ⟨valid_status_cases hv, ?_, ?_⟩
  · rintro (hs | hs) <;> apply ha <;> rw [hs] <;> decide
  · intro hn
    by_contra hp
    exact ha hp hn

theorem reachable_decided_has_approver_witness :
    Scenario.db0.schedules = [] ∧ Scenario.dbApproved.schedules ≠ [] ∧
    ∀ row ∈ Scenario.dbApproved.schedules,
      (row.Status = entity.SCHEDULE_PENDING ∨ row.Status = entity.SCHEDULE_APPROVED ∨
          row.Status = entity.SCHEDULE_REJECTED) ∧
      ((row.Status = entity.SCHEDULE_APPROVED ∨ row.Status = entity.SCHEDULE_REJECTED) →
          row.ApprovedByID ≠ none) ∧
      (row.ApprovedByID = none → row.Status = entity.SCHEDULE_PENDING) :=
  ⟨rfl, by decide,
    reachable_decided_has_approver Scenario.ss Scenario.db0 Scenario.dbApproved rfl
      (Reachable.Approval (Reachable.Create Reachable.init "u-s" "sch1" Scenario.req)
        "u-l1" ⟨"sch1", "approved"⟩)⟩

/-! ## Approval: status validation and overwriting -/

theorem Approval_of_resolved {ss : scheduleService} {db : DB} {token uid : String}
    {user : User} {req : dto.ApprovalScheduleRequest}
    (hex : ∃ row ∈ db.schedules, row.ID = req.ID)
    (htoken : ss.jwt token = .ok uid)
    (huser : userRepository.GetUserByID db uid = (user, true, none))
    (hrole : user.Role ≠ constants.ENUM_ROLE_STUDENT) :
    ss.Approval db token req =
      if entity.IsValidScheduleStatus req.Status = true then
        (.ok (), (scheduleRepository.UpdateScheduleStatus db req.ID req.Status uid).2)
      else (.err (Err.Errorf ("invalid status schedule: " ++ req.Status)), db) := by
  obtain ⟨row, hrow⟩ := find_schedule_of_mem hex
  by_cases hv : entity.IsValidScheduleStatus req.Status = true <;>
    simp [scheduleService.Approval, GetScheduleByID_of_find_some hrow, htoken, huser, hrole, hv,
      scheduleRepository.UpdateScheduleStatus]

theorem Approval_ok_inv {ss : scheduleService} {db : DB} {token : String}
    {req : dto.ApprovalScheduleRequest}
    (hok : (ss.Approval db token req).1 = .ok ()) :
    ∃ uid user, (∃ row ∈ db.schedules, row.ID = req.ID) ∧ ss.jwt token = .ok uid ∧
      userRepository.GetUserByID db uid = (user, true, none) ∧
      user.Role ≠ constants.ENUM_ROLE_STUDENT ∧
      entity.IsValidScheduleStatus req.Status = true := by
  rcases hs : scheduleRepository.GetScheduleByID db req.ID with ⟨s, fs, es⟩
  cases es <;> cases fs <;> try (simp [scheduleService.Approval, hs] at hok; done)
  obtain ⟨row, hrow, -⟩ := GetScheduleByID_found hs
  have hex : ∃ row ∈ db.schedules, row.ID = req.ID :=
    ⟨row, List.mem_of_find?_eq_some hrow, by simpa using List.find?_some hrow⟩
  rcases ht : ss.jwt token with e | uid
  · simp [scheduleService.Approval, hs, ht] at hok
  rcases hu : userRepository.GetUserByID db uid with ⟨u, fu, eu⟩
  cases eu <;> cases fu <;> try (simp [scheduleService.Approval, hs, ht, hu] at hok; done)
  by_cases hr : u.Role = constants.ENUM_ROLE_STUDENT
  · simp [scheduleService.Approval, hs, ht, hu, hr] at hok
  by_cases hv : entity.IsValidScheduleStatus req.Status = true
  · exact ⟨uid, u, hex, rfl, hu, hr, hv⟩
  · simp [scheduleService.Approval, hs, ht, hu, hr, hv] at hok

/-- C3 (as stated) fails: in the store `dbApproved` the schedule `sch1` is stored as
`approved` by `u-l1`; lecturer `u-l2` calling Approval on it with status `rejected`
gets no error, and afterwards the stored schedule `sch1` is `rejected` with approver
`u-l2`. -/
theorem Approval_changes_decided_schedule :
    Scenario.rowApproved ∈ Scenario.dbApproved.schedules ∧
    Scenario.rowApproved.Status = entity.SCHEDULE_APPROVED ∧
    (Scenario.ss.Approval Scenario.dbApproved "u-l2" Scenario.reqReject).1 = .ok () ∧
    ∃ row' ∈ (Scenario.ss.Approval Scenario.dbApproved "u-l2" Scenario.reqReject).2.schedules,
      row'.ID = Scenario.rowApproved.ID ∧
        row'.Status = entity.SCHEDULE_REJECTED ∧ row'.ApprovedByID = some "u-l2" ∧
        row'.Status ≠ Scenario.rowApproved.Status ∧
        row'.ApprovedByID ≠ Scenario.rowApproved.ApprovedByID := by
  decide

/-- C3 (amended): for a schedule whose stored Status is already `approved` or `rejected`,
a call of Approval that does not succeed leaves the whole store unchanged, and a call
that succeeds (existing id, resolved non-student caller, request status one of the three
enumerated values) rewrites exactly the schedules with the requested id, setting their
Status to the request's and their ApprovedBy to the caller: the schedule is overwritten
when the id is its own and kept as it is otherwise.  There is no guard on the stored
status. -/
theorem Approval_decided_schedule (ss : scheduleService) (db : DB) (token : String)
    (req : dto.ApprovalScheduleRequest) (row : ScheduleRow)
    (hrow : row ∈ db.schedules)
    (_hdecided : row.Status = entity.SCHEDULE_APPROVED ∨ row.Status = entity.SCHEDULE_REJECTED) :
    ((ss.Approval db token req).1 ≠ .ok () → (ss.Approval db token req).2 = db) ∧
    ((ss.Approval db token req).1 = .ok () →
      ∃ uid user, ss.jwt token = .ok uid ∧
        userRepository.GetUserByID db uid = (user, true, none) ∧
        user.Role ≠ constants.ENUM_ROLE_STUDENT ∧
        entity.IsValidScheduleStatus req.Status = true ∧
        (ss.Approval db token req).2.schedules = db.schedules.map (fun r =>
          if r.ID = req.ID then { r with Status := req.Status, ApprovedByID := some uid }
          else r) ∧
        (if row.ID = req.ID then { row with Status := req.Status, ApprovedByID := some uid }
          else row) ∈ (ss.Approval db token req).2.schedules) := by
  constructor
  · intro hne
    rcases Approval_effect ss db token req with ⟨he, _⟩ | ⟨uid, _, he⟩
    · rw [he]
    · exact absurd (by rw [he]) hne
  · intro hok
    obtain ⟨uid, user, hex, ht, hu, hr, hv⟩ := Approval_ok_inv hok
    have he := Approval_of_resolved hex ht hu hr
    rw [if_pos hv] at he
    have hs : (ss.Approval db token req).2.schedules = db.schedules.map (fun r =>
        if r.ID = req.ID then { r with Status := req.Status, ApprovedByID := some uid }
        else r) := by
      rw [he]; simp [scheduleRepository.UpdateScheduleStatus]
    refine ⟨uid, user, ht, hu, hr, hv, hs, ?_⟩
    rw [hs]
    exact List.mem_map.2 ⟨row, hrow, rfl⟩

theorem Approval_decided_schedule_witness :
    Scenario.rowApproved ∈ Scenario.dbApproved.schedules ∧
    (Scenario.rowApproved.Status = entity.SCHEDULE_APPROVED ∨
      Scenario.rowApproved.Status = entity.SCHEDULE_REJECTED) ∧
    (Scenario.ss.Approval Scenario.dbApproved "u-s" Scenario.reqReject).2
      = Scenario.dbApproved ∧
    ∃ uid user, Scenario.ss.jwt "u-l2" = .ok uid ∧
      userRepository.GetUserByID Scenario.dbApproved uid = (user, true, none) ∧
      user.Role ≠ constants.ENUM_ROLE_STUDENT ∧
      entity.IsValidScheduleStatus Scenario.reqReject.Status = true ∧
      (Scenario.ss.Approval Scenario.dbApproved "u-l2" Scenario.reqReject).2.schedules =
        Scenario.dbApproved.schedules.map (fun r =>
          if r.ID = Scenario.reqReject.ID then
            { r with Status := Scenario.reqReject.Status, ApprovedByID := some uid }
          else r) ∧
      (if Scenario.rowApproved.ID = Scenario.reqReject.ID then
          { Scenario.rowApproved with
            Status := Scenario.reqReject.Status, ApprovedByID := some uid }
        else Scenario.rowApproved) ∈
        (Scenario.ss.Approval Scenario.dbApproved "u-l2" Scenario.reqReject).2.schedules :=
  ⟨by decide, by decide,
    (Approval_decided_schedule Scenario.ss Scenario.dbApproved "u-s" Scenario.reqReject
      Scenario.rowApproved (by decide) (by decide)).1 (by decide),
    (Approval_decided_schedule Scenario.ss Scenario.dbApproved "u-l2" Scenario.reqReject
      Scenario.rowApproved (by decide) (by decide)).2 (by decide)⟩

/-- C4 (as stated) fails: in the store `db1` the schedule `sch1` exists and the caller
`u-l1` resolves to a user with role `lecturer`; Approval with status `pending`, which
is neither `approved` nor `rejected`, returns no error and performs the status update
(the store becomes `dbPending`, with one UpdateScheduleStatus more in the journal). -/
theorem Approval_accepts_pending :
    (∃ row ∈ Scenario.db1.schedules, row.ID = "sch1") ∧
    Scenario.ss.jwt "u-l1" = .ok "u-l1" ∧
    userRepository.GetUserByID Scenario.db1 "u-l1"
      = (loadUser Scenario.db1 Scenario.userL1 true true true, true, none) ∧
    (loadUser Scenario.db1 Scenario.userL1 true true true).Role ≠ constants.ENUM_ROLE_STUDENT ∧
    Scenario.ss.Approval Scenario.db1 "u-l1" ⟨"sch1", "pending"⟩
      = (.ok (), Scenario.dbPending) ∧
    Scenario.dbPending.journal
      = Scenario.db1.journal ++ [Write.UpdateScheduleStatus "sch1" "pending" "u-l1"] ∧
    Scenario.dbPending.schedules
      = [{ Scenario.row1 with Status := "pending", ApprovedByID := some "u-l1" }] :=
  ⟨by decide, rfl, by decide, by decide, by decide, by decide, by decide⟩

/-- C4 (amended): Approval accepts the three enumerated statuses.  For an existing schedule
and a resolved non-student caller, a request whose Status is none of `approved`,
`rejected`, `pending` fails with the validation error and performs no status update,
and a request whose Status is one of the three, `pending` included, returns no error
and performs the status update with the caller as approver. -/
theorem Approval_status_validation (ss : scheduleService) (db : DB) (token uid : String)
    (user : User) (req : dto.ApprovalScheduleRequest)
    (hex : ∃ row ∈ db.schedules, row.ID = req.ID)
    (htoken : ss.jwt token = .ok uid)
    (huser : userRepository.GetUserByID db uid = (user, true, none))
    (hrole : user.Role ≠ constants.ENUM_ROLE_STUDENT) :
    (¬ (req.Status = entity.SCHEDULE_APPROVED ∨ req.Status = entity.SCHEDULE_REJECTED ∨
          req.Status = entity.SCHEDULE_PENDING) →
      ss.Approval db token req =
        (.err (Err.Errorf ("invalid status schedule: " ++ req.Status)), db)) ∧
    ((req.Status = entity.SCHEDULE_APPROVED ∨ req.Status = entity.SCHEDULE_REJECTED ∨
          req.Status = entity.SCHEDULE_PENDING) →
      ss.Approval db token req =
        (.ok (), (scheduleRepository.UpdateScheduleStatus db req.ID req.Status uid).2)) := by
  have he := Approval_of_resolved hex htoken huser hrole
  constructor
  · intro hn
    have hv : ¬ entity.IsValidScheduleStatus req.Status = true := by
      intro hv
      rcases valid_status_cases hv with h | h | h <;> simp [h] at hn
    rw [he, if_neg hv]
  · intro hs
    have hv : entity.IsValidScheduleStatus req.Status = true := by
      rcases hs with h | h | h <;> rw [h] <;> decide
    rw [he, if_pos hv]

theorem Approval_status_validation_witness :
    Scenario.ss.Approval Scenario.db1 "u-l1" ⟨"sch1", "done"⟩ =
        (.err (Err.Errorf "invalid status schedule: done"), Scenario.db1) ∧
    Scenario.ss.Approval Scenario.db1 "u-l1" ⟨"sch1", "pending"⟩ =
        (.ok (), (scheduleRepository.UpdateScheduleStatus Scenario.db1 "sch1" "pending"
          "u-l1").2) :=
  have h := Approval_status_validation Scenario.ss Scenario.db1 "u-l1" "u-l1"
    (loadUser Scenario.db1 Scenario.userL1 true true true)
  ⟨(h ⟨"sch1", "done"⟩ (by decide) rfl (by decide) (by decide)).1 (by decide),
   (h ⟨"sch1", "pending"⟩ (by decide) rfl (by decide) (by decide)).2 (by decide)⟩

/-- C5: for every request status that is none of `approved`, `rejected`, `pending`,
every existing schedule and every resolved non-student caller, Approval fails with the
validation error "invalid status schedule: <status>" and the store, journal of
repository writes included, is unchanged: UpdateScheduleStatus is not invoked. -/
theorem Approval_invalid_status (ss : scheduleService) (db : DB) (token uid : String)
    (user : User) (req : dto.ApprovalScheduleRequest)
    (hex : ∃ row ∈ db.schedules, row.ID = req.ID)
    (htoken : ss.jwt token = .ok uid)
    (huser : userRepository.GetUserByID db uid = (user, true, none))
    (hrole : user.Role ≠ constants.ENUM_ROLE_STUDENT)
    (hstatus : req.Status ≠ constants.ENUM_SCHEDULE_STATUS_APPROVED ∧
      req.Status ≠ constants.ENUM_SCHEDULE_STATUS_REJECTED ∧
      req.Status ≠ constants.ENUM_SCHEDULE_STATUS_PENDING) :
    ss.Approval db token req =
        (.err (Err.Errorf ("invalid status schedule: " ++ req.Status)), db) ∧
    (ss.Approval db token req).2.journal = db.journal := by
  have hv : ¬ entity.IsValidScheduleStatus req.Status = true := by
    intro hv
    rcases valid_status_cases hv with h | h | h
    · exact hstatus.2.2 h
    · exact hstatus.1 h
    · exact hstatus.2.1 h
  have he := Approval_of_resolved hex htoken huser hrole
  rw [if_neg hv] at he
  exact ⟨he, by rw [he]⟩

theorem Approval_invalid_status_witness :
    Scenario.ss.Approval Scenario.db1 "u-l2" ⟨"sch1", "cancelled"⟩ =
        (.err (Err.Errorf "invalid status schedule: cancelled"), Scenario.db1) ∧
    (Scenario.ss.Approval Scenario.db1 "u-l2" ⟨"sch1", "cancelled"⟩).2.journal
      = Scenario.db1.journal :=
  Approval_invalid_status Scenario.ss Scenario.db1 "u-l2" "u-l2"
    (loadUser Scenario.db1 Scenario.userL2 true true true)
    ⟨"sch1", "cancelled"⟩ (by decide) rfl (by decide) (by decide) (by decide)

/-! ## Visibility of the schedule list -/

theorem mem_of_mem_Paginate {α : Type} {page perPage : Int} {rows : List α} {x : α}
    (h : x ∈ Paginate page perPage rows) : x ∈ rows := by
  unfold Paginate at h
  simp only at h
  split at h
  · split at h
    · exact List.mem_of_mem_drop (List.mem_of_mem_take h)
    · exact List.mem_of_mem_take h
  · split at h
    · exact List.mem_of_mem_drop h
    · exact h

theorem mem_Schedules_inv {db : DB} {pagination : response.PaginationRequest}
    {role userID : String} {s : Schedule}
    (h : s ∈ (scheduleRepository.GetAllSchedulesByUserIDWithPagination db pagination role
      userID).1.Schedules) :
    ∃ row ∈ scheduleRepository.roleQuery db role userID, s = loadSchedule db row false := by
  simp only [scheduleRepository.GetAllSchedulesByUserIDWithPagination, List.mem_map] at h
  obtain ⟨row, hrow, rfl⟩ := h
  exact ⟨row, List.mem_reverse.1 (mem_of_mem_Paginate hrow), rfl⟩

/-- The rows selected for a student caller are the ones the caller created. -/
theorem list_student_sees_own (db : DB) (pagination : response.PaginationRequest)
    (userID : String) :
    ∀ s ∈ (scheduleRepository.GetAllSchedulesByUserIDWithPagination db pagination
        constants.ENUM_ROLE_STUDENT userID).1.Schedules,
      s.CreatedByID = userID := by
  intro s hs
  obtain ⟨row, hrow, rfl⟩ := mem_Schedules_inv hs
  simp only [scheduleRepository.roleQuery, if_true, List.mem_filter] at hrow
  simpa [loadSchedule] using hrow.2

theorem list_student_sees_own_witness :
    (scheduleRepository.GetAllSchedulesByUserIDWithPagination Scenario.db1 ⟨1, 10⟩
        constants.ENUM_ROLE_STUDENT "u-s").1.Schedules ≠ [] ∧
    ∀ s ∈ (scheduleRepository.GetAllSchedulesByUserIDWithPagination Scenario.db1 ⟨1, 10⟩
        constants.ENUM_ROLE_STUDENT "u-s").1.Schedules,
      s.CreatedByID = "u-s" :=
  ⟨by decide, list_student_sees_own Scenario.db1 ⟨1, 10⟩ "u-s"⟩

/-- The rows selected for a caller whose role is exactly `lecturer` belong to a thesis
that has the caller's lecturer among its supervisors. -/
theorem list_lecturer_sees_supervised (db : DB) (pagination : response.PaginationRequest)
    (userID : String) :
    ∀ s ∈ (scheduleRepository.GetAllSchedulesByUserIDWithPagination db pagination
        constants.ENUM_ROLE_LECTURER userID).1.Schedules,
      ∃ t ∈ db.theses, t.ID = s.ThesisID ∧
        ∃ ts ∈ db.thesis_supervisors, ts.ThesisID = t.ID ∧
          ∃ l ∈ db.lecturers, l.ID = ts.LecturerID ∧
            ∃ u ∈ db.users, u.ID = userID ∧ u.LecturerID = some l.ID := by
  intro s hs
  obtain ⟨row, hrow, rfl⟩ := mem_Schedules_inv hs
  have hne : ¬ constants.ENUM_ROLE_LECTURER = constants.ENUM_ROLE_STUDENT := by decide
  simp only [scheduleRepository.roleQuery, hne, if_false, if_true, List.mem_flatMap,
    List.mem_filter, List.mem_map] at hrow
  obtain ⟨s0, -, t, ⟨ht, hts⟩, ts, ⟨hts1, hts2⟩, l, ⟨hl, hl2⟩, u, ⟨hu, hu2⟩, rfl⟩ := hrow
  simp only [beq_iff_eq, Bool.and_eq_true] at hts hts2 hl2 hu2
  exact ⟨t, ht, hts.symm, ts, hts1, hts2.symm, l, hl, hl2.symm, u, hu, hu2.2, hu2.1⟩

theorem list_lecturer_sees_supervised_witness :
    (scheduleRepository.GetAllSchedulesByUserIDWithPagination Scenario.db1 ⟨1, 10⟩
        constants.ENUM_ROLE_LECTURER "u-l1").1.Schedules ≠ [] ∧
    ∀ s ∈ (scheduleRepository.GetAllSchedulesByUserIDWithPagination Scenario.db1 ⟨1, 10⟩
        constants.ENUM_ROLE_LECTURER "u-l1").1.Schedules,
      ∃ t ∈ Scenario.db1.theses, t.ID = s.ThesisID ∧
        ∃ ts ∈ Scenario.db1.thesis_supervisors, ts.ThesisID = t.ID ∧
          ∃ l ∈ Scenario.db1.lecturers, l.ID = ts.LecturerID ∧
            ∃ u ∈ Scenario.db1.users, u.ID = "u-l1" ∧ u.LecturerID = some l.ID :=
  ⟨by decide, list_lecturer_sees_supervised Scenario.db1 ⟨1, 10⟩ "u-l1"⟩

/-- For every role other than `student` and `lecturer` the query carries no filter. -/
theorem roleQuery_other_role (db : DB) (role userID : String)
    (hs : role ≠ constants.ENUM_ROLE_STUDENT) (hl : role ≠ constants.ENUM_ROLE_LECTURER) :
    scheduleRepository.roleQuery db role userID = db.schedules := by
  simp [scheduleRepository.roleQuery, hs, hl]

/-- C6 (code bug): the `switch role` of GetAllSchedulesByUserIDWithPagination has cases
for `student` and `lecturer` only.  In the scenario store the caller `u-l3` has role
`primary_lecturer` and lecturer profile `l3`, which supervises no thesis; the list
returned to that caller nevertheless holds schedule `sch1` of thesis `t1`. -/
theorem list_primary_lecturer_sees_unsupervised :
    userRepository.GetUserByID Scenario.db1 "u-l3"
      = (loadUser Scenario.db1 Scenario.userL3 true true true, true, none) ∧
    (loadUser Scenario.db1 Scenario.userL3 true true true).Role
      = constants.ENUM_ROLE_PRIMARY_LECTURER ∧
    (∀ ts ∈ Scenario.db1.thesis_supervisors, ts.LecturerID ≠ "l3") ∧
    (scheduleRepository.GetAllSchedulesByUserIDWithPagination Scenario.db1 ⟨1, 10⟩
      constants.ENUM_ROLE_PRIMARY_LECTURER "u-l3").1.Schedules.map (fun s => (s.ID, s.ThesisID))
      = [("sch1", "t1")] ∧
    ∃ page, Scenario.ss.GetAllWithPagination Scenario.db1 "u-l3" ⟨1, 10⟩ = .ok page ∧
      page.Data.map (fun s => s.ID) = ["sch1"] := by
  refine ⟨by decide, by decide, by decide, by decide, ?_⟩
  exact ⟨{ Data := [Scenario.res1],
           PaginationResponse := { Page := 1, PerPage := 10, MaxPage := 1, Count := 1 } },
    by decide, by decide⟩

/-! ## Create -/

theorem find_append_new (rows : List ScheduleRow) (row : ScheduleRow)
    (h : rows.any (fun r => r.ID == row.ID) = false) :
    (rows ++ [row]).find? (fun r => r.ID == row.ID) = some row := by
  have hn : rows.find? (fun r => r.ID == row.ID) = none := by
    rw [List.find?_eq_none]
    intro r hr hid
    have hall : ∀ x ∈ rows, ¬ (x.ID == row.ID) = true := by simpa using h
    exact hall r hr hid
  simp [List.find?_append, hn]

/-- C7: for every successful Create, the schedule handed to CreateSchedule (the journal
entry), which is also the row appended to the table, has the fresh id, Status `pending`,
no approver, the request's ProposedAt, StartTime, EndTime, Description and Location, the
id of the caller's first thesis as ThesisID and the caller's user id as CreatedByID; the
returned response carries the same values. -/
theorem Create_persists_pending_schedule (ss : scheduleService) (db db' : DB)
    (token newScheduleID : String) (req : dto.CreateScheduleRequest)
    (res : dto.ScheduleResponse)
    (h : ss.Create db token newScheduleID req = (.ok res, db')) :
    ∃ uid user student thesis0 rest row,
      ss.jwt token = .ok uid ∧
      userRepository.GetUserByID db uid = (user, true, none) ∧
      user.ID = uid ∧
      user.Student = some student ∧
      student.Theses = thesis0 :: rest ∧
      row = { ID := newScheduleID, ProposedAt := req.ProposedAt, StartTime := req.StartTime,
              EndTime := req.EndTime, Status := constants.ENUM_SCHEDULE_STATUS_PENDING,
              Description := req.Description, Location := req.Location,
              ThesisID := thesis0.ID, CreatedByID := user.ID, ApprovedByID := none } ∧
      db'.journal = db.journal ++ [Write.CreateSchedule row] ∧
      db'.schedules = db.schedules ++ [row] ∧
      res.ID = newScheduleID ∧
      res.Status = constants.ENUM_SCHEDULE_STATUS_PENDING ∧
      res.ApprovedBy = none ∧
      res.ProposedAt = req.ProposedAt ∧ res.StartTime = req.StartTime ∧
      res.EndTime = req.EndTime ∧ res.Description = req.Description ∧
      res.Location = req.Location ∧
      res.Thesis.ID = thesis0.ID ∧ res.CreatedBy.ID = user.ID := by
  obtain ⟨uid, user, student, thesis0, rest, thesis, ht, hu, hst, hth, hg, -, rfl, rfl⟩ :=
    Create_ok_inv h
  obtain ⟨urow, hurow, rfl⟩ := GetUserByID_found hu
  obtain ⟨trow, htrow, rfl⟩ := GetThesisByID_found hg
  have hid : trow.ID = thesis0.ID := by simpa using List.find?_some htrow
  have huid : urow.ID = uid := by simpa using List.find?_some hurow
  refine ⟨uid, _, student, thesis0, rest, _, ht, hu, ?_, hst, hth, rfl, ?_, ?_, rfl, rfl,
    rfl, rfl, rfl, rfl, rfl, rfl, ?_, rfl⟩
  · simpa [loadUser] using huid
  · simp [loadThesis, hid]
  · simp [loadThesis, hid]
  · simpa [thesisResponse, loadThesis] using hid

/-- C8: round trip.  When Create succeeds, GetDetail of the returned id on the resulting
store succeeds, for any caller, and returns the very response Create returned: the
request's proposed_at, start_time, end_time, description and location, status `pending`
and no approved_by. -/
theorem Create_then_GetDetail (ss : scheduleService) (db db' : DB)
    (token newScheduleID : String) (req : dto.CreateScheduleRequest)
    (res : dto.ScheduleResponse) (token' : String)
    (h : ss.Create db token newScheduleID req = (.ok res, db')) :
    ss.GetDetail db' token' res.ID = .ok res ∧
      res.ProposedAt = req.ProposedAt ∧ res.StartTime = req.StartTime ∧
      res.EndTime = req.EndTime ∧ res.Description = req.Description ∧
      res.Location = req.Location ∧
      res.Status = constants.ENUM_SCHEDULE_STATUS_PENDING ∧ res.ApprovedBy = none := by
  obtain ⟨uid, user, student, thesis0, rest, thesis, ht, hu, hst, hth, hg, hd, rfl, rfl⟩ :=
    Create_ok_inv h
  refine ⟨?_, rfl, rfl, rfl, rfl, rfl, rfl, rfl⟩
  obtain ⟨urow, hurow, rfl⟩ := GetUserByID_found hu
  obtain ⟨trow, htrow, rfl⟩ := GetThesisByID_found hg
  have hid : trow.ID = thesis0.ID := by simpa using List.find?_some htrow
  have huid : urow.ID = uid := by simpa using List.find?_some hurow
  -- the creator's student profile
  simp only [loadUser, if_true] at hst
  rcases hsid : urow.StudentID with _ | sid
  · simp [hsid] at hst
  simp only [hsid, Option.some_bind, preloadStudent, Option.map_eq_some'] at hst
  obtain ⟨srow, hsrow, rfl⟩ := hst
  have hfind := find_append_new db.schedules
    { ID := newScheduleID, ProposedAt := req.ProposedAt, StartTime := req.StartTime,
      EndTime := req.EndTime, Status := constants.ENUM_SCHEDULE_STATUS_PENDING,
      Description := req.Description, Location := req.Location,
      ThesisID := (loadThesis db trow).ID,
      CreatedByID := (loadUser db urow true true true).ID,
      ApprovedByID := none } hd
  simp only [scheduleService.GetDetail]
  rw [GetScheduleByID_of_find_some hfind]
  simp [scheduleResponse, loadSchedule, preloadUser, preloadThesis, loadUser, loadThesis, hid,
    huid, hurow, htrow, hsid, hsrow, preloadStudent, thesisResponse, preloadSupervisors,
    preloadLecturer]

theorem Create_persists_pending_schedule_witness :
    Scenario.ss.Create Scenario.db0 "u-s" "sch1" Scenario.req
        = (.ok Scenario.res1, Scenario.db1) ∧
    ∃ uid user student thesis0 rest row,
      Scenario.ss.jwt "u-s" = .ok uid ∧
      userRepository.GetUserByID Scenario.db0 uid = (user, true, none) ∧
      user.ID = uid ∧
      user.Student = some student ∧
      student.Theses = thesis0 :: rest ∧
      row = { ID := "sch1", ProposedAt := Scenario.req.ProposedAt,
              StartTime := Scenario.req.StartTime,
              EndTime := Scenario.req.EndTime, Status := constants.ENUM_SCHEDULE_STATUS_PENDING,
              Description := Scenario.req.Description, Location := Scenario.req.Location,
              ThesisID := thesis0.ID, CreatedByID := user.ID, ApprovedByID := none } ∧
      Scenario.db1.journal = Scenario.db0.journal ++ [Write.CreateSchedule row] ∧
      Scenario.db1.schedules = Scenario.db0.schedules ++ [row] ∧
      Scenario.res1.ID = "sch1" ∧
      Scenario.res1.Status = constants.ENUM_SCHEDULE_STATUS_PENDING ∧
      Scenario.res1.ApprovedBy = none ∧
      Scenario.res1.ProposedAt = Scenario.req.ProposedAt ∧
      Scenario.res1.StartTime = Scenario.req.StartTime ∧
      Scenario.res1.EndTime = Scenario.req.EndTime ∧
      Scenario.res1.Description = Scenario.req.Description ∧
      Scenario.res1.Location = Scenario.req.Location ∧
      Scenario.res1.Thesis.ID = thesis0.ID ∧ Scenario.res1.CreatedBy.ID = user.ID :=
  ⟨by decide,
    Create_persists_pending_schedule Scenario.ss Scenario.db0 Scenario.db1 "u-s" "sch1"
      Scenario.req Scenario.res1 (by decide)⟩

theorem Create_then_GetDetail_witness :
    Scenario.ss.Create Scenario.db0 "u-s" "sch1" Scenario.req
        = (.ok Scenario.res1, Scenario.db1) ∧
    Scenario.ss.GetDetail Scenario.db1 "u-l1" Scenario.res1.ID = .ok Scenario.res1 ∧
      Scenario.res1.ProposedAt = Scenario.req.ProposedAt ∧
      Scenario.res1.StartTime = Scenario.req.StartTime ∧
      Scenario.res1.EndTime = Scenario.req.EndTime ∧
      Scenario.res1.Description = Scenario.req.Description ∧
      Scenario.res1.Location = Scenario.req.Location ∧
      Scenario.res1.Status = constants.ENUM_SCHEDULE_STATUS_PENDING ∧
      Scenario.res1.ApprovedBy = none :=
  ⟨by decide,
    Create_then_GetDetail Scenario.ss Scenario.db0 Scenario.db1 "u-s" "sch1" Scenario.req
      Scenario.res1 "u-l1" (by decide)⟩

/-! ## Approval followed by GetDetail -/

theorem loadSchedule_frame (db : DB) (schedules : List ScheduleRow) (journal : List Write)
    (row : ScheduleRow) (approverStudent : Bool) :
    loadSchedule { db with schedules := schedules, journal := journal } row approverStudent
      = loadSchedule db row approverStudent := rfl

theorem find_map_same_id (rows : List ScheduleRow) (id : String) {row : ScheduleRow}
    (f : ScheduleRow → ScheduleRow) (hf : ∀ r, (f r).ID = r.ID)
    (h : rows.find? (fun r => r.ID == id) = some row) :
    (rows.map f).find? (fun r => r.ID == id) = some (f row) := by
  rw [List.find?_map]
  have : ((fun r => r.ID == id) ∘ f) = (fun r => r.ID == id) := by
    funext r; simp [hf]
  rw [this, h]; rfl

theorem lecturer_role_ne_student {role : String}
    (h : role = constants.ENUM_ROLE_LECTURER ∨ role = constants.ENUM_ROLE_PRIMARY_LECTURER ∨
      role = constants.ENUM_ROLE_SECONDARY_LECTURER) :
    role ≠ constants.ENUM_ROLE_STUDENT := by
  rcases h with h | h | h <;> rw [h] <;> decide

/-- Approval with status `approved` followed by GetDetail.  For the schedule `row` stored
under the requested id and a resolved caller `L` with a lecturer role, Approval succeeds
and writes exactly Status and ApprovedByID of the schedules with that id (one
UpdateScheduleStatus in the journal); every other column, every other schedule and every
other table are unchanged.  When `L` has its lecturer profile and the creator of the
schedule its student profile, a subsequent GetDetail by any caller returns the schedule
with status `approved`, an ApprovedBy that identifies `L` and carries the Identifier of
`L`, and all other columns as stored. -/
theorem Approval_approved_then_GetDetail (ss : scheduleService) (db : DB)
    (token uid token' : String) (L : User) (req : dto.ApprovalScheduleRequest)
    (row : ScheduleRow) (lecturer : Lecturer) (student : Student)
    (hrow : db.schedules.find? (fun r => r.ID == req.ID) = some row)
    (htoken : ss.jwt token = .ok uid)
    (huser : userRepository.GetUserByID db uid = (L, true, none))
    (hrole : L.Role = constants.ENUM_ROLE_LECTURER ∨
      L.Role = constants.ENUM_ROLE_PRIMARY_LECTURER ∨
      L.Role = constants.ENUM_ROLE_SECONDARY_LECTURER)
    (hstatus : req.Status = constants.ENUM_SCHEDULE_STATUS_APPROVED) :
    ss.Approval db token req =
      (.ok (),
        { db with
          schedules := db.schedules.map (fun r =>
            if r.ID = req.ID then
              { r with Status := constants.ENUM_SCHEDULE_STATUS_APPROVED,
                       ApprovedByID := some L.ID }
            else r),
          journal := db.journal ++
            [Write.UpdateScheduleStatus req.ID constants.ENUM_SCHEDULE_STATUS_APPROVED
              L.ID] }) ∧
    (L.Lecturer = some lecturer →
      (loadSchedule db row true).CreatedBy.Student = some student →
      ∃ d, ss.GetDetail (ss.Approval db token req).2 token' req.ID = .ok d ∧
        d.Status = constants.ENUM_SCHEDULE_STATUS_APPROVED ∧
        d.ApprovedBy = some
          { ID := L.ID, Name := lecturer.Name, Identifier := L.Identifier, Role := L.Role } ∧
        d.ID = row.ID ∧ d.ProposedAt = row.ProposedAt ∧ d.StartTime = row.StartTime ∧
        d.EndTime = row.EndTime ∧ d.Description = row.Description ∧
        d.Location = row.Location ∧ d.Thesis.ID = (loadSchedule db row true).Thesis.ID ∧
        d.CreatedBy.ID = (loadSchedule db row true).CreatedBy.ID) := by
  have hex : ∃ r ∈ db.schedules, r.ID = req.ID :=
    ⟨row, List.mem_of_find?_eq_some hrow, by simpa using List.find?_some hrow⟩
  have he := Approval_of_resolved hex htoken huser (lecturer_role_ne_student hrole)
  rw [if_pos (by rw [hstatus]; decide)] at he
  obtain ⟨urow, hurow, rfl⟩ := GetUserByID_found huser
  have huid : urow.ID = uid := by simpa using List.find?_some hurow
  have hLid : (loadUser db urow true true true).ID = uid := by simpa [loadUser] using huid
  have he' : ss.Approval db token req =
      (.ok (),
        { db with
          schedules := db.schedules.map (fun r =>
            if r.ID = req.ID then
              { r with Status := constants.ENUM_SCHEDULE_STATUS_APPROVED,
                       ApprovedByID := some (loadUser db urow true true true).ID }
            else r),
          journal := db.journal ++
            [Write.UpdateScheduleStatus req.ID constants.ENUM_SCHEDULE_STATUS_APPROVED
              (loadUser db urow true true true).ID] }) := by
    rw [he, hLid, hstatus]
    simp [scheduleRepository.UpdateScheduleStatus]
  refine ⟨he', ?_⟩
  intro hprofile hcreator
  rw [he']
  have hfind := find_map_same_id db.schedules req.ID
    (fun r =>
      if r.ID = req.ID then
        { r with Status := constants.ENUM_SCHEDULE_STATUS_APPROVED,
                 ApprovedByID := some (loadUser db urow true true true).ID }
      else r)
    (by intro r; by_cases hr : r.ID = req.ID <;> simp [hr]) hrow
  have hrid : row.ID = req.ID := by simpa using List.find?_some hrow
  simp only [hrid, if_true] at hfind
  simp only [scheduleService.GetDetail]
  rw [GetScheduleByID_of_find_some hfind, loadSchedule_frame]
  have hA : preloadUser db urow.ID true false true = some (loadUser db urow true false true) := by
    simp [preloadUser, huid, hurow]
  have hAL : (loadUser db urow true false true).Lecturer = some lecturer := by
    simpa [loadUser] using hprofile
  simp only [loadSchedule] at hcreator
  simp only [scheduleResponse, loadSchedule, hcreator, loadUser, Option.some_bind, hA]
  simp only [loadUser] at hAL
  simp only [hAL]
  exact ⟨_, rfl, rfl, rfl, hrid.symm, rfl, rfl, rfl, rfl, rfl, rfl, rfl⟩

theorem Approval_approved_then_GetDetail_witness :
    Scenario.ss.Approval Scenario.db1 "u-l1" ⟨"sch1", "approved"⟩ =
      (.ok (),
        { Scenario.db1 with
          schedules := Scenario.db1.schedules.map (fun r =>
            if r.ID = "sch1" then
              { r with Status := constants.ENUM_SCHEDULE_STATUS_APPROVED,
                       ApprovedByID := some
                        (loadUser Scenario.db1 Scenario.userL1 true true true).ID }
            else r),
          journal := Scenario.db1.journal ++
            [Write.UpdateScheduleStatus "sch1" constants.ENUM_SCHEDULE_STATUS_APPROVED
              (loadUser Scenario.db1 Scenario.userL1 true true true).ID] }) ∧
    ∃ d, Scenario.ss.GetDetail
          (Scenario.ss.Approval Scenario.db1 "u-l1" ⟨"sch1", "approved"⟩).2 "u-s" "sch1"
          = .ok d ∧
      d.Status = constants.ENUM_SCHEDULE_STATUS_APPROVED ∧
      d.ApprovedBy = some
        { ID := (loadUser Scenario.db1 Scenario.userL1 true true true).ID, Name := "L1",
          Identifier := (loadUser Scenario.db1 Scenario.userL1 true true true).Identifier,
          Role := (loadUser Scenario.db1 Scenario.userL1 true true true).Role } ∧
      d.ID = Scenario.row1.ID ∧ d.ProposedAt = Scenario.row1.ProposedAt ∧
      d.StartTime = Scenario.row1.StartTime ∧
      d.EndTime = Scenario.row1.EndTime ∧ d.Description = Scenario.row1.Description ∧
      d.Location = Scenario.row1.Location ∧
      d.Thesis.ID = (loadSchedule Scenario.db1 Scenario.row1 true).Thesis.ID ∧
      d.CreatedBy.ID = (loadSchedule Scenario.db1 Scenario.row1 true).CreatedBy.ID :=
  have h := Approval_approved_then_GetDetail Scenario.ss Scenario.db1 "u-l1" "u-l1" "u-s"
    (loadUser Scenario.db1 Scenario.userL1 true true true) ⟨"sch1", "approved"⟩
    Scenario.row1 ⟨"l1", "L1", "1980001"⟩ ⟨"s1", "S", "2021001", []⟩
    (by decide) rfl (by decide) (by decide) (by decide)
  ⟨h.1, h.2 (by decide) (by decide)⟩

/-- C9 (code bug): in the store `dbC1` the schedule `sch1` is stored and the caller `u-l4`
resolves to a user with role `lecturer` that has no lecturer profile.  Approval with
status `approved` succeeds and sets Status and ApprovedByID of `sch1`, nothing else; the
subsequent GetDetail of `sch1` then panics on `data.ApprovedBy.Lecturer.Name` instead of
returning the schedule with the Identifier of `u-l4`, and so does the list of the
creator `u-s`.  Before the approval GetDetail returns the schedule. -/
theorem Approval_then_GetDetail_faults_without_profile :
    Scenario.dbC1.schedules = [Scenario.row1] ∧
    Scenario.ss.jwt "u-l4" = .ok "u-l4" ∧
    userRepository.GetUserByID Scenario.dbC1 "u-l4"
      = (loadUser Scenario.dbC1 Scenario.userL4 true true true, true, none) ∧
    (loadUser Scenario.dbC1 Scenario.userL4 true true true).Role
      = constants.ENUM_ROLE_LECTURER ∧
    (loadUser Scenario.dbC1 Scenario.userL4 true true true).Lecturer = none ∧
    Scenario.ss.GetDetail Scenario.dbC1 "u-l4" "sch1" = .ok Scenario.res1 ∧
    Scenario.ss.Approval Scenario.dbC1 "u-l4" ⟨"sch1", "approved"⟩ =
      (.ok (),
        { Scenario.dbC1 with
          schedules :=
            [ { Scenario.row1 with Status := "approved", ApprovedByID := some "u-l4" } ],
          journal := Scenario.dbC1.journal ++
            [Write.UpdateScheduleStatus "sch1" "approved" "u-l4"] }) ∧
    Scenario.ss.GetDetail (Scenario.ss.Approval Scenario.dbC1 "u-l4" ⟨"sch1", "approved"⟩).2
      "u-l4" "sch1" = .fault ∧
    Scenario.ss.GetAllWithPagination
      (Scenario.ss.Approval Scenario.dbC1 "u-l4" ⟨"sch1", "approved"⟩).2 "u-s" ⟨1, 10⟩
      = .fault :=
  ⟨by decide, rfl, by decide, by decide, by decide, by decide, by decide, by decide, by decide⟩

/-! ## Delete -/

/-- C10: for every stored schedule, whatever its status and whoever the caller, Delete
succeeds and removes the schedules with that id and nothing else (one journal entry,
one DeleteScheduleByID; the other schedules and tables are unchanged), and a subsequent
GetDetail of the same id, by any caller, fails with `dto.ErrNotFound`. -/
theorem Delete_then_GetDetail (ss : scheduleService) (db : DB) (token token' id : String)
    (hex : ∃ row ∈ db.schedules, row.ID = id) :
    ss.Delete db token id =
      (.ok (),
        { db with
          schedules := db.schedules.filter (fun r => !(r.ID == id)),
          journal := db.journal ++ [Write.DeleteScheduleByID id] }) ∧
    (∀ r, r ∈ (ss.Delete db token id).2.schedules ↔ r ∈ db.schedules ∧ r.ID ≠ id) ∧
    ss.GetDetail (ss.Delete db token id).2 token' id = .err Err.ErrNotFound := by
  obtain ⟨row, hrow⟩ := find_schedule_of_mem hex
  have he : ss.Delete db token id =
      (.ok (),
        { db with
          schedules := db.schedules.filter (fun r => !(r.ID == id)),
          journal := db.journal ++ [Write.DeleteScheduleByID id] }) := by
    simp [scheduleService.Delete, GetScheduleByID_of_find_some hrow,
      scheduleRepository.DeleteScheduleByID]
  refine ⟨he, ?_, ?_⟩
  · intro r
    rw [he]
    simp [List.mem_filter]
  · rw [he]
    have hnone : (db.schedules.filter (fun r => !(r.ID == id))).find? (fun r => r.ID == id)
        = none := by
      rw [List.find?_eq_none]
      intro r hr
      simpa using (List.mem_filter.1 hr).2
    simp only [scheduleService.GetDetail]
    rw [GetScheduleByID_of_find_none hnone]

theorem Delete_then_GetDetail_witness :
    (∃ row ∈ Scenario.dbApproved.schedules, row.ID = "sch1") ∧
    Scenario.ss.Delete Scenario.dbApproved "u-s" "sch1" =
      (.ok (),
        { Scenario.dbApproved with
          schedules := Scenario.dbApproved.schedules.filter (fun r => !(r.ID == "sch1")),
          journal := Scenario.dbApproved.journal ++ [Write.DeleteScheduleByID "sch1"] }) ∧
    (∀ r, r ∈ (Scenario.ss.Delete Scenario.dbApproved "u-s" "sch1").2.schedules ↔
      r ∈ Scenario.dbApproved.schedules ∧ r.ID ≠ "sch1") ∧
    Scenario.ss.GetDetail (Scenario.ss.Delete Scenario.dbApproved "u-s" "sch1").2 "u-l1" "sch1"
      = .err Err.ErrNotFound :=
  ⟨by decide, Delete_then_GetDetail Scenario.ss Scenario.dbApproved "u-s" "u-l1" "sch1"
    (by decide)⟩

/-! ## Frame: the tables the schedule workflow never writes -/

theorem sameTables_refl (db : DB) : db.sameTables db := ⟨rfl, rfl, rfl, rfl, rfl⟩

theorem sameTables_trans {a b c : DB} (h1 : a.sameTables b) (h2 : b.sameTables c) :
    a.sameTables c :=
  ⟨h2.1.trans h1.1, h2.2.1.trans h1.2.1, h2.2.2.1.trans h1.2.2.1,
    h2.2.2.2.1.trans h1.2.2.2.1, h2.2.2.2.2.trans h1.2.2.2.2⟩

theorem Create_sameTables (ss : scheduleService) (db : DB) (token newScheduleID : String)
    (req : dto.CreateScheduleRequest) :
    db.sameTables (ss.Create db token newScheduleID req).2 := by
  rcases Create_effect ss db token newScheduleID req with ⟨_, h⟩ | ⟨res, db', he⟩
  · exact h
  · obtain ⟨_, _, _, _, _, _, _, _, _, _, _, _, hdb, _⟩ := Create_ok_inv he
    rw [he, hdb]
    exact ⟨rfl, rfl, rfl, rfl, rfl⟩

theorem Update_sameTables (ss : scheduleService) (db : DB) (token : String)
    (req : dto.UpdateScheduleRequest) :
    db.sameTables (ss.Update db token req).2 := by
  rcases Update_effect ss db token req with he | ⟨row, _, he⟩
  · rw [he]; exact sameTables_refl db
  · rw [he]; exact ⟨rfl, rfl, rfl, rfl, rfl⟩

theorem Approval_sameTables (ss : scheduleService) (db : DB) (token : String)
    (req : dto.ApprovalScheduleRequest) :
    db.sameTables (ss.Approval db token req).2 := by
  rcases Approval_effect ss db token req with ⟨he, _⟩ | ⟨uid, _, he⟩
  · rw [he]; exact sameTables_refl db
  · rw [he]; exact ⟨rfl, rfl, rfl, rfl, rfl⟩

theorem Delete_sameTables (ss : scheduleService) (db : DB) (token id : String) :
    db.sameTables (ss.Delete db token id).2 := by
  rcases Delete_effect ss db token id with ⟨he, _⟩ | he
  · rw [he]; exact sameTables_refl db
  · rw [he]; exact ⟨rfl, rfl, rfl, rfl, rfl⟩

/-- The workflow operations write the table `schedules` (and the journal) only. -/
theorem reachable_sameTables (ss : scheduleService) (db0 db : DB)
    (h : Reachable ss db0 db) : db0.sameTables db := by
  induction h with
  | init => exact sameTables_refl db0
  | Create h token newScheduleID req ih =>
    exact sameTables_trans ih (Create_sameTables ss _ token newScheduleID req)
  | Update h token req ih => exact sameTables_trans ih (Update_sameTables ss _ token req)
  | Approval h token req ih => exact sameTables_trans ih (Approval_sameTables ss _ token req)
  | Delete h token id ih => exact sameTables_trans ih (Delete_sameTables ss _ token id)

theorem reachable_sameTables_witness :
    Scenario.db0.sameTables Scenario.dbApproved :=
  reachable_sameTables Scenario.ss Scenario.db0 Scenario.dbApproved
    (Reachable.Approval (Reachable.Create Reachable.init "u-s" "sch1" Scenario.req)
      "u-l1" ⟨"sch1", "approved"⟩)

/-! ## Every schedule the workflow stores has a creator with a student profile -/

theorem sameTables_eq {db db' : DB} (h : db.sameTables db') :
    db' = { db with schedules := db'.schedules, journal := db'.journal } := by
  cases db
  cases db'
  simp only [DB.sameTables] at h
  obtain ⟨rfl, rfl, rfl, rfl, rfl⟩ := h
  rfl

theorem loadSchedule_congr {db db' : DB} (h : db.sameTables db') (row : ScheduleRow)
    (approverStudent : Bool) :
    loadSchedule db' row approverStudent = loadSchedule db row approverStudent := by
  calc loadSchedule db' row approverStudent
      = loadSchedule { db with schedules := db'.schedules, journal := db'.journal } row
          approverStudent := congrArg (fun d => loadSchedule d row approverStudent) (sameTables_eq h)
    _ = loadSchedule db row approverStudent := rfl

theorem CreatedBy_of_id (db : DB) (row : ScheduleRow) :
    (loadSchedule db row true).CreatedBy
      = (preloadUser db row.CreatedByID true false false).getD default := rfl

theorem creator_student_of_caller {db : DB} {uid : String} {user : User} {student : Student}
    (hu : userRepository.GetUserByID db uid = (user, true, none))
    (hst : user.Student = some student) (row : ScheduleRow)
    (hrow : row.CreatedByID = user.ID) :
    ∃ st, (loadSchedule db row true).CreatedBy.Student = some st := by
  obtain ⟨urow, hurow, rfl⟩ := GetUserByID_found hu
  have huid : urow.ID = uid := by simpa using List.find?_some hurow
  simp only [loadUser, if_true] at hst hrow
  rcases hsid : urow.StudentID with _ | sid
  · simp [hsid] at hst
  simp only [hsid, Option.some_bind, preloadStudent, Option.map_eq_some'] at hst
  obtain ⟨srow, hsrow, -⟩ := hst
  simp [loadSchedule, preloadUser, loadUser, hrow, huid, hurow, hsid, preloadStudent, hsrow]

theorem nzString_cases (new old : String) : nzString new old = new ∨ nzString new old = old := by
  unfold nzString
  split
  · right; rfl
  · left; rfl

/-- In every store reachable from a store without schedules, every stored schedule was
created by a user that has a student profile, so the projection of GetDetail can read
the creator's name. -/
theorem reachable_creator_has_student (ss : scheduleService) (db0 db : DB)
    (h0 : db0.schedules = []) (h : Reachable ss db0 db) :
    ∀ row ∈ db.schedules, ∃ st, (loadSchedule db row true).CreatedBy.Student = some st := by
  have key : ∀ row ∈ db.schedules,
      ∃ st, (loadSchedule db0 row true).CreatedBy.Student = some st := by
    induction h with
    | init => simp [h0]
    | Create h token newScheduleID req ih =>
      rename_i dbc
      rcases Create_effect ss _ token newScheduleID req with ⟨he, _⟩ | ⟨res, db', he⟩
      · rw [he]; exact ih
      · obtain ⟨uid, user, student, thesis0, rest, thesis, _, hu, hst, _, _, _, hdb, _⟩ :=
          Create_ok_inv he
        rw [he, hdb]
        intro r hr
        rcases List.mem_append.1 hr with hr | hr
        · exact ih r hr
        · rw [List.mem_singleton.1 hr, ← loadSchedule_congr (reachable_sameTables ss db0 dbc h)]
          exact creator_student_of_caller hu hst _ rfl
    | Update h token req ih =>
      rename_i dbc
      rcases Update_effect ss _ token req with he | ⟨row0, hrow0, he⟩
      · rw [he]; exact ih
      · rw [he]
        intro r hr
        simp only [scheduleRepository.UpdateSchedule, List.mem_map] at hr
        obtain ⟨r0, hr0, rfl⟩ := hr
        split
        · have h1 := ih row0 (List.mem_of_find?_eq_some hrow0)
          have h2 := ih r0 hr0
          rw [CreatedBy_of_id] at h1 h2 ⊢
          rcases nzString_cases (loadSchedule dbc row0 true).CreatedByID r0.CreatedByID
            with hc | hc
          · simp only [scheduleRepository.updatesRow, hc]
            exact h1
          · simp only [scheduleRepository.updatesRow, hc]
            exact h2
        · exact ih r0 hr0
    | Approval h token req ih =>
      rcases Approval_effect ss _ token req with ⟨he, _⟩ | ⟨uid, _, he⟩
      · rw [he]; exact ih
      · rw [he]
        intro r hr
        simp only [scheduleRepository.UpdateScheduleStatus, List.mem_map] at hr
        obtain ⟨r0, hr0, rfl⟩ := hr
        split
        · have h2 := ih r0 hr0
          rw [CreatedBy_of_id] at h2 ⊢
          exact h2
        · exact ih r0 hr0
    | Delete h token id ih =>
      rcases Delete_effect ss _ token id with ⟨he, _⟩ | he
      · rw [he]; exact ih
      · rw [he]
        intro r hr
        simp only [scheduleRepository.DeleteScheduleByID, List.mem_filter] at hr
        exact ih r hr.1
  intro row hrow
  rw [loadSchedule_congr (reachable_sameTables ss db0 db h)]
  exact key row hrow

theorem reachable_creator_has_student_witness :
    Scenario.db0.schedules = [] ∧ Scenario.dbApproved.schedules ≠ [] ∧
    ∀ row ∈ Scenario.dbApproved.schedules,
      ∃ st, (loadSchedule Scenario.dbApproved row true).CreatedBy.Student = some st :=
  ⟨rfl, by decide,
    reachable_creator_has_student Scenario.ss Scenario.db0 Scenario.dbApproved rfl
      (Reachable.Approval (Reachable.Create Reachable.init "u-s" "sch1" Scenario.req)
        "u-l1" ⟨"sch1", "approved"⟩)⟩

/-! ## Update -/

theorem GetThesisByID_of_find_some {db : DB} {id : String} {trow : ThesisRow}
    (h : db.theses.find? (fun t => t.ID == id) = some trow) :
    scheduleRepository.GetThesisByID db id = (loadThesis db trow, true, none) := by
  simp [scheduleRepository.GetThesisByID, Take, h]

theorem GetThesisByID_of_find_none {db : DB} {id : String}
    (h : db.theses.find? (fun t => t.ID == id) = none) :
    scheduleRepository.GetThesisByID db id = (default, false, some Err.ErrRecordNotFound) := by
  simp [scheduleRepository.GetThesisByID, Take, h]

theorem find_thesis_of_mem {db : DB} {id : String}
    (h : ∃ t ∈ db.theses, t.ID = id) :
    ∃ trow, db.theses.find? (fun t => t.ID == id) = some trow ∧ trow.ID = id := by
  obtain ⟨t, hmem, hid⟩ := h
  cases hf : db.theses.find? (fun t => t.ID == id) with
  | some r => exact ⟨r, rfl, by simpa using List.find?_some hf⟩
  | none =>
    rw [List.find?_eq_none] at hf
    exact absurd (by simpa using hid) (hf t hmem)

/-- The thesis lookup of Update, for a schedule whose thesis is stored. -/
theorem Update_thesis_found {db : DB} {row : ScheduleRow}
    (h : ∃ t ∈ db.theses, t.ID = row.ThesisID) :
    ∃ thesis, scheduleRepository.GetThesisByID db (loadSchedule db row true).Thesis.ID
      = (thesis, true, none) := by
  obtain ⟨trow, hfind, hid⟩ := find_thesis_of_mem h
  have hT : (loadSchedule db row true).Thesis.ID = row.ThesisID := by
    simp [loadSchedule, preloadThesis, hfind, loadThesis, hid]
  rw [hT]
  exact ⟨_, GetThesisByID_of_find_some hfind⟩

/-- The thesis lookup of Update, for a schedule whose thesis is not stored. -/
theorem Update_thesis_missing {db : DB} {row : ScheduleRow}
    (h : ¬ ∃ t ∈ db.theses, t.ID = row.ThesisID) (hzero : ¬ ∃ t ∈ db.theses, t.ID = "") :
    scheduleRepository.GetThesisByID db (loadSchedule db row true).Thesis.ID
      = (default, false, some Err.ErrRecordNotFound) := by
  have hnone : db.theses.find? (fun t => t.ID == row.ThesisID) = none := by
    rw [List.find?_eq_none]
    intro t ht hid
    exact h ⟨t, ht, by simpa using hid⟩
  have hT : (loadSchedule db row true).Thesis.ID = "" := by
    simp [loadSchedule, preloadThesis, hnone]
    rfl
  rw [hT]
  apply GetThesisByID_of_find_none
  rw [List.find?_eq_none]
  intro t ht hid
  exact hzero ⟨t, ht, by simpa using hid⟩

/-- What Update does for a resolved caller and a stored schedule whose thesis is stored:
it hands the loaded schedule with the five request fields to UpdateSchedule, then builds
the response from the caller's student profile. -/
theorem Update_of_resolved {ss : scheduleService} {db : DB} {token uid : String}
    {user : User} {req : dto.UpdateScheduleRequest} {row : ScheduleRow}
    (htoken : ss.jwt token = .ok uid)
    (huser : userRepository.GetUserByID db uid = (user, true, none))
    (hrow : db.schedules.find? (fun r => r.ID == req.ID) = some row)
    (hthesis : ∃ t ∈ db.theses, t.ID = row.ThesisID) :
    ss.Update db token req =
      (match user.Student with
        | none => .fault
        | some student =>
          .ok { ID := row.ID, ProposedAt := req.ProposedAt, StartTime := req.StartTime,
                EndTime := req.EndTime, Status := row.Status, Description := req.Description,
                Location := req.Location,
                Thesis := thesisResponse (loadSchedule db row true).Thesis,
                CreatedBy :=
                  { ID := user.ID, Name := student.Name, Identifier := user.Identifier,
                    Role := user.Role },
                ApprovedBy := none },
        (scheduleRepository.UpdateSchedule db (updatedSchedule db row req)).2) := by
  obtain ⟨thesis, hg⟩ := Update_thesis_found hthesis
  rcases hst : user.Student with _ | student
  · simp [scheduleService.Update, htoken, huser, GetScheduleByID_of_find_some hrow, hg, hst,
      scheduleRepository.UpdateSchedule, updatedSchedule]
  · simp [scheduleService.Update, htoken, huser, GetScheduleByID_of_find_some hrow, hg, hst,
      scheduleRepository.UpdateSchedule, updatedSchedule]
    simp [loadSchedule]

/-- The row UpdateSchedule stores over `row` itself: the identifying and workflow columns
are the stored ones, the five request columns are the request's where these are
non-zero. -/
theorem updatesRow_updatedSchedule (db : DB) (row : ScheduleRow)
    (req : dto.UpdateScheduleRequest) :
    scheduleRepository.updatesRow (updatedSchedule db row req) row =
      { row with
        ProposedAt := nzTime req.ProposedAt row.ProposedAt,
        StartTime := nzTime req.StartTime row.StartTime,
        EndTime := nzTime req.EndTime row.EndTime,
        Description := nzString req.Description row.Description,
        Location := nzString req.Location row.Location } := by
  have h1 : ∀ s : String, nzString s s = s := by intro s; simp [nzString]
  have h2 : ∀ o : Option String, nzOpt o o = o := by intro o; cases o <;> rfl
  simp [scheduleRepository.updatesRow, updatedSchedule, loadSchedule, h1, h2]

/-- The schedule Update hands to UpdateSchedule has the stored ID, Status, ApprovedByID,
ThesisID and CreatedByID and the request's ProposedAt, StartTime, EndTime, Description and
Location. -/
theorem updatedSchedule_toRow (db : DB) (row : ScheduleRow) (req : dto.UpdateScheduleRequest) :
    (updatedSchedule db row req).toRow =
      { row with
        ProposedAt := req.ProposedAt, StartTime := req.StartTime, EndTime := req.EndTime,
        Description := req.Description, Location := req.Location } := by
  simp [updatedSchedule, Schedule.toRow, loadSchedule]

/-- For every resolved caller, of any role and whether or not the creator, and every
stored schedule whose thesis is stored, Update invokes UpdateSchedule once with the loaded
schedule in which only ProposedAt, StartTime, EndTime, Description and Location are the
request's (ID, Status, ApprovedByID, ThesisID, CreatedByID as stored); no other table
changes; the call returns the response exactly when the caller has a student profile
and panics after the write otherwise. -/
theorem Update_writes_loaded_schedule (ss : scheduleService) (db : DB) (token uid : String)
    (user : User) (req : dto.UpdateScheduleRequest) (row : ScheduleRow)
    (htoken : ss.jwt token = .ok uid)
    (huser : userRepository.GetUserByID db uid = (user, true, none))
    (hrow : db.schedules.find? (fun r => r.ID == req.ID) = some row)
    (hthesis : ∃ t ∈ db.theses, t.ID = row.ThesisID) :
    (ss.Update db token req).2 =
      { db with
        schedules := db.schedules.map (fun r =>
          if r.ID == row.ID then scheduleRepository.updatesRow (updatedSchedule db row req) r
          else r),
        journal := db.journal ++
          [Write.UpdateSchedule
            { row with
              ProposedAt := req.ProposedAt, StartTime := req.StartTime,
              EndTime := req.EndTime, Description := req.Description,
              Location := req.Location }] } ∧
    (user.Student = none → (ss.Update db token req).1 = .fault) ∧
    (∀ student, user.Student = some student → ∃ res, (ss.Update db token req).1 = .ok res) := by
  rw [Update_of_resolved htoken huser hrow hthesis]
  refine ⟨?_, ?_, ?_⟩
  · simp only [scheduleRepository.UpdateSchedule, updatedSchedule_toRow]
    rfl
  · intro h; simp [h]
  · intro student h; simp [h]

theorem Update_writes_loaded_schedule_witness :
    (Scenario.ss.Update Scenario.db1 "u-l1" Scenario.reqUpdate).2 =
      { Scenario.db1 with
        schedules := Scenario.db1.schedules.map (fun r =>
          if r.ID == Scenario.row1.ID then
            scheduleRepository.updatesRow
              (updatedSchedule Scenario.db1 Scenario.row1 Scenario.reqUpdate) r
          else r),
        journal := Scenario.db1.journal ++
          [Write.UpdateSchedule
            { Scenario.row1 with
              ProposedAt := Scenario.reqUpdate.ProposedAt,
              StartTime := Scenario.reqUpdate.StartTime,
              EndTime := Scenario.reqUpdate.EndTime,
              Description := Scenario.reqUpdate.Description,
              Location := Scenario.reqUpdate.Location }] } ∧
    ((loadUser Scenario.db1 Scenario.userL1 true true true).Student = none →
      (Scenario.ss.Update Scenario.db1 "u-l1" Scenario.reqUpdate).1 = .fault) ∧
    (∀ student, (loadUser Scenario.db1 Scenario.userL1 true true true).Student = some student →
      ∃ res, (Scenario.ss.Update Scenario.db1 "u-l1" Scenario.reqUpdate).1 = .ok res) :=
  Update_writes_loaded_schedule Scenario.ss Scenario.db1 "u-l1" "u-l1"
    (loadUser Scenario.db1 Scenario.userL1 true true true) Scenario.reqUpdate Scenario.row1
    rfl (by decide) (by decide) (by decide)

/-- C11 (code bug): in the store `db1` the schedule `sch1` and its thesis `t1` are stored;
the caller `u-l1` resolves to a user with role `lecturer`, which has no student profile.
Update hands the loaded schedule with the five request fields to UpdateSchedule (the
journal entry; ID, Status, ApprovedByID, ThesisID, CreatedByID as stored) and then panics
on `user.Student.Name` instead of returning. -/
theorem Update_by_lecturer_faults :
    Scenario.ss.jwt "u-l1" = .ok "u-l1" ∧
    userRepository.GetUserByID Scenario.db1 "u-l1"
      = (loadUser Scenario.db1 Scenario.userL1 true true true, true, none) ∧
    (loadUser Scenario.db1 Scenario.userL1 true true true).Role = constants.ENUM_ROLE_LECTURER ∧
    (loadUser Scenario.db1 Scenario.userL1 true true true).Student = none ∧
    Scenario.db1.schedules = [Scenario.row1] ∧
    (∃ t ∈ Scenario.db1.theses, t.ID = Scenario.row1.ThesisID) ∧
    (Scenario.ss.Update Scenario.db1 "u-l1" Scenario.reqUpdate).1 = .fault ∧
    (Scenario.ss.Update Scenario.db1 "u-l1" Scenario.reqUpdate).2.journal
      = Scenario.db1.journal ++
          [Write.UpdateSchedule
            { Scenario.row1 with
              ProposedAt := Scenario.reqUpdate.ProposedAt,
              StartTime := Scenario.reqUpdate.StartTime,
              EndTime := Scenario.reqUpdate.EndTime,
              Description := Scenario.reqUpdate.Description,
              Location := Scenario.reqUpdate.Location }] :=
  ⟨rfl, by decide, by decide, by decide, by decide, by decide, by decide, by decide⟩

/-! ## Create and Update: missing records -/

/-- A caller whose token resolves to no user record gets `dto.ErrNotFound` from Create and
nothing is written. -/
theorem Create_unknown_user (ss : scheduleService) (db : DB) (token uid newScheduleID : String)
    (req : dto.CreateScheduleRequest)
    (htoken : ss.jwt token = .ok uid)
    (huser : ¬ ∃ u ∈ db.users, u.ID = uid) :
    ss.Create db token newScheduleID req = (.err Err.ErrNotFound, db) := by
  have hnone : db.users.find? (fun u => u.ID == uid) = none := by
    rw [List.find?_eq_none]
    intro u hu hid
    exact huser ⟨u, hu, by simpa using hid⟩
  simp [scheduleService.Create, htoken, userRepository.GetUserByID, Take, hnone]

theorem Create_unknown_user_witness :
    Scenario.ss.Create Scenario.dbB0 "nobody" "sch9" Scenario.req
      = (.err Err.ErrNotFound, Scenario.dbB0) :=
  Create_unknown_user Scenario.ss Scenario.dbB0 "nobody" "nobody" "sch9" Scenario.req rfl
    (by decide)

/-- A resolved caller without a student profile, or whose student has no thesis, makes
Create panic on `user.Student.Theses[0]`; nothing is written. -/
theorem Create_without_thesis_faults (ss : scheduleService) (db : DB)
    (token uid newScheduleID : String) (user : User) (req : dto.CreateScheduleRequest)
    (htoken : ss.jwt token = .ok uid)
    (huser : userRepository.GetUserByID db uid = (user, true, none))
    (h : user.Student = none ∨ ∃ student, user.Student = some student ∧ student.Theses = []) :
    ss.Create db token newScheduleID req = (.fault, db) := by
  rcases h with h | ⟨student, h, hth⟩
  · simp [scheduleService.Create, htoken, huser, h]
  · simp [scheduleService.Create, htoken, huser, h, hth]

theorem Create_without_thesis_faults_witness :
    Scenario.ss.Create Scenario.dbB0 "u-s3" "sch9" Scenario.req = (.fault, Scenario.dbB0) :=
  Create_without_thesis_faults Scenario.ss Scenario.dbB0 "u-s3" "u-s3" "sch9"
    (loadUser Scenario.dbB0 Scenario.userS3 true true true) Scenario.req rfl (by decide)
    (Or.inr ⟨⟨"s3", "S3", "2021003", []⟩, by decide, rfl⟩)

/-- C12 (code bug): in the store `dbB0` the caller `u-l1` resolves to a lecturer, which has
no student profile, and the caller `u-s3` to a student whose thesis list is empty.  For
both Create panics on `user.Student.Theses[0]` instead of returning `dto.ErrNotFound`;
the store is unchanged.  A caller without a user record does get `dto.ErrNotFound`. -/
theorem Create_without_thesis_panics :
    userRepository.GetUserByID Scenario.dbB0 "u-l1"
      = (loadUser Scenario.dbB0 Scenario.userL1 true true true, true, none) ∧
    (loadUser Scenario.dbB0 Scenario.userL1 true true true).Student = none ∧
    Scenario.ss.Create Scenario.dbB0 "u-l1" "sch9" Scenario.req = (.fault, Scenario.dbB0) ∧
    userRepository.GetUserByID Scenario.dbB0 "u-s3"
      = (loadUser Scenario.dbB0 Scenario.userS3 true true true, true, none) ∧
    (loadUser Scenario.dbB0 Scenario.userS3 true true true).Student
      = some { ID := "s3", Name := "S3", Nim := "2021003", Theses := [] } ∧
    Scenario.ss.Create Scenario.dbB0 "u-s3" "sch9" Scenario.req = (.fault, Scenario.dbB0) ∧
    Scenario.ss.Create Scenario.dbB0 "nobody" "sch9" Scenario.req
      = (.err Err.ErrNotFound, Scenario.dbB0) := by
  decide

/-- A resolved caller asking Update for an id under which no schedule is stored gets
`dto.ErrNotFound`; nothing is written. -/
theorem Update_schedule_missing (ss : scheduleService) (db : DB) (token uid : String)
    (user : User) (req : dto.UpdateScheduleRequest)
    (htoken : ss.jwt token = .ok uid)
    (huser : userRepository.GetUserByID db uid = (user, true, none))
    (hrow : ¬ ∃ row ∈ db.schedules, row.ID = req.ID) :
    ss.Update db token req = (.err Err.ErrNotFound, db) := by
  simp [scheduleService.Update, htoken, huser,
    GetScheduleByID_of_find_none (find_schedule_of_not_mem hrow)]

theorem Update_schedule_missing_witness :
    Scenario.ss.Update Scenario.db1 "u-l1" { Scenario.reqUpdate with ID := "sch7" }
      = (.err Err.ErrNotFound, Scenario.db1) :=
  Update_schedule_missing Scenario.ss Scenario.db1 "u-l1" "u-l1"
    (loadUser Scenario.db1 Scenario.userL1 true true true)
    { Scenario.reqUpdate with ID := "sch7" } rfl (by decide) (by decide)

/-- A resolved caller asking Update for a stored schedule whose thesis is not stored gets
the storage error `gorm.ErrRecordNotFound` that GetThesisByID passes on; nothing is
written and nothing panics. -/
theorem Update_thesis_missing_error (ss : scheduleService) (db : DB) (token uid : String)
    (user : User) (req : dto.UpdateScheduleRequest) (row : ScheduleRow)
    (htoken : ss.jwt token = .ok uid)
    (huser : userRepository.GetUserByID db uid = (user, true, none))
    (hrow : db.schedules.find? (fun r => r.ID == req.ID) = some row)
    (hthesis : ¬ ∃ t ∈ db.theses, t.ID = row.ThesisID)
    (hzero : ¬ ∃ t ∈ db.theses, t.ID = "") :
    ss.Update db token req = (.err Err.ErrRecordNotFound, db) := by
  simp [scheduleService.Update, htoken, huser, GetScheduleByID_of_find_some hrow,
    Update_thesis_missing hthesis hzero]

theorem Update_thesis_missing_error_witness :
    Scenario.ss.Update Scenario.dbOrphan "u-l1" Scenario.reqUpdate
      = (.err Err.ErrRecordNotFound, Scenario.dbOrphan) :=
  Update_thesis_missing_error Scenario.ss Scenario.dbOrphan "u-l1" "u-l1"
    (loadUser Scenario.dbOrphan Scenario.userL1 true true true) Scenario.reqUpdate
    Scenario.row1 rfl (by decide) (by decide) (by decide) (by decide)

/-- C13 (code bug): in the store `dbOrphan` the schedule `sch1` is stored and its thesis
`t1` is not.  Update by the resolved caller `u-s` writes nothing and does not panic, but
the error it returns is the storage error `gorm.ErrRecordNotFound`, not
`dto.ErrNotFound`: `scheduleRepository.GetThesisByID` tests `err != nil` first.  For an
id without a stored schedule Update does return `dto.ErrNotFound`. -/
theorem Update_orphan_schedule_storage_error :
    Scenario.dbOrphan.schedules = [Scenario.row1] ∧
    (¬ ∃ t ∈ Scenario.dbOrphan.theses, t.ID = Scenario.row1.ThesisID) ∧
    userRepository.GetUserByID Scenario.dbOrphan "u-s"
      = (loadUser Scenario.dbOrphan Scenario.userS true true true, true, none) ∧
    scheduleRepository.GetThesisByID Scenario.dbOrphan "t1"
      = (default, false, some Err.ErrRecordNotFound) ∧
    Scenario.ss.Update Scenario.dbOrphan "u-s" Scenario.reqUpdate
      = (.err Err.ErrRecordNotFound, Scenario.dbOrphan) ∧
    (Scenario.ss.Update Scenario.dbOrphan "u-s" Scenario.reqUpdate).1 ≠ .err Err.ErrNotFound ∧
    Scenario.ss.Update Scenario.dbOrphan "u-s" { Scenario.reqUpdate with ID := "sch7" }
      = (.err Err.ErrNotFound, Scenario.dbOrphan) := by
  decide

/-! ## Update: the response against GetDetail -/

/-- C20 (code bug): in the store `dbB2` the schedule `sch1` was created by `u-s` and approved
by `u-l1`.  Update by the student `u-s2` succeeds, and its response names the caller
`u-s2` as CreatedBy and has no ApprovedBy, while GetDetail of `sch1` on the resulting
store names the creator `u-s` and the approver `u-l1`: the two projections differ. -/
theorem Update_response_differs_from_GetDetail :
    Scenario.dbB2.schedules = [Scenario.rowApproved] ∧
    ∃ res d,
      (Scenario.ss.Update Scenario.dbB2 "u-s2" Scenario.reqUpdate).1 = .ok res ∧
      Scenario.ss.GetDetail (Scenario.ss.Update Scenario.dbB2 "u-s2" Scenario.reqUpdate).2
        "u-s2" "sch1" = .ok d ∧
      res.CreatedBy.ID = "u-s2" ∧ d.CreatedBy.ID = "u-s" ∧
      res.ApprovedBy = none ∧
      d.ApprovedBy = some
        { ID := "u-l1", Name := "L1", Identifier := "1980001", Role := "lecturer" } ∧
      res ≠ d := by
  refine ⟨by decide, ?_⟩
  refine ⟨{ Scenario.res1 with
              StartTime := 1704963600, EndTime := 1704967200, Status := "approved",
              Description := "bimbingan bab 2", Location := "ruang 102",
              CreatedBy :=
                { ID := "u-s2", Name := "S2", Identifier := "2021002", Role := "student" } },
          { Scenario.res1 with
              StartTime := 1704963600, EndTime := 1704967200, Status := "approved",
              Description := "bimbingan bab 2", Location := "ruang 102",
              ApprovedBy := some
                { ID := "u-l1", Name := "L1", Identifier := "1980001", Role := "lecturer" } },
          ?_⟩
  decide

/-! ## Pagination -/

theorem ceilDiv_bounds (count perPage : Int) (hP : 0 < perPage) :
    (ceilDiv count perPage - 1) * perPage < count ∧ count ≤ ceilDiv count perPage * perPage := by
  unfold ceilDiv
  rw [Int.fdiv_eq_ediv _ (le_of_lt hP)]
  have h1 := Int.ediv_mul_le (-count) (ne_of_gt hP)
  have h2 := Int.lt_ediv_add_one_mul_self (-count) hP
  constructor
  · have : (-(-count / perPage) - 1) * perPage = -((-count / perPage + 1) * perPage) := by ring
    rw [this]; omega
  · have : -(-count / perPage) * perPage = -(-count / perPage * perPage) := by ring
    rw [this]; omega

theorem ceilDiv_zero (perPage : Int) : ceilDiv 0 perPage = 0 := by
  unfold ceilDiv
  simp

theorem ceilDiv_eq_ceil (count perPage : Int) (hP : 0 < perPage) :
    ceilDiv count perPage = ⌈(count : ℚ) / (perPage : ℚ)⌉ := by
  obtain ⟨h1, h2⟩ := ceilDiv_bounds count perPage hP
  have hPq : (0 : ℚ) < (perPage : ℚ) := by exact_mod_cast hP
  symm
  rw [Int.ceil_eq_iff]
  constructor
  · rw [lt_div_iff₀ hPq]
    have : (((ceilDiv count perPage - 1) * perPage : Int) : ℚ) < (count : ℚ) := by
      exact_mod_cast h1
    push_cast at this ⊢
    linarith
  · rw [div_le_iff₀ hPq]
    have : ((count : Int) : ℚ) ≤ ((ceilDiv count perPage * perPage : Int) : ℚ) := by
      exact_mod_cast h2
    push_cast at this ⊢
    linarith

theorem roundHalfEven_error (x : ℚ) : |(roundHalfEven x : ℚ) - x| ≤ 1 / 2 := by
  have h1 := Int.floor_le x
  have h2 := Int.lt_floor_add_one x
  unfold roundHalfEven
  split_ifs with ha hb hc
  · rw [abs_le]; constructor <;> linarith
  · push_cast; rw [abs_le]; constructor <;> linarith
  · rw [abs_le]; constructor <;> linarith
  · push_cast; rw [abs_le]; constructor <;> linarith

theorem roundHalfEven_intCast (n : ℤ) : roundHalfEven (n : ℚ) = n := by
  unfold roundHalfEven
  simp



theorem float64Round_error (q : ℚ) (hq : 0 < q) :
    |float64Round q - q| ≤ q / 2 ^ 53 := by
  have hne : q ≠ 0 := ne_of_gt hq
  have habs : |q| = q := abs_of_pos hq
  unfold float64Round
  rw [if_neg hne, habs]
  set e : ℤ := Int.log 2 q - 52 with he
  have hpow : (0 : ℚ) < 2 ^ e := zpow_pos (by norm_num) e
  have hlog : (2 : ℚ) ^ (Int.log 2 q) ≤ q := by
    have := Int.zpow_log_le_self (b := 2) (by norm_num) hq
    exact_mod_cast this
  have hsplit : (2 : ℚ) ^ (Int.log 2 q) = 2 ^ e * 2 ^ (52 : ℤ) := by
    rw [← zpow_add₀ (by norm_num : (2 : ℚ) ≠ 0)]
    congr 1
    omega
  have hr := roundHalfEven_error (q / 2 ^ e)
  have key : (roundHalfEven (q / 2 ^ e) : ℚ) * 2 ^ e - q
      = ((roundHalfEven (q / 2 ^ e) : ℚ) - q / 2 ^ e) * 2 ^ e := by
    field_simp
  rw [key, abs_mul, abs_of_pos hpow]
  have h52 : (2 : ℚ) ^ (52 : ℤ) = 2 ^ 52 := by norm_cast
  rw [hsplit, h52] at hlog
  calc |(roundHalfEven (q / 2 ^ e) : ℚ) - q / 2 ^ e| * 2 ^ e
      ≤ 1 / 2 * 2 ^ e := by
        apply mul_le_mul_of_nonneg_right hr (le_of_lt hpow)
    _ ≤ q / 2 ^ 53 := by
        rw [le_div_iff₀ (by positivity)]
        have : (2 : ℚ) ^ 53 = 2 * 2 ^ 52 := by norm_num
        rw [this]
        nlinarith

theorem float64Round_natCast (n : ℤ) (h0 : 0 ≤ n) (h : n < 2 ^ 53) :
    float64Round (n : ℚ) = n := by
  unfold float64Round
  by_cases hn : (n : ℚ) = 0
  · rw [if_pos hn, hn]
  rw [if_neg hn]
  have hn0 : n ≠ 0 := by exact_mod_cast hn
  have hpos : (0 : ℚ) < (n : ℚ) := by
    have : 0 < n := lt_of_le_of_ne h0 (Ne.symm hn0)
    exact_mod_cast this
  rw [abs_of_pos hpos]
  have hlt : Int.log 2 (n : ℚ) < 53 := by
    rw [← Int.lt_zpow_iff_log_lt (by norm_num) hpos]
    have : (n : ℚ) < 2 ^ 53 := by exact_mod_cast h
    exact_mod_cast this
  obtain ⟨k, hk⟩ : ∃ k : ℕ, Int.log 2 (n : ℚ) - 52 = -(k : ℤ) := by
    refine ⟨(52 - Int.log 2 (n : ℚ)).toNat, ?_⟩
    omega
  rw [hk]
  have hdiv : (n : ℚ) / 2 ^ (-(k : ℤ)) = ((n * 2 ^ k : ℤ) : ℚ) := by
    rw [zpow_neg, zpow_natCast]
    push_cast
    field_simp
  rw [hdiv, roundHalfEven_intCast]
  rw [zpow_neg, zpow_natCast]
  push_cast
  field_simp


/-- Within the range in which float64 represents the count and the page size exactly, the
float64 computation of MaxPage gives the ceiling of the quotient. -/
theorem float64MaxPage_eq_ceilDiv (count perPage : Int)
    (hN : 0 ≤ count) (hN' : count < 2 ^ 53) (hP : 0 < perPage) (hP' : perPage < 2 ^ 53) :
    float64MaxPage count perPage = ceilDiv count perPage := by
  obtain ⟨h1, h2⟩ := ceilDiv_bounds count perPage hP
  unfold float64MaxPage
  rw [float64Round_natCast count hN hN', float64Round_natCast perPage (le_of_lt hP) hP']
  have hPq : (0 : ℚ) < (perPage : ℚ) := by exact_mod_cast hP
  rw [Int.ceil_eq_iff]
  rcases eq_or_lt_of_le hN with h0 | hpos
  · -- count = 0
    have hM : ceilDiv count perPage = 0 := by rw [← h0]; simp [ceilDiv]
    rw [hM, ← h0]
    simp [float64Round]
  have hNq : (0 : ℚ) < (count : ℚ) := by exact_mod_cast hpos
  have hq : (0 : ℚ) < (count : ℚ) / (perPage : ℚ) := div_pos hNq hPq
  rcases eq_or_lt_of_le h2 with heq | hlt
  · -- the quotient is the integer ceilDiv
    have hquot : (count : ℚ) / (perPage : ℚ) = ((ceilDiv count perPage : ℤ) : ℚ) := by
      rw [div_eq_iff (ne_of_gt hPq)]
      exact_mod_cast heq
    have hM0 : 0 ≤ ceilDiv count perPage := by
      by_contra hneg
      have : ceilDiv count perPage * perPage ≤ -1 * perPage :=
        Int.mul_le_mul_of_nonneg_right (by omega) (le_of_lt hP)
      omega
    have hMlt : ceilDiv count perPage < 2 ^ 53 := by
      have : ceilDiv count perPage * 1 ≤ ceilDiv count perPage * perPage :=
        Int.mul_le_mul_of_nonneg_left (by omega) hM0
      omega
    rw [hquot, float64Round_natCast _ hM0 hMlt]
    constructor <;> simp
  · -- the quotient lies strictly between two integers, at distance at least 1/perPage
    have herr := float64Round_error _ hq
    rw [abs_le] at herr
    have hδ : (count : ℚ) / (perPage : ℚ) / 2 ^ 53 < 1 / (perPage : ℚ) := by
      rw [div_div, div_lt_div_iff₀ (by positivity) hPq]
      have : (count : ℚ) < 2 ^ 53 := by exact_mod_cast hN'
      nlinarith
    have hlo : ((ceilDiv count perPage : ℤ) : ℚ) - 1 + 1 / (perPage : ℚ)
        ≤ (count : ℚ) / (perPage : ℚ) := by
      rw [le_div_iff₀ hPq]
      have : (((ceilDiv count perPage - 1) * perPage + 1 : ℤ) : ℚ) ≤ (count : ℚ) := by
        exact_mod_cast (by omega : (ceilDiv count perPage - 1) * perPage + 1 ≤ count)
      push_cast at this
      have hone : 1 / (perPage : ℚ) * (perPage : ℚ) = 1 := by field_simp
      nlinarith
    have hhi : (count : ℚ) / (perPage : ℚ)
        ≤ ((ceilDiv count perPage : ℤ) : ℚ) - 1 / (perPage : ℚ) := by
      rw [div_le_iff₀ hPq]
      have : (count : ℚ) ≤ ((ceilDiv count perPage * perPage - 1 : ℤ) : ℚ) := by
        exact_mod_cast (by omega : count ≤ ceilDiv count perPage * perPage - 1)
      push_cast at this
      have hone : 1 / (perPage : ℚ) * (perPage : ℚ) = 1 := by field_simp
      nlinarith
    constructor
    · linarith [herr.1]
    · linarith [herr.2]

/-- The effective pagination request of both paginated queries. -/
theorem effective_PerPage_pos (pagination : response.PaginationRequest)
    (hP : 0 ≤ pagination.PerPage) :
    0 < (if pagination.PerPage = 0 then (10 : Int) else pagination.PerPage) := by
  split <;> omega

theorem schedules_PaginationResponse (db : DB) (pagination : response.PaginationRequest)
    (role userID : String) :
    (scheduleRepository.GetAllSchedulesByUserIDWithPagination db pagination role
        userID).1.PaginationResponse =
      { Page := if pagination.Page = 0 then 1 else pagination.Page,
        PerPage := if pagination.PerPage = 0 then 10 else pagination.PerPage,
        MaxPage := ceilDiv ((scheduleRepository.roleQuery db role userID).length : Int)
          (if pagination.PerPage = 0 then 10 else pagination.PerPage),
        Count := ((scheduleRepository.roleQuery db role userID).length : Int) } := by
  simp only [scheduleRepository.GetAllSchedulesByUserIDWithPagination, List.length_reverse]
  by_cases h1 : pagination.PerPage = 0 <;> by_cases h2 : pagination.Page = 0 <;>
    simp [h1, h2]

theorem theses_PaginationResponse (db : DB) (pagination : response.PaginationRequest)
    (lecturerID : String) :
    (thesisRepository.GetAllThesesByLecturerIDWithPagination db pagination
        lecturerID).1.PaginationResponse =
      { Page := if pagination.Page = 0 then 1 else pagination.Page,
        PerPage := if pagination.PerPage = 0 then 10 else pagination.PerPage,
        MaxPage := ceilDiv ((thesisRepository.lecturerQuery db lecturerID).length : Int)
          (if pagination.PerPage = 0 then 10 else pagination.PerPage),
        Count := ((thesisRepository.lecturerQuery db lecturerID).length : Int) } := by
  simp only [thesisRepository.GetAllThesesByLecturerIDWithPagination, List.length_reverse]
  by_cases h1 : pagination.PerPage = 0 <;> by_cases h2 : pagination.Page = 0 <;>
    simp [h1, h2]

theorem schedules_Schedules (db : DB) (pagination : response.PaginationRequest)
    (role userID : String) :
    (scheduleRepository.GetAllSchedulesByUserIDWithPagination db pagination role
        userID).1.Schedules =
      (Paginate (if pagination.Page = 0 then 1 else pagination.Page)
        (if pagination.PerPage = 0 then 10 else pagination.PerPage)
        (scheduleRepository.roleQuery db role userID).reverse).map
          (fun row => loadSchedule db row false) := by
  simp only [scheduleRepository.GetAllSchedulesByUserIDWithPagination]
  by_cases h1 : pagination.PerPage = 0 <;> by_cases h2 : pagination.Page = 0 <;>
    simp [h1, h2]

theorem theses_Theses (db : DB) (pagination : response.PaginationRequest)
    (lecturerID : String) :
    (thesisRepository.GetAllThesesByLecturerIDWithPagination db pagination
        lecturerID).1.Theses =
      (Paginate (if pagination.Page = 0 then 1 else pagination.Page)
        (if pagination.PerPage = 0 then 10 else pagination.PerPage)
        (thesisRepository.lecturerQuery db lecturerID).reverse).map (loadThesis db) := by
  simp only [thesisRepository.GetAllThesesByLecturerIDWithPagination]
  by_cases h1 : pagination.PerPage = 0 <;> by_cases h2 : pagination.Page = 0 <;>
    simp [h1, h2]

/-- C14: for both paginated queries (schedules for a caller, theses by lecturer), with
N the number of matching records, reported as Count, and an effective page size P > 0
(a request PerPage that is not negative), the reported MaxPage is the ceiling of N/P:
it is 0 when N = 0, and otherwise (MaxPage - 1) * P < N ≤ MaxPage * P; and while N and P
are below 2^53 it is the value of the float64 expression
int64(math.Ceil(float64(N) / float64(P))) of the source. -/
theorem MaxPage_is_ceiling (db : DB) (pagination : response.PaginationRequest)
    (role userID lecturerID : String) (hP : 0 ≤ pagination.PerPage) :
    (∀ r, r = (scheduleRepository.GetAllSchedulesByUserIDWithPagination db pagination role
          userID).1.PaginationResponse →
        r.Count = ((scheduleRepository.roleQuery db role userID).length : Int) ∧
        0 < r.PerPage ∧
        r.MaxPage = ⌈(r.Count : ℚ) / (r.PerPage : ℚ)⌉ ∧
        (r.Count = 0 → r.MaxPage = 0) ∧
        (0 < r.Count → (r.MaxPage - 1) * r.PerPage < r.Count ∧ r.Count ≤ r.MaxPage * r.PerPage) ∧
        (r.Count < 2 ^ 53 → r.PerPage < 2 ^ 53 → float64MaxPage r.Count r.PerPage = r.MaxPage)) ∧
    (∀ r, r = (thesisRepository.GetAllThesesByLecturerIDWithPagination db pagination
          lecturerID).1.PaginationResponse →
        r.Count = ((thesisRepository.lecturerQuery db lecturerID).length : Int) ∧
        0 < r.PerPage ∧
        r.MaxPage = ⌈(r.Count : ℚ) / (r.PerPage : ℚ)⌉ ∧
        (r.Count = 0 → r.MaxPage = 0) ∧
        (0 < r.Count → (r.MaxPage - 1) * r.PerPage < r.Count ∧ r.Count ≤ r.MaxPage * r.PerPage) ∧
        (r.Count < 2 ^ 53 → r.PerPage < 2 ^ 53 → float64MaxPage r.Count r.PerPage = r.MaxPage)) := by
  have hpos := effective_PerPage_pos pagination hP
  constructor
  · intro r hr
    rw [schedules_PaginationResponse] at hr
    subst hr
    refine ⟨rfl, hpos, ceilDiv_eq_ceil _ _ hpos, ?_, fun _ => ceilDiv_bounds _ _ hpos,
      fun h1 h2 => float64MaxPage_eq_ceilDiv _ _ (Int.natCast_nonneg _) h1 hpos h2⟩
    intro h0
    simp only at h0
    simp only [h0, ceilDiv_zero]
  · intro r hr
    rw [theses_PaginationResponse] at hr
    subst hr
    refine ⟨rfl, hpos, ceilDiv_eq_ceil _ _ hpos, ?_, fun _ => ceilDiv_bounds _ _ hpos,
      fun h1 h2 => float64MaxPage_eq_ceilDiv _ _ (Int.natCast_nonneg _) h1 hpos h2⟩
    intro h0
    simp only at h0
    simp only [h0, ceilDiv_zero]

theorem MaxPage_is_ceiling_witness :
    (∀ r, r = (scheduleRepository.GetAllSchedulesByUserIDWithPagination Scenario.db1 ⟨1, 10⟩
          "student" "u-s").1.PaginationResponse →
        r.Count = ((scheduleRepository.roleQuery Scenario.db1 "student" "u-s").length : Int) ∧
        0 < r.PerPage ∧
        r.MaxPage = ⌈(r.Count : ℚ) / (r.PerPage : ℚ)⌉ ∧
        (r.Count = 0 → r.MaxPage = 0) ∧
        (0 < r.Count → (r.MaxPage - 1) * r.PerPage < r.Count ∧ r.Count ≤ r.MaxPage * r.PerPage) ∧
        (r.Count < 2 ^ 53 → r.PerPage < 2 ^ 53 → float64MaxPage r.Count r.PerPage = r.MaxPage)) ∧
    (∀ r, r = (thesisRepository.GetAllThesesByLecturerIDWithPagination Scenario.db1 ⟨1, 10⟩
          "l1").1.PaginationResponse →
        r.Count = ((thesisRepository.lecturerQuery Scenario.db1 "l1").length : Int) ∧
        0 < r.PerPage ∧
        r.MaxPage = ⌈(r.Count : ℚ) / (r.PerPage : ℚ)⌉ ∧
        (r.Count = 0 → r.MaxPage = 0) ∧
        (0 < r.Count → (r.MaxPage - 1) * r.PerPage < r.Count ∧ r.Count ≤ r.MaxPage * r.PerPage) ∧
        (r.Count < 2 ^ 53 → r.PerPage < 2 ^ 53 → float64MaxPage r.Count r.PerPage = r.MaxPage)) :=
  MaxPage_is_ceiling Scenario.db1 ⟨1, 10⟩ "student" "u-s" "l1" (by decide)

/-- C16: both paginated repository queries normalise the request the same way: Page 0
becomes 1, PerPage 0 becomes 10, every other value is kept; the response echoes the
effective Page and PerPage, MaxPage is computed from the effective PerPage, and the page
fetched is the one the effective values select. -/
theorem pagination_normalised (db : DB) (pagination : response.PaginationRequest)
    (role userID lecturerID : String) :
    (scheduleRepository.GetAllSchedulesByUserIDWithPagination db pagination role
        userID).1.PaginationResponse.Page = (if pagination.Page = 0 then 1 else pagination.Page) ∧
    (scheduleRepository.GetAllSchedulesByUserIDWithPagination db pagination role
        userID).1.PaginationResponse.PerPage =
      (if pagination.PerPage = 0 then 10 else pagination.PerPage) ∧
    (scheduleRepository.GetAllSchedulesByUserIDWithPagination db pagination role
        userID).1.PaginationResponse.MaxPage =
      ceilDiv
        (scheduleRepository.GetAllSchedulesByUserIDWithPagination db pagination role
          userID).1.PaginationResponse.Count
        (if pagination.PerPage = 0 then 10 else pagination.PerPage) ∧
    (scheduleRepository.GetAllSchedulesByUserIDWithPagination db pagination role
        userID).1.Schedules =
      (Paginate (if pagination.Page = 0 then 1 else pagination.Page)
        (if pagination.PerPage = 0 then 10 else pagination.PerPage)
        (scheduleRepository.roleQuery db role userID).reverse).map
          (fun row => loadSchedule db row false) ∧
    (thesisRepository.GetAllThesesByLecturerIDWithPagination db pagination
        lecturerID).1.PaginationResponse.Page =
      (if pagination.Page = 0 then 1 else pagination.Page) ∧
    (thesisRepository.GetAllThesesByLecturerIDWithPagination db pagination
        lecturerID).1.PaginationResponse.PerPage =
      (if pagination.PerPage = 0 then 10 else pagination.PerPage) ∧
    (thesisRepository.GetAllThesesByLecturerIDWithPagination db pagination
        lecturerID).1.PaginationResponse.MaxPage =
      ceilDiv
        (thesisRepository.GetAllThesesByLecturerIDWithPagination db pagination
          lecturerID).1.PaginationResponse.Count
        (if pagination.PerPage = 0 then 10 else pagination.PerPage) ∧
    (thesisRepository.GetAllThesesByLecturerIDWithPagination db pagination
        lecturerID).1.Theses =
      (Paginate (if pagination.Page = 0 then 1 else pagination.Page)
        (if pagination.PerPage = 0 then 10 else pagination.PerPage)
        (thesisRepository.lecturerQuery db lecturerID).reverse).map (loadThesis db) := by
  refine ⟨?_, ?_, ?_, schedules_Schedules db pagination role userID, ?_, ?_, ?_,
    theses_Theses db pagination lecturerID⟩ <;>
  first
    | (rw [schedules_PaginationResponse])
    | (rw [theses_PaginationResponse])

/-! ## Thesis service -/

/-- C17: for every target lecturer id and every pagination request, GetAllByLecturer
invoked by a caller whose resolved role is `student` fails with the authorization error
"student cannot read all lecturer thesis"; this holds for every thesis repository the
service is built with, so the thesis list query is not consulted. -/
theorem GetAllByLecturer_student_denied (ts : thesisService) (db : DB) (token uid : String)
    (user : User) (req : response.PaginationRequest) (lecturerID : String)
    (htoken : ts.jwt token = .ok uid)
    (huser : userRepository.GetUserByID db uid = (user, true, none))
    (hrole : user.Role = constants.ENUM_ROLE_STUDENT) :
    ts.GetAllByLecturer db token req lecturerID
        = .err (Err.Errorf "student cannot read all lecturer thesis") ∧
    ∀ repo : IThesisRepository,
      ({ ts with thesisRepo := repo } : thesisService).GetAllByLecturer db token req lecturerID
        = .err (Err.Errorf "student cannot read all lecturer thesis") := by
  constructor
  · simp [thesisService.GetAllByLecturer, htoken, huser, hrole]
  · intro repo
    simp [thesisService.GetAllByLecturer, htoken, huser, hrole]

theorem GetAllByLecturer_student_denied_witness :
    Scenario.ts.GetAllByLecturer Scenario.dbB0 "u-s" ⟨1, 10⟩ "l1"
        = .err (Err.Errorf "student cannot read all lecturer thesis") ∧
    ∀ repo : IThesisRepository,
      ({ Scenario.ts with thesisRepo := repo } : thesisService).GetAllByLecturer Scenario.dbB0
          "u-s" ⟨1, 10⟩ "l1"
        = .err (Err.Errorf "student cannot read all lecturer thesis") :=
  GetAllByLecturer_student_denied Scenario.ts Scenario.dbB0 "u-s" "u-s"
    (loadUser Scenario.dbB0 Scenario.userS true true true) ⟨1, 10⟩ "l1" rfl (by decide)
    (by decide)

theorem valid_progress_cases {p : String} :
    entity.IsValidProgress p = true ↔
      (p = "bab1" ∨ p = "bab2" ∨ p = "bab3" ∨ p = "bab4" ∨ p = "bab5" ∨
        p = "seminar_proposal" ∨ p = "seminar_hasil") := by
  simp [entity.IsValidProgress, entity.BAB1, entity.BAB2, entity.BAB3, entity.BAB4,
    entity.BAB5, entity.SEMINAR_PROPOSAL, entity.SEMINAR_HASIL,
    constants.ENUM_PROGRESS_BAB1, constants.ENUM_PROGRESS_BAB2, constants.ENUM_PROGRESS_BAB3,
    constants.ENUM_PROGRESS_BAB4, constants.ENUM_PROGRESS_BAB5,
    constants.ENUM_PROGRESS_SEMINAR_PROPOSAL, constants.ENUM_PROGRESS_SEMINAR_HASIL, or_assoc]

theorem valid_progress_ne_empty {p : String} (h : entity.IsValidProgress p = true) : p ≠ "" := by
  rcases valid_progress_cases.1 h with h | h | h | h | h | h | h <;> subst h <;> decide

/-- What `thesisService.Update` ends in: either an error with the store untouched, or the
response after one UpdateThesis with a valid request Progress. -/
theorem thesis_Update_effect (ts : thesisService) (db : DB) (token : String)
    (req : dto.UpdateThesisRequest) :
    (∃ e, ts.Update db token req = (.err e, db)) ∨
      ∃ existingThesis, ts.thesisRepo.GetThesisByID db req.ID = (existingThesis, true, none) ∧
        entity.IsValidProgress req.Progress = true ∧
        (ts.Update db token req).2 =
          (ts.thesisRepo.UpdateThesis db
            { existingThesis with
              Title := req.Title, Description := req.Description, Progress := req.Progress,
              StudentID := req.StudentID }).2 ∧
        ((ts.thesisRepo.UpdateThesis db
            { existingThesis with
              Title := req.Title, Description := req.Description, Progress := req.Progress,
              StudentID := req.StudentID }).1 = none →
          ts.Update db token req =
            (.ok (thesisResponse
              { existingThesis with
                Title := req.Title, Description := req.Description, Progress := req.Progress,
                StudentID := req.StudentID }),
              (ts.thesisRepo.UpdateThesis db
                { existingThesis with
                  Title := req.Title, Description := req.Description,
                  Progress := req.Progress, StudentID := req.StudentID }).2)) ∧
        ((ts.thesisRepo.UpdateThesis db
            { existingThesis with
              Title := req.Title, Description := req.Description, Progress := req.Progress,
              StudentID := req.StudentID }).1 ≠ none →
          (ts.Update db token req).1 = .err (Err.Errorf "failed update thesis")) := by
  rcases ht : ts.jwt token with e | uid
  · left; exact ⟨e, by simp [thesisService.Update, ht]⟩
  rcases hu : userRepository.GetUserByID db uid with ⟨u, fu, eu⟩
  cases eu with
  | some e => left; exact ⟨e, by simp [thesisService.Update, ht, hu]⟩
  | none =>
  cases fu with
  | false => left; exact ⟨Err.ErrNotFound, by simp [thesisService.Update, ht, hu]⟩
  | true =>
  by_cases hr : u.Role = constants.ENUM_ROLE_LECTURER ∨
      u.Role = constants.ENUM_ROLE_PRIMARY_LECTURER ∨
      u.Role = constants.ENUM_ROLE_SECONDARY_LECTURER
  · left
    exact ⟨Err.Errorf "lecturer cannot update thesis",
      by simp only [thesisService.Update, ht, hu, if_pos hr]⟩
  rcases hg : ts.thesisRepo.GetThesisByID db req.ID with ⟨thesis, ft, et⟩
  cases et with
  | some e =>
    left
    exact ⟨Err.ErrGetThesisByID, by simp only [thesisService.Update, ht, hu, if_neg hr, hg]⟩
  | none =>
  cases ft with
  | false =>
    left
    exact ⟨Err.ErrNotFound, by simp only [thesisService.Update, ht, hu, if_neg hr, hg]⟩
  | true =>
  by_cases hv : entity.IsValidProgress req.Progress = true
  · right
    rcases hw : ts.thesisRepo.UpdateThesis db
      { thesis with
        Title := req.Title, Description := req.Description, Progress := req.Progress,
        StudentID := req.StudentID } with ⟨e, db1⟩
    refine ⟨thesis, rfl, hv, ?_, ?_, ?_⟩
    · cases e <;> simp [thesisService.Update, ht, hu, hr, hg, hv, hw]
    · intro hn
      have hn' : e = none := by rw [hw] at hn; exact hn
      subst hn'
      simp [thesisService.Update, ht, hu, hr, hg, hv, hw]
    · intro hn
      have hn' : e ≠ none := by rw [hw] at hn; exact hn
      cases e with
      | none => exact absurd rfl hn'
      | some e => simp [thesisService.Update, ht, hu, hr, hg, hv, hw]
  · left
    exact ⟨Err.Errorf "invalid thesis progress",
      by simp [thesisService.Update, ht, hu, hr, hg, hv]⟩

theorem thesisRepository_GetThesisByID_found {db : DB} {id : String} {thesis : Thesis}
    (h : thesisRepository.GetThesisByID db id = (thesis, true, none)) :
    ∃ trow, db.theses.find? (fun t => t.ID == id) = some trow ∧ thesis = loadThesis db trow := by
  cases hf : db.theses.find? (fun t => t.ID == id) with
  | none => simp [thesisRepository.GetThesisByID, Take, hf] at h
  | some trow =>
    simp [thesisRepository.GetThesisByID, Take, hf] at h
    exact ⟨trow, rfl, h.symm⟩

/-- The rows of table `theses` after UpdateThesis for a thesis loaded under `id` with a
valid request Progress. -/
theorem UpdateThesis_theses (db : DB) (trow : ThesisRow) (req : dto.UpdateThesisRequest)
    (hv : entity.IsValidProgress req.Progress = true) :
    ∀ t ∈ (thesisRepository.UpdateThesis db
        { loadThesis db trow with
          Title := req.Title, Description := req.Description, Progress := req.Progress,
          StudentID := req.StudentID }).2.theses,
      (∃ r ∈ db.theses, r.ID ≠ trow.ID ∧ t = r) ∨
        (t.ID = trow.ID ∧ t.Progress = req.Progress) := by
  intro t ht
  simp only [thesisRepository.UpdateThesis, List.mem_map] at ht
  obtain ⟨r, hr, rfl⟩ := ht
  by_cases hid : r.ID = trow.ID
  · right
    have hne := valid_progress_ne_empty hv
    simp [hid, loadThesis, thesisRepository.updatesRow, nzString, hne]
  · left
    exact ⟨r, hr, hid, by simp [hid, loadThesis]⟩

/-- C18: `thesisService.Update`, over the thesis repository of the store, preserves the
validity of Progress.  A request whose Progress is none of bab1 .. bab5, seminar_proposal,
seminar_hasil ends in an error with the store, journal included, untouched (UpdateThesis
is not called); if every stored thesis has a valid Progress before the call, every stored
thesis has one after it; and after a successful call the request's Progress is valid, is
the Progress of the response and is the stored Progress of the thesis with the requested
id. -/
theorem thesis_Update_keeps_valid_progress (ts : thesisService) (db : DB) (token : String)
    (req : dto.UpdateThesisRequest) (hrepo : ts.thesisRepo = NewThesisRepository) :
    (¬ (req.Progress = constants.ENUM_PROGRESS_BAB1 ∨ req.Progress = constants.ENUM_PROGRESS_BAB2 ∨
          req.Progress = constants.ENUM_PROGRESS_BAB3 ∨
          req.Progress = constants.ENUM_PROGRESS_BAB4 ∨
          req.Progress = constants.ENUM_PROGRESS_BAB5 ∨
          req.Progress = constants.ENUM_PROGRESS_SEMINAR_PROPOSAL ∨
          req.Progress = constants.ENUM_PROGRESS_SEMINAR_HASIL) →
        ∃ e, ts.Update db token req = (.err e, db)) ∧
    ((∀ t ∈ db.theses, entity.IsValidProgress t.Progress = true) →
        ∀ t ∈ (ts.Update db token req).2.theses, entity.IsValidProgress t.Progress = true) ∧
    (∀ res, (ts.Update db token req).1 = .ok res →
        entity.IsValidProgress req.Progress = true ∧ res.Progress = req.Progress ∧
        (∃ t ∈ (ts.Update db token req).2.theses, t.ID = req.ID) ∧
        ∀ t ∈ (ts.Update db token req).2.theses, t.ID = req.ID → t.Progress = req.Progress) := by
  refine ⟨?_, ?_, ?_⟩
  · intro hinv
    rcases thesis_Update_effect ts db token req with he | ⟨thesis, -, hv, -⟩
    · exact he
    · exact absurd (valid_progress_cases.1 hv) hinv
  · intro hall
    rcases thesis_Update_effect ts db token req with ⟨e, he⟩ | ⟨thesis, hg, hv, hdb, -⟩
    · rw [he]; exact hall
    · rw [hrepo] at hg hdb
      obtain ⟨trow, -, rfl⟩ := thesisRepository_GetThesisByID_found hg
      rw [hdb]
      intro t ht
      rcases UpdateThesis_theses db trow req hv t ht with ⟨r, hr, -, heq⟩ | ⟨-, hp⟩
      · rw [heq]; exact hall r hr
      · rw [hp]; exact hv
  · intro res hok
    rcases thesis_Update_effect ts db token req with ⟨e, he⟩ | ⟨thesis, hg, hv, hdb, hsucc, hfail⟩
    · rw [he] at hok
      exact absurd hok (by simp)
    · rw [hrepo] at hg hdb hsucc
      obtain ⟨trow, hfind, rfl⟩ := thesisRepository_GetThesisByID_found hg
      have hid : trow.ID = req.ID := by simpa using List.find?_some hfind
      have hres := hsucc rfl
      rw [hres] at hok
      simp only [Outcome.ok.injEq] at hok
      refine ⟨hv, ?_, ?_, ?_⟩
      · rw [← hok]; rfl
      · rw [hdb]
        have hmem := List.mem_of_find?_eq_some hfind
        refine ⟨_, List.mem_map.2 ⟨trow, hmem, rfl⟩, ?_⟩
        have h1 : ∀ s : String, nzString s s = s := by intro s; simp [nzString]
        simp [loadThesis, thesisRepository.updatesRow, h1, hid]
      · rw [hdb]
        intro t ht htid
        rcases UpdateThesis_theses db trow req hv t ht with ⟨r, -, hne, heq⟩ | ⟨-, hp⟩
        · rw [heq] at htid
          exact absurd (htid.trans hid.symm) hne
        · exact hp

theorem thesis_Update_keeps_valid_progress_witness :
    Scenario.ts.Update Scenario.dbB0 "u-s" ⟨"t1", "New", "d", "bab9", "s1"⟩
      = (.err (Err.Errorf "invalid thesis progress"), Scenario.dbB0) ∧
    (∀ t ∈ Scenario.dbB0.theses, entity.IsValidProgress t.Progress = true) ∧
    (∀ t ∈ (Scenario.ts.Update Scenario.dbB0 "u-s" ⟨"t1", "New", "d", "bab3", "s1"⟩).2.theses,
      entity.IsValidProgress t.Progress = true) ∧
    (Scenario.ts.Update Scenario.dbB0 "u-s" ⟨"t1", "New", "d", "bab3", "s1"⟩).2.theses
      = [ { ID := "t1", Title := "New", Description := "d", Progress := "bab3",
            StudentID := "s1" },
          { ID := "t2", Title := "T2", Description := "", Progress := "bab2",
            StudentID := "s2" } ] :=
  ⟨by decide, by decide,
    (thesis_Update_keeps_valid_progress Scenario.ts Scenario.dbB0 "u-s"
      ⟨"t1", "New", "d", "bab3", "s1"⟩ rfl).2.1 (by decide),
    by decide⟩

/-! ## Two Approval calls in a row -/

theorem GetUserByID_frame (db : DB) (schedules : List ScheduleRow) (journal : List Write)
    (uid : String) :
    userRepository.GetUserByID { db with schedules := schedules, journal := journal } uid
      = userRepository.GetUserByID db uid := rfl

theorem UpdateScheduleStatus_keeps_ids (db : DB) (id status uid : String) :
    (∃ row ∈ db.schedules, row.ID = id) →
      ∃ row ∈ (scheduleRepository.UpdateScheduleStatus db id status uid).2.schedules,
        row.ID = id := by
  rintro ⟨row, hrow, hid⟩
  refine ⟨{ row with Status := status, ApprovedByID := some uid }, ?_, hid⟩
  simp only [scheduleRepository.UpdateScheduleStatus, List.mem_map]
  exact ⟨row, hrow, by simp [hid]⟩

/-- C19: on an existing schedule, a first Approval by the resolved non-student caller
`user1` with the valid status `status1` and a second one by the resolved non-student
caller `user2` with a different valid status `status2` both return no error, and
afterwards the schedules stored under the id carry the Status and the ApprovedBy of the
second call: the first decision is overwritten, there is no "already decided" failure. -/
theorem Approval_twice_overwrites (ss : scheduleService) (db : DB)
    (token1 token2 uid1 uid2 id status1 status2 : String) (user1 user2 : User)
    (hex : ∃ row ∈ db.schedules, row.ID = id)
    (htoken1 : ss.jwt token1 = .ok uid1)
    (huser1 : userRepository.GetUserByID db uid1 = (user1, true, none))
    (hrole1 : user1.Role ≠ constants.ENUM_ROLE_STUDENT)
    (hvalid1 : entity.IsValidScheduleStatus status1 = true)
    (htoken2 : ss.jwt token2 = .ok uid2)
    (huser2 : userRepository.GetUserByID db uid2 = (user2, true, none))
    (hrole2 : user2.Role ≠ constants.ENUM_ROLE_STUDENT)
    (hvalid2 : entity.IsValidScheduleStatus status2 = true)
    (_hdiff : status1 ≠ status2) :
    (ss.Approval db token1 ⟨id, status1⟩).1 = .ok () ∧
    (ss.Approval (ss.Approval db token1 ⟨id, status1⟩).2 token2 ⟨id, status2⟩).1 = .ok () ∧
    (ss.Approval (ss.Approval db token1 ⟨id, status1⟩).2 token2 ⟨id, status2⟩).2.schedules =
      db.schedules.map (fun r =>
        if r.ID = id then { r with Status := status2, ApprovedByID := some uid2 } else r) ∧
    (∃ row ∈ (ss.Approval (ss.Approval db token1 ⟨id, status1⟩).2 token2
        ⟨id, status2⟩).2.schedules, row.ID = id) ∧
    ∀ row ∈ (ss.Approval (ss.Approval db token1 ⟨id, status1⟩).2 token2
        ⟨id, status2⟩).2.schedules,
      row.ID = id → row.Status = status2 ∧ row.ApprovedByID = some uid2 := by
  have h1 : ss.Approval db token1 ⟨id, status1⟩ = _ :=
    Approval_of_resolved hex htoken1 huser1 hrole1
  simp only [hvalid1, if_true] at h1
  have hex1 : ∃ row ∈ (ss.Approval db token1 ⟨id, status1⟩).2.schedules, row.ID = id := by
    rw [h1]; exact UpdateScheduleStatus_keeps_ids db id status1 uid1 hex
  have huser2' : userRepository.GetUserByID (ss.Approval db token1 ⟨id, status1⟩).2 uid2
      = (user2, true, none) := by
    rw [h1]; exact huser2
  have h2 : ss.Approval (ss.Approval db token1 ⟨id, status1⟩).2 token2 ⟨id, status2⟩ = _ :=
    Approval_of_resolved hex1 htoken2 huser2' hrole2
  simp only [hvalid2, if_true] at h2
  have hs : (ss.Approval (ss.Approval db token1 ⟨id, status1⟩).2 token2
      ⟨id, status2⟩).2.schedules =
      db.schedules.map (fun r =>
        if r.ID = id then { r with Status := status2, ApprovedByID := some uid2 } else r) := by
    rw [h2, h1]
    simp only [scheduleRepository.UpdateScheduleStatus, List.map_map]
    apply List.map_congr_left
    intro r _
    by_cases hr : r.ID = id <;> simp [hr]
  refine ⟨by rw [h1], by rw [h2], hs, ?_, ?_⟩
  · rw [h2]; exact UpdateScheduleStatus_keeps_ids _ id status2 uid2 hex1
  · rw [hs]
    intro row hrow hid
    obtain ⟨r, -, rfl⟩ := List.mem_map.1 hrow
    by_cases hr : r.ID = id
    · simp [hr]
    · simp [hr] at hid

theorem Approval_twice_overwrites_witness :
    (Scenario.ss.Approval Scenario.db1 "u-l1" ⟨"sch1", "approved"⟩).1 = .ok () ∧
    (Scenario.ss.Approval (Scenario.ss.Approval Scenario.db1 "u-l1" ⟨"sch1", "approved"⟩).2
      "u-l2" ⟨"sch1", "rejected"⟩).1 = .ok () ∧
    (Scenario.ss.Approval (Scenario.ss.Approval Scenario.db1 "u-l1" ⟨"sch1", "approved"⟩).2
      "u-l2" ⟨"sch1", "rejected"⟩).2.schedules =
      Scenario.db1.schedules.map (fun r =>
        if r.ID = "sch1" then { r with Status := "rejected", ApprovedByID := some "u-l2" }
        else r) ∧
    (∃ row ∈ (Scenario.ss.Approval
        (Scenario.ss.Approval Scenario.db1 "u-l1" ⟨"sch1", "approved"⟩).2
        "u-l2" ⟨"sch1", "rejected"⟩).2.schedules, row.ID = "sch1") ∧
    ∀ row ∈ (Scenario.ss.Approval
        (Scenario.ss.Approval Scenario.db1 "u-l1" ⟨"sch1", "approved"⟩).2
        "u-l2" ⟨"sch1", "rejected"⟩).2.schedules,
      row.ID = "sch1" → row.Status = "rejected" ∧ row.ApprovedByID = some "u-l2" :=
  Approval_twice_overwrites Scenario.ss Scenario.db1 "u-l1" "u-l2" "u-l1" "u-l2" "sch1"
    "approved" "rejected"
    (loadUser Scenario.db1 Scenario.userL1 true true true)
    (loadUser Scenario.db1 Scenario.userL2 true true true)
    (by decide) rfl (by decide) (by decide) (by decide) rfl (by decide) (by decide)
    (by decide) (by decide)

/-! ## GetThesisByID in the two repositories -/

theorem scheduleRepository_GetThesisByID_eq_tests (db : DB) (id : String) :
    scheduleRepository.GetThesisByID db id =
      scheduleRepository.GetThesisByID_tests (takeThesis db id).1 (takeThesis db id).2 := by
  unfold scheduleRepository.GetThesisByID scheduleRepository.GetThesisByID_tests takeThesis
  cases h : Take db.theses (fun t => t.ID == id) <;> simp

theorem thesisRepository_GetThesisByID_eq_tests (db : DB) (id : String) :
    thesisRepository.GetThesisByID db id =
      thesisRepository.GetThesisByID_tests (takeThesis db id).1 (takeThesis db id).2 := by
  unfold thesisRepository.GetThesisByID thesisRepository.GetThesisByID_tests takeThesis
  cases h : Take db.theses (fun t => t.ID == id) with
  | error err => by_cases he : err = Err.ErrRecordNotFound <;> simp [he]
  | ok row => simp

/-- C21 (code bug): both `GetThesisByID` methods are their tests applied to the outcome of
the same query.  The two give the same found flag and error for every outcome except the
missing record: there `scheduleRepository.GetThesisByID` returns found = false with the
storage error `gorm.ErrRecordNotFound`, where `thesisRepository.GetThesisByID` returns
found = false with a nil error.  In the store `db1`, which holds the thesis `t1` only,
the id `t9` shows the difference, and the id `t1` is found by both. -/
theorem GetThesisByID_missing_record_differs :
    (∀ db id, scheduleRepository.GetThesisByID db id =
      scheduleRepository.GetThesisByID_tests (takeThesis db id).1 (takeThesis db id).2) ∧
    (∀ db id, thesisRepository.GetThesisByID db id =
      thesisRepository.GetThesisByID_tests (takeThesis db id).1 (takeThesis db id).2) ∧
    (∀ thesis err,
      (scheduleRepository.GetThesisByID_tests thesis err).2 =
          (thesisRepository.GetThesisByID_tests thesis err).2 ↔
        err ≠ some Err.ErrRecordNotFound) ∧
    (∀ thesis,
      scheduleRepository.GetThesisByID_tests thesis (some Err.ErrRecordNotFound)
          = (default, false, some Err.ErrRecordNotFound) ∧
      thesisRepository.GetThesisByID_tests thesis (some Err.ErrRecordNotFound)
          = (default, false, none)) ∧
    Scenario.db1.theses.map (fun t => t.ID) = ["t1"] ∧
    takeThesis Scenario.db1 "t9" = (default, some Err.ErrRecordNotFound) ∧
    scheduleRepository.GetThesisByID Scenario.db1 "t9"
      = (default, false, some Err.ErrRecordNotFound) ∧
    thesisRepository.GetThesisByID Scenario.db1 "t9" = (default, false, none) ∧
    (scheduleRepository.GetThesisByID Scenario.db1 "t1").2 = (true, none) ∧
    (thesisRepository.GetThesisByID Scenario.db1 "t1").2 = (true, none) := by
  refine ⟨scheduleRepository_GetThesisByID_eq_tests, thesisRepository_GetThesisByID_eq_tests,
    ?_, ?_, by decide, by decide, by decide, by decide, by decide, by decide⟩
  · intro thesis err
    cases err with
    | none => simp [scheduleRepository.GetThesisByID_tests, thesisRepository.GetThesisByID_tests]
    | some e =>
      by_cases he : e = Err.ErrRecordNotFound <;>
        simp [scheduleRepository.GetThesisByID_tests, thesisRepository.GetThesisByID_tests, he]
  · intro thesis
    simp [scheduleRepository.GetThesisByID_tests, thesisRepository.GetThesisByID_tests]

/-! ## IsValidRole -/

/-- C22 (code bug): `IsValidRole` is true exactly for `student`, `primary_lecturer` and
`secondary_lecturer`; for the fourth role of the data model, `lecturer`, it is false, as
for every other string. -/
theorem IsValidRole_omits_lecturer :
    entity.LECTURER = "lecturer" ∧
    entity.IsValidRole entity.LECTURER = false ∧
    entity.IsValidRole entity.STUDENT = true ∧
    entity.IsValidRole entity.PRIMARY_LECTURER = true ∧
    entity.IsValidRole entity.SECONDARY_LECTURER = true ∧
    (∀ r, entity.IsValidRole r = true ↔
      (r = entity.STUDENT ∨ r = entity.PRIMARY_LECTURER ∨ r = entity.SECONDARY_LECTURER)) := by
  refine ⟨rfl, by decide, by decide, by decide, by decide, ?_⟩
  intro r
  simp [entity.IsValidRole, or_assoc]

/-! ## Approval and Delete: the store after an error -/

theorem Approval_err_store (ss : scheduleService) (db : DB) (token : String)
    (req : dto.ApprovalScheduleRequest) (e : Err)
    (h : (ss.Approval db token req).1 = .err e) : (ss.Approval db token req).2 = db := by
  rcases Approval_effect ss db token req with ⟨h1, -⟩ | ⟨uid, -, h2⟩
  · rw [h1]
  · rw [h2] at h
    cases h

theorem Delete_err_store (ss : scheduleService) (db : DB) (token id : String) (e : Err)
    (h : (ss.Delete db token id).1 = .err e) : (ss.Delete db token id).2 = db := by
  rcases Delete_effect ss db token id with ⟨h1, -⟩ | h2
  · rw [h1]
  · rw [h2] at h
    cases h

/-- C23: whenever Approval or Delete returns an error, the store, its journal of writes
included, is the one before the call: neither UpdateScheduleStatus nor DeleteScheduleByID
has been invoked.  Each check returns its error with the store unchanged: a schedule id
that is not stored (Approval and Delete), a credential that does not verify, a user
lookup that fails or finds no user, a student caller, and a status that is not valid. -/
theorem Approval_Delete_error_keeps_store (ss : scheduleService) (db : DB)
    (token id : String) (req : dto.ApprovalScheduleRequest) :
    (∀ e, (ss.Approval db token req).1 = .err e →
      (ss.Approval db token req).2 = db ∧
      (ss.Approval db token req).2.journal = db.journal) ∧
    (∀ e, (ss.Delete db token id).1 = .err e →
      (ss.Delete db token id).2 = db ∧
      (ss.Delete db token id).2.journal = db.journal) ∧
    ((¬ ∃ row ∈ db.schedules, row.ID = req.ID) →
      ss.Approval db token req = (.err Err.ErrNotFound, db)) ∧
    ((¬ ∃ row ∈ db.schedules, row.ID = id) →
      ss.Delete db token id = (.err Err.ErrNotFound, db)) ∧
    ((∃ row ∈ db.schedules, row.ID = req.ID) →
      (∀ err, ss.jwt token = .error err → ss.Approval db token req = (.err err, db)) ∧
      (∀ uid, ss.jwt token = .ok uid →
        (∀ u found err, userRepository.GetUserByID db uid = (u, found, some err) →
          ss.Approval db token req = (.err err, db)) ∧
        (∀ u, userRepository.GetUserByID db uid = (u, false, none) →
          ss.Approval db token req = (.err Err.ErrNotFound, db)) ∧
        (∀ user, userRepository.GetUserByID db uid = (user, true, none) →
          (user.Role = constants.ENUM_ROLE_STUDENT →
            ss.Approval db token req = (.err (Err.Errorf "access denied"), db)) ∧
          (user.Role ≠ constants.ENUM_ROLE_STUDENT →
            entity.IsValidScheduleStatus req.Status = false →
            ss.Approval db token req =
              (.err (Err.Errorf ("invalid status schedule: " ++ req.Status)), db))))) := by
  refine ⟨?_, ?_, ?_, ?_, ?_⟩
  · intro e h
    have := Approval_err_store ss db token req e h
    exact ⟨this, by rw [this]⟩
  · intro e h
    have := Delete_err_store ss db token id e h
    exact ⟨this, by rw [this]⟩
  · intro hno
    simp [scheduleService.Approval, GetScheduleByID_of_find_none (find_schedule_of_not_mem hno)]
  · intro hno
    simp [scheduleService.Delete, GetScheduleByID_of_find_none (find_schedule_of_not_mem hno)]
  · intro hex
    obtain ⟨row, hrow⟩ := find_schedule_of_mem hex
    have hs := GetScheduleByID_of_find_some hrow
    refine ⟨?_, ?_⟩
    · intro err ht
      simp [scheduleService.Approval, hs, ht]
    · intro uid ht
      refine ⟨?_, ?_, ?_⟩
      · intro u found err hu
        simp [scheduleService.Approval, hs, ht, hu]
      · intro u hu
        simp [scheduleService.Approval, hs, ht, hu]
      · intro user hu
        refine ⟨?_, ?_⟩
        · intro hr
          simp [scheduleService.Approval, hs, ht, hu, hr]
        · intro hr hv
          simp [scheduleService.Approval, hs, ht, hu, hr, hv]

theorem Approval_Delete_error_keeps_store_witness :
    ((Scenario.ss.Approval Scenario.db1 "u-s" ⟨"sch1", "approved"⟩).1
        = .err (Err.Errorf "access denied") ∧
      (Scenario.ss.Approval Scenario.db1 "u-s" ⟨"sch1", "approved"⟩).2 = Scenario.db1 ∧
      (Scenario.ss.Approval Scenario.db1 "u-s" ⟨"sch1", "approved"⟩).2.journal
        = Scenario.db1.journal) ∧
    ((Scenario.ss.Delete Scenario.db1 "u-s" "sch9").1 = .err Err.ErrNotFound ∧
      (Scenario.ss.Delete Scenario.db1 "u-s" "sch9").2 = Scenario.db1 ∧
      (Scenario.ss.Delete Scenario.db1 "u-s" "sch9").2.journal = Scenario.db1.journal) ∧
    ((¬ ∃ row ∈ Scenario.db1.schedules, row.ID = "sch9") ∧
      Scenario.ss.Approval Scenario.db1 "u-l1" ⟨"sch9", "approved"⟩
        = (.err Err.ErrNotFound, Scenario.db1)) ∧
    ((∃ row ∈ Scenario.db1.schedules, row.ID = "sch1") ∧
      entity.IsValidScheduleStatus "done" = false ∧
      Scenario.ss.Approval Scenario.db1 "u-l1" ⟨"sch1", "done"⟩
        = (.err (Err.Errorf "invalid status schedule: done"), Scenario.db1)) :=
  ⟨⟨by decide,
      (Approval_Delete_error_keeps_store Scenario.ss Scenario.db1 "u-s" "sch9"
        ⟨"sch1", "approved"⟩).1 (Err.Errorf "access denied") (by decide)⟩,
    ⟨by decide,
      (Approval_Delete_error_keeps_store Scenario.ss Scenario.db1 "u-s" "sch9"
        ⟨"sch1", "approved"⟩).2.1 Err.ErrNotFound (by decide)⟩,
    ⟨by decide,
      (Approval_Delete_error_keeps_store Scenario.ss Scenario.db1 "u-l1" "sch9"
        ⟨"sch9", "approved"⟩).2.2.1 (by decide)⟩,
    ⟨by decide, by decide,
      ((((Approval_Delete_error_keeps_store Scenario.ss Scenario.db1 "u-l1" "sch9"
        ⟨"sch1", "done"⟩).2.2.2.2 (by decide)).2 "u-l1" rfl).2.2
          (loadUser Scenario.db1 Scenario.userL1 true true true) (by decide)).2
        (by decide) (by decide)⟩⟩

/-! ## Thesis update by a lecturer -/

/-- C24: for every update request, `thesisService.Update` invoked by a caller whose
resolved role is `lecturer`, `primary_lecturer` or `secondary_lecturer` returns the error
"lecturer cannot update thesis" with the store unchanged, whatever the thesis repository
is: the thesis is neither read nor written.  Conversely, when Update changes the store
or returns a response, the caller was resolved and has none of the three roles. -/
theorem thesis_Update_lecturer_denied (ts : thesisService) (db : DB) (token : String)
    (req : dto.UpdateThesisRequest) :
    (∀ uid user, ts.jwt token = .ok uid →
      userRepository.GetUserByID db uid = (user, true, none) →
      (user.Role = constants.ENUM_ROLE_LECTURER ∨
        user.Role = constants.ENUM_ROLE_PRIMARY_LECTURER ∨
        user.Role = constants.ENUM_ROLE_SECONDARY_LECTURER) →
      ts.Update db token req = (.err (Err.Errorf "lecturer cannot update thesis"), db) ∧
      ∀ repo : IThesisRepository,
        ({ ts with thesisRepo := repo } : thesisService).Update db token req
          = (.err (Err.Errorf "lecturer cannot update thesis"), db)) ∧
    (((ts.Update db token req).2 ≠ db ∨ ∃ res, (ts.Update db token req).1 = .ok res) →
      ∃ uid user, ts.jwt token = .ok uid ∧
        userRepository.GetUserByID db uid = (user, true, none) ∧
        user.Role ≠ constants.ENUM_ROLE_LECTURER ∧
        user.Role ≠ constants.ENUM_ROLE_PRIMARY_LECTURER ∧
        user.Role ≠ constants.ENUM_ROLE_SECONDARY_LECTURER) := by
  constructor
  · intro uid user ht hu hr
    refine ⟨?_, ?_⟩
    · simp [thesisService.Update, ht, hu, hr]
    · intro repo
      simp [thesisService.Update, ht, hu, hr]
  · intro hreach
    rcases ht : ts.jwt token with e | uid
    · exfalso
      have h : ts.Update db token req = (.err e, db) := by simp [thesisService.Update, ht]
      rw [h] at hreach
      rcases hreach with h1 | ⟨res, h2⟩
      · exact h1 rfl
      · cases h2
    rcases hu : userRepository.GetUserByID db uid with ⟨u, fu, eu⟩
    cases eu with
    | some e =>
      exfalso
      have h : ts.Update db token req = (.err e, db) := by
        simp [thesisService.Update, ht, hu]
      rw [h] at hreach
      rcases hreach with h1 | ⟨res, h2⟩
      · exact h1 rfl
      · cases h2
    | none =>
      cases fu with
      | false =>
        exfalso
        have h : ts.Update db token req = (.err Err.ErrNotFound, db) := by
          simp [thesisService.Update, ht, hu]
        rw [h] at hreach
        rcases hreach with h1 | ⟨res, h2⟩
        · exact h1 rfl
        · cases h2
      | true =>
        by_cases hr : u.Role = constants.ENUM_ROLE_LECTURER ∨
            u.Role = constants.ENUM_ROLE_PRIMARY_LECTURER ∨
            u.Role = constants.ENUM_ROLE_SECONDARY_LECTURER
        · exfalso
          have h : ts.Update db token req
              = (.err (Err.Errorf "lecturer cannot update thesis"), db) := by
            simp [thesisService.Update, ht, hu, hr]
          rw [h] at hreach
          rcases hreach with h1 | ⟨res, h2⟩
          · exact h1 rfl
          · cases h2
        · refine ⟨uid, u, rfl, hu, ?_, ?_, ?_⟩
          · exact fun h => hr (Or.inl h)
          · exact fun h => hr (Or.inr (Or.inl h))
          · exact fun h => hr (Or.inr (Or.inr h))

theorem thesis_Update_lecturer_denied_witness :
    (Scenario.ts.jwt "u-l1" = .ok "u-l1" ∧
      userRepository.GetUserByID Scenario.dbB0 "u-l1"
        = (loadUser Scenario.dbB0 Scenario.userL1 true true true, true, none) ∧
      (loadUser Scenario.dbB0 Scenario.userL1 true true true).Role
        = constants.ENUM_ROLE_LECTURER ∧
      Scenario.ts.Update Scenario.dbB0 "u-l1" ⟨"t1", "New", "d", "bab3", "s1"⟩
        = (.err (Err.Errorf "lecturer cannot update thesis"), Scenario.dbB0)) ∧
    ((Scenario.ts.Update Scenario.dbB0 "u-s" ⟨"t1", "New", "d", "bab3", "s1"⟩).2
        ≠ Scenario.dbB0 ∧
      ∃ uid user, Scenario.ts.jwt "u-s" = .ok uid ∧
        userRepository.GetUserByID Scenario.dbB0 uid = (user, true, none) ∧
        user.Role ≠ constants.ENUM_ROLE_LECTURER ∧
        user.Role ≠ constants.ENUM_ROLE_PRIMARY_LECTURER ∧
        user.Role ≠ constants.ENUM_ROLE_SECONDARY_LECTURER) :=
  ⟨⟨rfl, by decide, by decide,
      ((thesis_Update_lecturer_denied Scenario.ts Scenario.dbB0 "u-l1"
        ⟨"t1", "New", "d", "bab3", "s1"⟩).1 "u-l1"
          (loadUser Scenario.dbB0 Scenario.userL1 true true true) rfl (by decide)
          (Or.inl (by decide))).1⟩,
    ⟨by decide,
      (thesis_Update_lecturer_denied Scenario.ts Scenario.dbB0 "u-s"
        ⟨"t1", "New", "d", "bab3", "s1"⟩).2 (Or.inl (by decide))⟩⟩

end ChatService
